import Mathlib

/-!
# WebScreen firmware: script-engine host bridge and runtime supervisor

A shallow embedding of the parts of the WebScreen firmware (`src/webscreen`)
that the specification talks about, followed by theorems about them.

Conventions of the embedding

* A native pointer is an `Option Nat`: `none` is `nullptr`, `some a` is the
  object at address `a`.
* `int` handles are `Int`; vector indices are `Nat`.  The `(int)` casts of
  `store_lv_obj` are exact because a `std::vector<lv_obj_t *>` on the device
  holds far fewer than `2^31` entries.
* C strings and Arduino `String`s are `List Char`.
* 32-bit unsigned counters are `Nat` with explicit `% 2^32`.
* Calls into external collaborators (toolkit, engine, SoC) are recorded as
  events in a trace, and what they return is an input of the model.
-/

namespace WebScreen

/-! ## Handle registry (`lvgl_elk.h`, section G2) -/

/-- A native pointer: `none` is `nullptr`. -/
abbrev Ptr := Option Nat

/-- The vector `g_objects` of `lv_obj_t *`. -/
abbrev Registry := List Ptr

/-- The scan loop of `store_lv_obj`: the first index `i` with `!g_objects[i]`,
if there is one. -/
def store_scan : Registry → Option Nat
  | [] => none
  | none :: _ => some 0
  | some _ :: rest => (store_scan rest).map (· + 1)

/-- `store_lv_obj(obj)`: writes `obj` into the first null slot, or appends it;
returns the slot index and the new vector. -/
def store_lv_obj (g : Registry) (obj : Ptr) : Int × Registry :=
  match store_scan g with
  | some i => ((i : Int), g.set i obj)
  | none => ((((g ++ [obj]).length - 1 : Nat) : Int), g ++ [obj])

/-- `get_lv_obj(h)`: `(h >= 0 && h < size) ? g_objects[h] : nullptr`. -/
def get_lv_obj (g : Registry) (h : Int) : Ptr :=
  if 0 ≤ h ∧ h < (g.length : Int) then g.getD h.toNat none else none

/-- `release_lv_obj(h)`: `if (h >= 0 && h < size) g_objects[h] = nullptr`. -/
def release_lv_obj (g : Registry) (h : Int) : Registry :=
  if 0 ≤ h ∧ h < (g.length : Int) then g.set h.toNat none else g

/-- One registry operation issued by a caller: a store of the non-null object
at address `o`, or a release of handle `h`. -/
inductive RegOp where
  | store (o : Nat)
  | release (h : Int)
  deriving DecidableEq, Repr

/-- The registry after one operation. -/
def RegOp.apply (g : Registry) : RegOp → Registry
  | .store o => (store_lv_obj g (some o)).2
  | .release h => release_lv_obj g h

/-- The registry after a sequence of operations, oldest first. -/
def runOps (g : Registry) (ops : List RegOp) : Registry :=
  ops.foldl RegOp.apply g

/-! ## Script values (`elk.h`) -/

/-- A script value as the bindings build and inspect it (`js_mknull`,
`js_mkundef`, `js_mktrue`, `js_mkfalse`, `js_mknum`, `js_mkstr`, `js_mkerr`).
Numbers carry the integer value of the double. -/
inductive jsval where
  | null
  | undef
  | tru
  | fls
  | num (n : Int)
  | str (s : List Char)
  | err (msg : List Char)
  deriving DecidableEq, Repr

/-! ## Style pool (`lvgl_elk.h`, section H) -/

/-- `MAX_STYLES`. -/
def MAX_STYLES : Nat := 32

/-- The array `g_style_map` of `lv_style_t *`; it has `MAX_STYLES` entries. -/
abbrev StyleMap := List Ptr

/-- The initial `g_style_map = { nullptr }`. -/
def g_style_map_init : StyleMap := List.replicate MAX_STYLES none

/-- `get_lv_style(handle)`. -/
def get_lv_style (m : StyleMap) (handle : Int) : Ptr :=
  if handle < 0 ∨ handle ≥ (MAX_STYLES : Int) then none else m.getD handle.toNat none

/-- The loop `for (i = ...; i < MAX_STYLES; i++) if (!g_style_map[i])` of
`js_create_style`, with `n` iterations left starting at index `i`: the first
index whose entry is null. -/
def create_style_scan (m : StyleMap) : Nat → Nat → Option Nat
  | 0, _ => none
  | n + 1, i => if m.getD i none = none then some i else create_style_scan m n (i + 1)

/-- `js_create_style`: `st` is the address that `new lv_style_t` returns (the
allocation is assumed to succeed).  Returns the script value and the new
`g_style_map`. -/
def js_create_style (m : StyleMap) (st : Nat) : jsval × StyleMap :=
  match create_style_scan m MAX_STYLES 0 with
  | some i => (jsval.num (i : Int), m.set i (some st))
  | none => (jsval.num (-1), m)

/-- Successive calls of `create_style`, one per allocated address; the results
in call order and the final `g_style_map`. -/
def create_styles (m : StyleMap) : List Nat → List jsval × StyleMap
  | [] => ([], m)
  | st :: rest =>
    ((js_create_style m st).1 :: (create_styles (js_create_style m st).2 rest).1,
      (create_styles (js_create_style m st).2 rest).2)

/-- The pool after `k` successful creations from the empty pool: the first `k`
entries are set, the others null. -/
def FilledTo (k : Nat) (m : StyleMap) : Prop :=
  m.length = MAX_STYLES ∧ (∀ j, j < k → m.getD j none ≠ none) ∧
    (∀ j, k ≤ j → m.getD j none = none)

/-- The value the `i`-th of a run of calls returns when the run starts with `k`
styles in the pool. -/
def expectedHandle (k i : Nat) : jsval :=
  if k + i < MAX_STYLES then jsval.num ((k + i : Nat) : Int) else jsval.num (-1)

/-! ## Execution supervisor (`lvgl_elk.h`, `elk_timer_cb`) -/

/-- `GC_INTERVAL`. -/
def GC_INTERVAL : Nat := 60

/-- `REBOOT_THRESHOLD`. -/
def REBOOT_THRESHOLD : Nat := 36000

/-- The modulus of `uint32_t` arithmetic. -/
def UINT32_MOD : Nat := 4294967296

/-- What `js_eval` gave back for the call snippet: a value whose `js_type` is
not `JS_ERR`, or an error value together with what `js_str` renders for it
(`none` when `js_str` returns a null pointer). -/
inductive EvalResult where
  | ok
  | error (text : Option (List Char))
  deriving DecidableEq, Repr

/-- The statics that `elk_timer_cb` keeps between ticks. -/
structure TimerState where
  g_timer_exec_count : Nat
  lastWarning : Nat
  deriving DecidableEq, Repr

/-- What one invocation of `elk_timer_cb` reads from its surroundings:
`timer->user_data`, the global `js`, `ESP.getFreeHeap()` at the start of the
tick and again after the forced collection, `millis()`, and the result of
`js_eval` if the snippet is evaluated. -/
structure Tick where
  func_name : Option (List Char)
  js : Ptr
  freeHeap : Nat
  freeHeapAfterGc : Nat
  now : Nat
  evalResult : EvalResult
  deriving DecidableEq, Repr

/-- The externally visible actions of `elk_timer_cb`, in program order. -/
inductive TimerEvent where
  | log_low_memory (freeHeap : Nat)
  | js_gc
  | log_critical (freeHeap : Nat)
  | delay (ms : Nat)
  | restart
  | log_scheduled_reboot
  | js_eval (snippet : List Char)
  | log_eval_error
  | log_parse_error
  deriving DecidableEq, Repr

/-- `snprintf(snippet, sizeof(snippet), "%s();", func_name)` with
`char snippet[64]`: at most 63 characters are kept. -/
def timer_snippet (func_name : List Char) : List Char :=
  (func_name ++ "();".toList).take 63

/-- `errStr && strstr(errStr, "expected")`. -/
def is_parse_error : Option (List Char) → Bool
  | none => false
  | some text => decide ("expected".toList <:+: text)

/-- `elk_timer_cb(timer)`.  Returns the statics after the call and the actions
performed.  `ESP.restart()` does not return, so nothing follows a `restart`. -/
def elk_timer_cb (s : TimerState) (t : Tick) : TimerState × List TimerEvent :=
  match t.func_name, t.js with
  | some func_name, some _ =>
    let count := (s.g_timer_exec_count + 1) % UINT32_MOD
    if t.freeHeap < 20000 then
      let warn : Bool := decide ((t.now + UINT32_MOD - s.lastWarning) % UINT32_MOD > 5000)
      let s1 : TimerState := { g_timer_exec_count := count,
                               lastWarning := if warn then t.now else s.lastWarning }
      let ev1 := (if warn then [TimerEvent.log_low_memory t.freeHeap] else [])
                  ++ [TimerEvent.js_gc]
      if t.freeHeapAfterGc < 15000 then
        (s1, ev1 ++ [TimerEvent.log_critical t.freeHeapAfterGc, TimerEvent.delay 1000,
                     TimerEvent.restart])
      else
        (s1, ev1)
    else
      let s1 : TimerState := { g_timer_exec_count := count, lastWarning := s.lastWarning }
      let ev1 := if count % GC_INTERVAL = 0 then [TimerEvent.js_gc] else []
      if count ≥ REBOOT_THRESHOLD then
        (s1, ev1 ++ [TimerEvent.log_scheduled_reboot, TimerEvent.delay 1000,
                     TimerEvent.restart])
      else
        let ev2 := ev1 ++ [TimerEvent.js_eval (timer_snippet func_name)]
        match t.evalResult with
        | EvalResult.ok => (s1, ev2)
        | EvalResult.error text =>
          if is_parse_error text then
            (s1, ev2 ++ [TimerEvent.log_eval_error, TimerEvent.log_parse_error,
                         TimerEvent.delay 1000, TimerEvent.restart])
          else
            (s1, ev2 ++ [TimerEvent.log_eval_error])
  | _, _ => (s, [])

/-- Consecutive ticks of one timer: the actions of each tick, up to and
including the first tick that restarts the device. -/
def run_ticks (s : TimerState) : List Tick → List (List TimerEvent)
  | [] => []
  | t :: rest =>
    if TimerEvent.restart ∈ (elk_timer_cb s t).2 then [(elk_timer_cb s t).2]
    else (elk_timer_cb s t).2 :: run_ticks (elk_timer_cb s t).1 rest

/-- A tick of the timer registered for the script function `tick`, with a live
engine, on which the free heap reads `heap` both at the start and after a
collection, and on which the callback, if evaluated, succeeds. -/
def simulated_tick (heap now : Nat) : Tick :=
  { func_name := some "tick".toList, js := some 1, freeHeap := heap,
    freeHeapAfterGc := heap, now := now, evalResult := EvalResult.ok }

/-! ## Runtime mode supervisor (`webscreen_main.cpp`, `webscreen_runtime.cpp`) -/

/-- `webscreen_app_state_t`. -/
inductive webscreen_app_state_t where
  | INITIALIZING
  | RUNNING_JS
  | RUNNING_FALLBACK
  | ERROR
  | SHUTDOWN
  deriving DecidableEq, Repr

/-- `ELK_HEAP_BYTES`. -/
def ELK_HEAP_BYTES : Nat := 256 * 1024

/-- Calls that the start-up path makes into the engine, the RTOS, the
allocator and the display/file-system setup, recorded in program order.
`ps_malloc` and `malloc` are the arena allocations of `init_elk_memory`; what
`init_lvgl_display`, `init_lv_fs`, `init_mem_fs` and `init_ram_images` do
inside touches none of the globals of `Runtime` and is recorded as one call
each. -/
inductive RuntimeCall where
  | vTaskDelete (task : Nat)
  | init_lvgl_display
  | init_lv_fs
  | init_mem_fs
  | init_ram_images
  | init_elk_memory
  | ps_malloc (bytes : Nat)
  | malloc (bytes : Nat)
  | js_create (size : Nat)
  | js_setgct (threshold : Nat)
  | register_js_functions
  | xTaskCreatePinnedToCore
  deriving DecidableEq, Repr

/-- The globals that the start-up path reads and writes: `g_app_state`,
`g_use_fallback` and `g_webscreen_config.script_file` of `webscreen_main.cpp`,
the statics of `webscreen_runtime.cpp`, and `js`, `elk_memory`,
`elk_memory_size` of `lvgl_elk.h`; `calls` is the record of collaborator
calls made so far. -/
structure Runtime where
  g_app_state : webscreen_app_state_t
  g_use_fallback : Bool
  script_file : String
  g_javascript_active : Bool
  g_fallback_active : Bool
  g_current_script_file : String
  g_last_error : String
  g_runtime_start_time : Nat
  g_lvgl_initialized : Bool
  g_js_task_handle : Ptr
  g_js_engine_initialized : Bool
  g_js_script_content : String
  js : Ptr
  elk_memory : Ptr
  elk_memory_size : Nat
  calls : List RuntimeCall
  deriving DecidableEq, Repr

/-- What the collaborators answer while the runtime starts: `SD_MMC.exists` for
the script in `start_runtime` and again in `webscreen_runtime_start_javascript`,
`ps_malloc`, `malloc`, `js_create`, whether `SD_MMC.open` yields a file, what
`readString` reads from it, the task handle of `xTaskCreatePinnedToCore`
(`none` when the result is not `pdPASS`), and `millis()`. -/
structure RuntimeEnv where
  exists_main : Bool
  exists_runtime : Bool
  ps_malloc : Ptr
  malloc : Ptr
  js_create : Ptr
  open_ok : Bool
  readString : String
  xTaskCreate : Ptr
  millis : Nat
  deriving DecidableEq, Repr

/-- The globals as their initialisers leave them at boot. -/
def boot_state : Runtime :=
  { g_app_state := webscreen_app_state_t.INITIALIZING
    g_use_fallback := false
    script_file := "/app.js"
    g_javascript_active := false
    g_fallback_active := false
    g_current_script_file := ""
    g_last_error := ""
    g_runtime_start_time := 0
    g_lvgl_initialized := false
    g_js_task_handle := none
    g_js_engine_initialized := false
    g_js_script_content := ""
    js := none
    elk_memory := none
    elk_memory_size := 0
    calls := [] }

/-- `init_elk_memory()`. -/
def init_elk_memory (st : Runtime) (env : RuntimeEnv) : Bool × Runtime :=
  let st0 := { st with calls := st.calls ++ [RuntimeCall.init_elk_memory] }
  if st0.elk_memory ≠ none then (true, st0)
  else
    let st1 := { st0 with calls := st0.calls ++ [RuntimeCall.ps_malloc ELK_HEAP_BYTES],
                          elk_memory := env.ps_malloc }
    if st1.elk_memory ≠ none then (true, { st1 with elk_memory_size := ELK_HEAP_BYTES })
    else
      let st2 := { st1 with calls := st1.calls ++ [RuntimeCall.malloc (96 * 1024)],
                            elk_memory := env.malloc }
      if st2.elk_memory ≠ none then (true, { st2 with elk_memory_size := 96 * 1024 })
      else (false, st2)

/-- `webscreen_runtime_shutdown()`. -/
def webscreen_runtime_shutdown (st : Runtime) : Runtime :=
  if st.g_javascript_active || st.g_fallback_active then
    let st1 :=
      match st.g_js_task_handle with
      | some task => { st with calls := st.calls ++ [RuntimeCall.vTaskDelete task],
                               g_js_task_handle := none }
      | none => st
    { st1 with js := none
               g_javascript_active := false
               g_fallback_active := false
               g_js_engine_initialized := false
               g_current_script_file := ""
               g_js_script_content := ""
               g_last_error := "" }
  else st

/-- `webscreen_runtime_init_lvgl()`. -/
def webscreen_runtime_init_lvgl (st : Runtime) : Bool × Runtime :=
  (true, { st with g_lvgl_initialized := true })

/-- `webscreen_runtime_start_fallback()`. -/
def webscreen_runtime_start_fallback (st : Runtime) (env : RuntimeEnv) : Bool × Runtime :=
  let st1 := webscreen_runtime_shutdown st
  match webscreen_runtime_init_lvgl st1 with
  | (false, st2) => (false, { st2 with g_last_error := "Failed to initialize LVGL for fallback" })
  | (true, st2) =>
    (true, { st2 with g_javascript_active := false
                      g_fallback_active := true
                      g_runtime_start_time := env.millis
                      g_last_error := "" })

/-- `webscreen_runtime_init_sd_filesystem()`. -/
def webscreen_runtime_init_sd_filesystem (st : Runtime) : Bool × Runtime :=
  (true, { st with calls := st.calls ++ [RuntimeCall.init_lv_fs] })

/-- `webscreen_runtime_init_memory_filesystem()`. -/
def webscreen_runtime_init_memory_filesystem (st : Runtime) : Bool × Runtime :=
  (true, { st with calls := st.calls ++ [RuntimeCall.init_mem_fs] })

/-- `webscreen_runtime_init_ram_images()`. -/
def webscreen_runtime_init_ram_images (st : Runtime) : Bool × Runtime :=
  (true, { st with calls := st.calls ++ [RuntimeCall.init_ram_images] })

/-- `webscreen_runtime_register_js_functions()`. -/
def webscreen_runtime_register_js_functions (st : Runtime) : Runtime :=
  if st.js = none then st
  else { st with calls := st.calls ++ [RuntimeCall.register_js_functions] }

/-- `webscreen_runtime_init_javascript_engine()`. -/
def webscreen_runtime_init_javascript_engine (st : Runtime) (env : RuntimeEnv) :
    Bool × Runtime :=
  if st.g_js_engine_initialized then (true, st)
  else
    match init_elk_memory st env with
    | (false, st1) => (false, st1)
    | (true, st1) =>
      let st2 := { st1 with calls := st1.calls ++ [RuntimeCall.js_create st1.elk_memory_size],
                            js := env.js_create }
      if st2.js = none then (false, st2)
      else
        let st3 := { st2 with
          calls := st2.calls ++ [RuntimeCall.js_setgct (st2.elk_memory_size / 4)] }
        let st4 := webscreen_runtime_register_js_functions st3
        (true, { st4 with g_js_engine_initialized := true })

/-- `webscreen_runtime_load_script(script_file)`; `none` is a null path. -/
def webscreen_runtime_load_script (st : Runtime) (env : RuntimeEnv)
    (script_file : Option String) : Bool × Runtime :=
  match script_file with
  | none => (false, st)
  | some _ =>
    if !env.open_ok then (false, st)
    else
      let st1 := { st with g_js_script_content := env.readString }
      if st1.g_js_script_content.length = 0 then (false, st1)
      else (true, st1)

/-- `webscreen_runtime_start_javascript_task()`. -/
def webscreen_runtime_start_javascript_task (st : Runtime) (env : RuntimeEnv) :
    Bool × Runtime :=
  if st.g_js_task_handle ≠ none then (true, st)
  else
    let st1 := { st with calls := st.calls ++ [RuntimeCall.xTaskCreatePinnedToCore] }
    match env.xTaskCreate with
    | none => (false, st1)
    | some task => (true, { st1 with g_js_task_handle := some task })

/-- `webscreen_runtime_start_javascript(script_file)`; `none` is a null path. -/
def webscreen_runtime_start_javascript (st : Runtime) (env : RuntimeEnv)
    (script_file : Option String) : Bool × Runtime :=
  match script_file with
  | none => (false, { st with g_last_error := "Script file path is NULL" })
  | some path =>
    if !env.exists_runtime then
      (false, { st with g_last_error := "Script file not found: " ++ path })
    else
      let st1 := webscreen_runtime_shutdown st
      let st2 := { st1 with calls := st1.calls ++ [RuntimeCall.init_lvgl_display] }
      match webscreen_runtime_init_sd_filesystem st2 with
      | (false, st3) => (false, { st3 with g_last_error := "Failed to initialize SD filesystem" })
      | (true, st3) =>
      match webscreen_runtime_init_memory_filesystem st3 with
      | (false, st4) =>
        (false, { st4 with g_last_error := "Failed to initialize memory filesystem" })
      | (true, st4) =>
      match webscreen_runtime_init_ram_images st4 with
      | (false, st5) => (false, { st5 with g_last_error := "Failed to initialize RAM images" })
      | (true, st5) =>
      match webscreen_runtime_init_javascript_engine st5 env with
      | (false, st6) =>
        (false, { st6 with g_last_error := "Failed to initialize JavaScript engine" })
      | (true, st6) =>
      match webscreen_runtime_load_script st6 env (some path) with
      | (false, st7) => (false, { st7 with g_last_error := "Failed to load JavaScript script" })
      | (true, st7) =>
      match webscreen_runtime_start_javascript_task st7 env with
      | (false, st8) =>
        (false, { st8 with g_last_error := "Failed to start JavaScript execution task" })
      | (true, st8) =>
        (true, { st8 with g_current_script_file := path
                          g_javascript_active := true
                          g_fallback_active := false
                          g_runtime_start_time := env.millis
                          g_last_error := "" })

/-- `start_runtime()` of `webscreen_main.cpp`. -/
def start_runtime (st : Runtime) (env : RuntimeEnv) : Bool × Runtime :=
  if st.g_use_fallback then
    webscreen_runtime_start_fallback
      { st with g_app_state := webscreen_app_state_t.RUNNING_FALLBACK } env
  else if !env.exists_main then
    webscreen_runtime_start_fallback
      { st with g_use_fallback := true
                g_app_state := webscreen_app_state_t.RUNNING_FALLBACK } env
  else
    match webscreen_runtime_start_javascript st env (some st.script_file) with
    | (true, st1) => (true, { st1 with g_app_state := webscreen_app_state_t.RUNNING_JS })
    | (false, st1) =>
      webscreen_runtime_start_fallback
        { st1 with g_use_fallback := true
                   g_app_state := webscreen_app_state_t.RUNNING_FALLBACK } env

/-- Collaborator answers for a start in which the script file exists, the arena
and the engine are created, and the file opens but is empty. -/
def env_empty_script : RuntimeEnv :=
  { exists_main := true, exists_runtime := true, ps_malloc := some 4096, malloc := some 8192,
    js_create := some 4096, open_ok := true, readString := "", xTaskCreate := some 77,
    millis := 1234 }

/-- Collaborator answers for a start in which the script is loaded but the
execution task cannot be created. -/
def env_task_failure : RuntimeEnv :=
  { exists_main := true, exists_runtime := true, ps_malloc := some 4096, malloc := some 8192,
    js_create := some 4096, open_ok := true, readString := "print(1);", xTaskCreate := none,
    millis := 1234 }

/-! ## Quote stripping in the bindings (`lvgl_elk.h`) -/

/-- The double-quote character. -/
def DQUOTE : Char := Char.ofNat 34

/-- `n - 1` in `unsigned int` arithmetic, for a string length `n` (which is
below `2^32` on the device): it wraps to `2^32 - 1` at `n = 0`. -/
def u32_pred (n : Nat) : Nat := if n = 0 then UINT32_MOD - 1 else n - 1

namespace ArduinoString

/-- Arduino core `String::startsWith(s2)` (library code, not part of this
repository): false when `s2` is longer, else a comparison of the leading
characters. -/
def startsWith (s s2 : List Char) : Bool := decide (s2 <+: s)

/-- Arduino core `String::endsWith(s2)`: false when `s2` is longer, else a
comparison of the trailing characters. -/
def endsWith (s s2 : List Char) : Bool := decide (s2 <:+ s)

/-- Arduino core `String::substring(left, right)`: the bounds are swapped when
`left > right`, the result is empty when `left >= length`, `right` is cut to
the length, and the characters from `left` up to `right` are copied. -/
def substring (s : List Char) (left right : Nat) : List Char :=
  let l := if left > right then right else left
  let r := if left > right then left else right
  if l ≥ s.length then []
  else (s.drop l).take ((if r > s.length then s.length else r) - l)

/-- Arduino core `String::remove(index, count)`: nothing happens when
`index >= length` or `count` is 0; `count` is cut to what is left after
`index`; the characters after the removed range move down. -/
def remove (s : List Char) (index count : Nat) : List Char :=
  if index ≥ s.length then s
  else if count = 0 then s
  else
    let c := if count > s.length - index then s.length - index else count
    s.take index ++ s.drop (index + c)

end ArduinoString

/-- The quote stripping of `js_wifi_connect` (and of the other bindings that
use `substring`): `if (s.startsWith("\"") && s.endsWith("\""))
s = s.substring(1, s.length() - 1)`. -/
def strip_quotes_substring (s : List Char) : List Char :=
  if ArduinoString.startsWith s [DQUOTE] && ArduinoString.endsWith s [DQUOTE] then
    ArduinoString.substring s 1 (u32_pred s.length)
  else s

/-- The quote stripping of `js_sd_read_file`: `if (path.startsWith("\"") &&
path.endsWith("\"")) { path.remove(0, 1); path.remove(path.length() - 1, 1); }`. -/
def strip_quotes_remove (path : List Char) : List Char :=
  if ArduinoString.startsWith path [DQUOTE] && ArduinoString.endsWith path [DQUOTE] then
    let path1 := ArduinoString.remove path 0 1
    ArduinoString.remove path1 (u32_pred path1.length) 1
  else path

/-- The quote stripping of `js_label_set_text` on the C string `rawText`: the
contents of `textBuffer` (a `char[256]`) handed to `lv_label_set_text`.  The
quotes are dropped when `rawLen >= 2` and the first and last characters are
quotes; the length is then clamped to 255. -/
def strip_quotes_cstr (rawText : List Char) : List Char :=
  let rawLen := rawText.length
  let quoted : Bool := decide (rawLen ≥ 2) && decide (rawText[0]? = some DQUOTE)
    && decide (rawText[rawLen - 1]? = some DQUOTE)
  let start := if quoted then 1 else 0
  let len := if quoted then rawLen - 2 else rawLen
  let len := if len ≥ 256 then 256 - 1 else len
  (rawText.drop start).take len

/-- The string `s` wrapped in one pair of double quotes. -/
def quoted (s : List Char) : List Char := DQUOTE :: s ++ [DQUOTE]

/-- A string is wrapped in quotes when it both starts and ends with a
double-quote character. -/
def IsWrapped (s : List Char) : Prop := [DQUOTE] <+: s ∧ [DQUOTE] <:+ s

instance (s : List Char) : Decidable (IsWrapped s) := by
  unfold IsWrapped
  infer_instance

/-! ## Host binding table (`lvgl_elk.h`, `register_js_functions`) -/

/-- The argument-count test that opens a binding, with the script value it
returns when the test rejects the call: no test, `if (nargs < n) return v`, or
`if (nargs != n) return v`. -/
inductive ArgCheck where
  | unchecked
  | atLeast (n : Nat) (sentinel : jsval)
  | exactly (n : Nat) (sentinel : jsval)
  deriving DecidableEq, Repr

/-- The value with which the test rejects a call with `nargs` arguments; `none`
when the call passes the test and the body runs. -/
def ArgCheck.reject : ArgCheck → Nat → Option jsval
  | ArgCheck.unchecked, _ => none
  | ArgCheck.atLeast n v, nargs => if nargs < n then some v else none
  | ArgCheck.exactly n v, nargs => if nargs ≠ n then some v else none

/-- The minimum argument count that the test enforces, if it enforces one. -/
def ArgCheck.minimum : ArgCheck → Option Nat
  | ArgCheck.unchecked => none
  | ArgCheck.atLeast n _ => some n
  | ArgCheck.exactly n _ => some n

/-- One `js_set(js, global, name, js_mkfun(cfun))` line of
`register_js_functions`, with the argument-count test of `cfun`. -/
structure Binding where
  name : String
  cfun : String
  check : ArgCheck
  deriving DecidableEq, Repr

/-- The bindings that `register_js_functions` installs, in registration order.
In every binding but one the test is the first statement of the function;
`js_ble_write` first returns false when no characteristic exists and then
applies its test, which returns false as well. -/
def register_js_functions : List Binding :=
  [
    Binding.mk "print" "js_print" (ArgCheck.unchecked),
    Binding.mk "mem_stats" "js_mem_stats" (ArgCheck.unchecked),
    Binding.mk "wifi_connect" "js_wifi_connect" (ArgCheck.exactly 2 jsval.fls),
    Binding.mk "wifi_status" "js_wifi_status" (ArgCheck.unchecked),
    Binding.mk "wifi_get_ip" "js_wifi_get_ip" (ArgCheck.unchecked),
    Binding.mk "delay" "js_delay" (ArgCheck.exactly 1 jsval.null),
    Binding.mk "set_brightness" "js_set_brightness" (ArgCheck.atLeast 1 (jsval.num (-1))),
    Binding.mk "get_brightness" "js_get_brightness" (ArgCheck.unchecked),
    Binding.mk "create_timer" "js_create_timer" (ArgCheck.atLeast 2 jsval.null),
    Binding.mk "toNumber" "js_to_number" (ArgCheck.exactly 1 (jsval.num 0)),
    Binding.mk "numberToString" "js_number_to_string" (ArgCheck.exactly 1 (jsval.str [])),
    Binding.mk "str_index_of" "js_str_index_of" (ArgCheck.atLeast 2 (jsval.num (-1))),
    Binding.mk "str_substring" "js_str_substring" (ArgCheck.atLeast 3 (jsval.str [])),
    Binding.mk "http_get" "js_http_get" (ArgCheck.atLeast 1 (jsval.str [])),
    Binding.mk "http_post" "js_http_post" (ArgCheck.atLeast 2 (jsval.str [])),
    Binding.mk "http_delete" "js_http_delete" (ArgCheck.atLeast 1 (jsval.str [])),
    Binding.mk "http_set_ca_cert_from_sd" "js_http_set_ca_cert_from_sd" (ArgCheck.atLeast 1 jsval.fls),
    Binding.mk "parse_json_value" "js_parse_json_value" (ArgCheck.atLeast 2 (jsval.str [])),
    Binding.mk "http_set_header" "js_http_set_header" (ArgCheck.atLeast 2 jsval.fls),
    Binding.mk "http_clear_headers" "js_http_clear_headers" (ArgCheck.unchecked),
    Binding.mk "sd_read_file" "js_sd_read_file" (ArgCheck.exactly 1 jsval.null),
    Binding.mk "sd_write_file" "js_sd_write_file" (ArgCheck.exactly 2 jsval.fls),
    Binding.mk "sd_list_dir" "js_sd_list_dir" (ArgCheck.exactly 1 jsval.null),
    Binding.mk "sd_delete_file" "js_sd_delete_file" (ArgCheck.atLeast 1 jsval.fls),
    Binding.mk "ble_init" "js_ble_init" (ArgCheck.atLeast 3 jsval.fls),
    Binding.mk "ble_is_connected" "js_ble_is_connected" (ArgCheck.unchecked),
    Binding.mk "ble_write" "js_ble_write" (ArgCheck.atLeast 1 jsval.fls),
    Binding.mk "show_gif_from_sd" "js_show_gif_from_sd" (ArgCheck.atLeast 3 jsval.null),
    Binding.mk "draw_label" "js_lvgl_draw_label" (ArgCheck.atLeast 3 jsval.null),
    Binding.mk "draw_rect" "js_lvgl_draw_rect" (ArgCheck.atLeast 4 (jsval.num (-1))),
    Binding.mk "show_image" "js_lvgl_show_image" (ArgCheck.atLeast 3 jsval.null),
    Binding.mk "create_label" "js_create_label" (ArgCheck.atLeast 2 (jsval.num (-1))),
    Binding.mk "label_set_text" "js_label_set_text" (ArgCheck.atLeast 2 jsval.null),
    Binding.mk "create_image" "js_create_image" (ArgCheck.atLeast 3 (jsval.num (-1))),
    Binding.mk "create_image_from_ram" "js_create_image_from_ram" (ArgCheck.atLeast 3 (jsval.num (-1))),
    Binding.mk "rotate_obj" "js_rotate_obj" (ArgCheck.atLeast 2 jsval.null),
    Binding.mk "move_obj" "js_move_obj" (ArgCheck.atLeast 3 jsval.null),
    Binding.mk "animate_obj" "js_animate_obj" (ArgCheck.atLeast 5 jsval.null),
    Binding.mk "create_style" "js_create_style" (ArgCheck.unchecked),
    Binding.mk "obj_add_style" "js_obj_add_style" (ArgCheck.atLeast 2 jsval.null),
    Binding.mk "style_set_radius" "js_style_set_radius" (ArgCheck.atLeast 2 jsval.null),
    Binding.mk "style_set_bg_opa" "js_style_set_bg_opa" (ArgCheck.atLeast 2 jsval.null),
    Binding.mk "style_set_bg_color" "js_style_set_bg_color" (ArgCheck.atLeast 2 jsval.null),
    Binding.mk "style_set_border_color" "js_style_set_border_color" (ArgCheck.atLeast 2 jsval.null),
    Binding.mk "style_set_border_width" "js_style_set_border_width" (ArgCheck.atLeast 2 jsval.null),
    Binding.mk "style_set_border_opa" "js_style_set_border_opa" (ArgCheck.atLeast 2 jsval.null),
    Binding.mk "style_set_border_side" "js_style_set_border_side" (ArgCheck.atLeast 2 jsval.null),
    Binding.mk "style_set_outline_width" "js_style_set_outline_width" (ArgCheck.atLeast 2 jsval.null),
    Binding.mk "style_set_outline_color" "js_style_set_outline_color" (ArgCheck.atLeast 2 jsval.null),
    Binding.mk "style_set_outline_pad" "js_style_set_outline_pad" (ArgCheck.atLeast 2 jsval.null),
    Binding.mk "style_set_shadow_width" "js_style_set_shadow_width" (ArgCheck.atLeast 2 jsval.null),
    Binding.mk "style_set_shadow_color" "js_style_set_shadow_color" (ArgCheck.atLeast 2 jsval.null),
    Binding.mk "style_set_shadow_ofs_x" "js_style_set_shadow_ofs_x" (ArgCheck.atLeast 2 jsval.null),
    Binding.mk "style_set_shadow_ofs_y" "js_style_set_shadow_ofs_y" (ArgCheck.atLeast 2 jsval.null),
    Binding.mk "style_set_img_recolor" "js_style_set_img_recolor" (ArgCheck.atLeast 2 jsval.null),
    Binding.mk "style_set_img_recolor_opa" "js_style_set_img_recolor_opa" (ArgCheck.atLeast 2 jsval.null),
    Binding.mk "style_set_transform_angle" "js_style_set_transform_angle" (ArgCheck.atLeast 2 jsval.null),
    Binding.mk "style_set_text_color" "js_style_set_text_color" (ArgCheck.atLeast 2 jsval.null),
    Binding.mk "style_set_text_letter_space" "js_style_set_text_letter_space" (ArgCheck.atLeast 2 jsval.null),
    Binding.mk "style_set_text_line_space" "js_style_set_text_line_space" (ArgCheck.atLeast 2 jsval.null),
    Binding.mk "style_set_text_font" "js_style_set_text_font" (ArgCheck.atLeast 2 jsval.null),
    Binding.mk "style_set_text_align" "js_style_set_text_align" (ArgCheck.atLeast 2 jsval.null),
    Binding.mk "style_set_text_decor" "js_style_set_text_decor" (ArgCheck.atLeast 2 jsval.null),
    Binding.mk "style_set_line_color" "js_style_set_line_color" (ArgCheck.atLeast 2 jsval.null),
    Binding.mk "style_set_line_width" "js_style_set_line_width" (ArgCheck.atLeast 2 jsval.null),
    Binding.mk "style_set_line_rounded" "js_style_set_line_rounded" (ArgCheck.atLeast 2 jsval.null),
    Binding.mk "style_set_pad_all" "js_style_set_pad_all" (ArgCheck.atLeast 2 jsval.null),
    Binding.mk "style_set_pad_left" "js_style_set_pad_left" (ArgCheck.atLeast 2 jsval.null),
    Binding.mk "style_set_pad_right" "js_style_set_pad_right" (ArgCheck.atLeast 2 jsval.null),
    Binding.mk "style_set_pad_top" "js_style_set_pad_top" (ArgCheck.atLeast 2 jsval.null),
    Binding.mk "style_set_pad_bottom" "js_style_set_pad_bottom" (ArgCheck.atLeast 2 jsval.null),
    Binding.mk "style_set_pad_ver" "js_style_set_pad_ver" (ArgCheck.atLeast 2 jsval.null),
    Binding.mk "style_set_pad_hor" "js_style_set_pad_hor" (ArgCheck.atLeast 2 jsval.null),
    Binding.mk "style_set_width" "js_style_set_width" (ArgCheck.atLeast 2 jsval.null),
    Binding.mk "style_set_height" "js_style_set_height" (ArgCheck.atLeast 2 jsval.null),
    Binding.mk "style_set_x" "js_style_set_x" (ArgCheck.atLeast 2 jsval.null),
    Binding.mk "style_set_y" "js_style_set_y" (ArgCheck.atLeast 2 jsval.null),
    Binding.mk "obj_set_size" "js_obj_set_size" (ArgCheck.atLeast 3 jsval.null),
    Binding.mk "obj_align" "js_obj_align" (ArgCheck.atLeast 4 jsval.null),
    Binding.mk "obj_set_scroll_snap_x" "js_obj_set_scroll_snap_x" (ArgCheck.atLeast 2 jsval.null),
    Binding.mk "obj_set_scroll_snap_y" "js_obj_set_scroll_snap_y" (ArgCheck.atLeast 2 jsval.null),
    Binding.mk "obj_add_flag" "js_obj_add_flag" (ArgCheck.atLeast 2 jsval.null),
    Binding.mk "obj_clear_flag" "js_obj_clear_flag" (ArgCheck.atLeast 2 jsval.null),
    Binding.mk "obj_set_scroll_dir" "js_obj_set_scroll_dir" (ArgCheck.atLeast 2 jsval.null),
    Binding.mk "obj_set_scrollbar_mode" "js_obj_set_scrollbar_mode" (ArgCheck.atLeast 2 jsval.null),
    Binding.mk "obj_set_flex_flow" "js_obj_set_flex_flow" (ArgCheck.atLeast 2 jsval.null),
    Binding.mk "obj_set_flex_align" "js_obj_set_flex_align" (ArgCheck.atLeast 4 jsval.null),
    Binding.mk "obj_set_style_clip_corner" "js_obj_set_style_clip_corner" (ArgCheck.atLeast 3 jsval.null),
    Binding.mk "obj_set_style_base_dir" "js_obj_set_style_base_dir" (ArgCheck.atLeast 3 jsval.null),
    Binding.mk "lv_meter_create" "js_lv_meter_create" (ArgCheck.unchecked),
    Binding.mk "lv_meter_add_scale" "js_lv_meter_add_scale" (ArgCheck.atLeast 1 jsval.null),
    Binding.mk "lv_meter_set_scale_ticks" "js_lv_meter_set_scale_ticks" (ArgCheck.atLeast 6 jsval.null),
    Binding.mk "lv_meter_set_scale_major_ticks" "js_lv_meter_set_scale_major_ticks" (ArgCheck.atLeast 7 jsval.null),
    Binding.mk "lv_meter_set_scale_range" "js_lv_meter_set_scale_range" (ArgCheck.atLeast 6 jsval.null),
    Binding.mk "lv_meter_add_arc" "js_lv_meter_add_arc" (ArgCheck.atLeast 5 jsval.null),
    Binding.mk "lv_meter_add_scale_lines" "js_lv_meter_add_scale_lines" (ArgCheck.atLeast 6 jsval.null),
    Binding.mk "lv_meter_add_needle_line" "js_lv_meter_add_needle_line" (ArgCheck.atLeast 5 jsval.null),
    Binding.mk "lv_meter_add_needle_img" "js_lv_meter_add_needle_img" (ArgCheck.atLeast 5 jsval.null),
    Binding.mk "lv_meter_set_indicator_start_value" "js_lv_meter_set_indicator_start_value" (ArgCheck.atLeast 3 jsval.null),
    Binding.mk "lv_meter_set_indicator_end_value" "js_lv_meter_set_indicator_end_value" (ArgCheck.atLeast 3 jsval.null),
    Binding.mk "lv_meter_set_indicator_value" "js_lv_meter_set_indicator_value" (ArgCheck.atLeast 3 jsval.null),
    Binding.mk "lv_spangroup_create" "js_lv_spangroup_create" (ArgCheck.unchecked),
    Binding.mk "lv_spangroup_set_align" "js_lv_spangroup_set_align" (ArgCheck.atLeast 2 jsval.null),
    Binding.mk "lv_spangroup_set_overflow" "js_lv_spangroup_set_overflow" (ArgCheck.atLeast 2 jsval.null),
    Binding.mk "lv_spangroup_set_indent" "js_lv_spangroup_set_indent" (ArgCheck.atLeast 2 jsval.null),
    Binding.mk "lv_spangroup_set_mode" "js_lv_spangroup_set_mode" (ArgCheck.atLeast 2 jsval.null),
    Binding.mk "lv_spangroup_new_span" "js_lv_spangroup_new_span" (ArgCheck.atLeast 1 jsval.null),
    Binding.mk "lv_span_set_text" "js_lv_span_set_text" (ArgCheck.atLeast 2 jsval.null),
    Binding.mk "lv_span_set_text_static" "js_lv_span_set_text_static" (ArgCheck.atLeast 2 jsval.null),
    Binding.mk "lv_spangroup_refr_mode" "js_lv_spangroup_refr_mode" (ArgCheck.atLeast 1 jsval.null),
    Binding.mk "lv_line_create" "js_lv_line_create" (ArgCheck.unchecked),
    Binding.mk "lv_line_set_points" "js_lv_line_set_points" (ArgCheck.atLeast 3 jsval.null),
    Binding.mk "mqtt_init" "js_mqtt_init" (ArgCheck.atLeast 2 jsval.fls),
    Binding.mk "mqtt_connect" "js_mqtt_connect" (ArgCheck.atLeast 1 jsval.fls),
    Binding.mk "mqtt_publish" "js_mqtt_publish" (ArgCheck.atLeast 2 jsval.fls),
    Binding.mk "mqtt_subscribe" "js_mqtt_subscribe" (ArgCheck.atLeast 1 jsval.fls),
    Binding.mk "mqtt_loop" "js_mqtt_loop" (ArgCheck.unchecked),
    Binding.mk "mqtt_on_message" "js_mqtt_on_message" (ArgCheck.atLeast 1 jsval.fls)
  ]

/-- The sentinels that the binding contract of the specification names: null,
false, or a negative number. -/
def is_null_false_or_negative : jsval → Bool
  | jsval.null => true
  | jsval.fls => true
  | jsval.num n => decide (n < 0)
  | _ => false

/-- The sentinels that the bindings do return on an under-supplied call: null,
false, the number -1, the empty string, and for `toNumber` the number 0. -/
def is_binding_sentinel (b : Binding) (v : jsval) : Bool :=
  decide (v = jsval.null) || decide (v = jsval.fls) || decide (v = jsval.num (-1))
    || decide (v = jsval.str []) || (decide (b.name = "toNumber") && decide (v = jsval.num 0))

/-- The rejecting value of a binding's test, whatever the argument count; `none`
for a binding without a test. -/
def ArgCheck.sentinel : ArgCheck → Option jsval
  | ArgCheck.unchecked => none
  | ArgCheck.atLeast _ v => some v
  | ArgCheck.exactly _ v => some v

/-! ## Handle-taking object bindings (`lvgl_elk.h`) -/

/-- `(int)js_getnum(v)`: the integer value of a number argument.  For an
argument that is not a number the engine hands back the boxed bits and the
cast is not defined by C; the model takes 0 there. -/
def js_getint : jsval → Int
  | jsval.num n => n
  | _ => 0

/-- One call into the UI toolkit: the function, the object it is applied to,
the integer arguments after the casts (colours, enums and addresses included),
and the text argument if there is one. -/
structure LvCall where
  fn : String
  obj : Nat
  ints : List Int
  text : List Char
  deriving DecidableEq, Repr

/-- The state the object bindings work on: the handle registry, the style pool
and the record of toolkit calls made so far. -/
structure Bridge where
  g_objects : Registry
  g_style_map : StyleMap
  lv_calls : List LvCall
  deriving DecidableEq, Repr

/-- What a binding reads from its surroundings during one call:
`ESP.getFreeHeap()`, what `js_str` renders for the text argument (`none` for a
null pointer), and the address that the toolkit call returns. -/
structure CallEnv where
  freeHeap : Nat
  rawText : Option (List Char)
  ret : Int
  deriving DecidableEq, Repr

/-- A binding of the common shape
`if (nargs < min_args) return js_mknull(); ...; obj = get_lv_obj(h);
if (!obj) return js_mknull(); lv_fn(obj, ...);` which then returns null, or
the address given back by `lv_fn` as a number when `returns_pointer` is set. -/
structure ObjBinding where
  cfun : String
  min_args : Nat
  lv_fn : String
  returns_pointer : Bool
  deriving DecidableEq, Repr

/-- The bindings of the common shape, in source order. -/
def object_bindings : List ObjBinding :=
  [
    ObjBinding.mk "js_rotate_obj" 2 "lv_img_set_angle" false,
    ObjBinding.mk "js_move_obj" 3 "lv_obj_set_pos" false,
    ObjBinding.mk "js_obj_set_size" 3 "lv_obj_set_size" false,
    ObjBinding.mk "js_obj_align" 4 "lv_obj_align" false,
    ObjBinding.mk "js_obj_set_scroll_snap_x" 2 "lv_obj_set_scroll_snap_x" false,
    ObjBinding.mk "js_obj_set_scroll_snap_y" 2 "lv_obj_set_scroll_snap_y" false,
    ObjBinding.mk "js_obj_add_flag" 2 "lv_obj_add_flag" false,
    ObjBinding.mk "js_obj_clear_flag" 2 "lv_obj_clear_flag" false,
    ObjBinding.mk "js_obj_set_scroll_dir" 2 "lv_obj_set_scroll_dir" false,
    ObjBinding.mk "js_obj_set_scrollbar_mode" 2 "lv_obj_set_scrollbar_mode" false,
    ObjBinding.mk "js_obj_set_flex_flow" 2 "lv_obj_set_flex_flow" false,
    ObjBinding.mk "js_obj_set_flex_align" 4 "lv_obj_set_flex_align" false,
    ObjBinding.mk "js_obj_set_style_clip_corner" 3 "lv_obj_set_style_clip_corner" false,
    ObjBinding.mk "js_obj_set_style_base_dir" 3 "lv_obj_set_style_base_dir" false,
    ObjBinding.mk "js_lv_chart_set_type" 2 "lv_chart_set_type" false,
    ObjBinding.mk "js_lv_chart_set_div_line_count" 3 "lv_chart_set_div_line_count" false,
    ObjBinding.mk "js_lv_chart_set_update_mode" 2 "lv_chart_set_update_mode" false,
    ObjBinding.mk "js_lv_chart_set_range" 4 "lv_chart_set_range" false,
    ObjBinding.mk "js_lv_chart_set_point_count" 2 "lv_chart_set_point_count" false,
    ObjBinding.mk "js_lv_chart_refresh" 1 "lv_chart_refresh" false,
    ObjBinding.mk "js_lv_chart_add_series" 3 "lv_chart_add_series" true,
    ObjBinding.mk "js_lv_chart_set_next_value" 3 "lv_chart_set_next_value" false,
    ObjBinding.mk "js_lv_chart_set_next_value2" 4 "lv_chart_set_next_value2" false,
    ObjBinding.mk "js_lv_chart_set_axis_tick" 8 "lv_chart_set_axis_tick" false,
    ObjBinding.mk "js_lv_chart_set_zoom_x" 2 "lv_chart_set_zoom_x" false,
    ObjBinding.mk "js_lv_chart_set_zoom_y" 2 "lv_chart_set_zoom_y" false,
    ObjBinding.mk "js_lv_chart_get_y_array" 2 "lv_chart_get_y_array" true,
    ObjBinding.mk "js_lv_meter_add_scale" 1 "lv_meter_add_scale" true,
    ObjBinding.mk "js_lv_meter_set_scale_ticks" 6 "lv_meter_set_scale_ticks" false,
    ObjBinding.mk "js_lv_meter_set_scale_major_ticks" 7 "lv_meter_set_scale_major_ticks" false,
    ObjBinding.mk "js_lv_meter_set_scale_range" 6 "lv_meter_set_scale_range" false,
    ObjBinding.mk "js_lv_meter_add_arc" 5 "lv_meter_add_arc" true,
    ObjBinding.mk "js_lv_meter_add_scale_lines" 6 "lv_meter_add_scale_lines" true,
    ObjBinding.mk "js_lv_meter_add_needle_line" 5 "lv_meter_add_needle_line" true,
    ObjBinding.mk "js_lv_meter_add_needle_img" 5 "lv_meter_add_needle_img" true,
    ObjBinding.mk "js_lv_meter_set_indicator_start_value" 3 "lv_meter_set_indicator_start_value" false,
    ObjBinding.mk "js_lv_meter_set_indicator_end_value" 3 "lv_meter_set_indicator_end_value" false,
    ObjBinding.mk "js_lv_meter_set_indicator_value" 3 "lv_meter_set_indicator_value" false,
    ObjBinding.mk "js_lv_spangroup_set_align" 2 "lv_spangroup_set_align" false,
    ObjBinding.mk "js_lv_spangroup_set_overflow" 2 "lv_spangroup_set_overflow" false,
    ObjBinding.mk "js_lv_spangroup_set_indent" 2 "lv_spangroup_set_indent" false,
    ObjBinding.mk "js_lv_spangroup_set_mode" 2 "lv_spangroup_set_mode" false,
    ObjBinding.mk "js_lv_spangroup_new_span" 1 "lv_spangroup_new_span" true,
    ObjBinding.mk "js_lv_spangroup_refr_mode" 1 "lv_spangroup_refr_mode" false
  ]

/-- A call of a binding of the common shape with the arguments `args`. -/
def ObjBinding.call (d : ObjBinding) (env : CallEnv) (b : Bridge) (args : List jsval) :
    jsval × Bridge :=
  if args.length < d.min_args then (jsval.null, b)
  else
    match get_lv_obj b.g_objects (js_getint (args.getD 0 jsval.undef)) with
    | none => (jsval.null, b)
    | some obj =>
      (if d.returns_pointer then jsval.num env.ret else jsval.null,
        { b with lv_calls := b.lv_calls ++
            [LvCall.mk d.lv_fn obj (((args.take d.min_args).drop 1).map js_getint) []] })

/-- `js_animate_obj`. -/
def js_animate_obj (_env : CallEnv) (b : Bridge) (args : List jsval) : jsval × Bridge :=
  if args.length < 5 then (jsval.null, b)
  else
    let handle := js_getint (args.getD 0 jsval.undef)
    let x0 := js_getint (args.getD 1 jsval.undef)
    let y0 := js_getint (args.getD 2 jsval.undef)
    let x1 := js_getint (args.getD 3 jsval.undef)
    let y1 := js_getint (args.getD 4 jsval.undef)
    let duration := if args.length ≥ 6 then js_getint (args.getD 5 jsval.undef) else 1000
    match get_lv_obj b.g_objects handle with
    | none => (jsval.null, b)
    | some obj =>
      (jsval.null,
        { b with lv_calls := b.lv_calls ++
            [LvCall.mk "lv_obj_set_pos" obj [x0, y0] [],
             LvCall.mk "lv_anim_start" obj [x0, x1, duration] [],
             LvCall.mk "lv_anim_start" obj [y0, y1, duration] []] })

/-- `js_label_set_text`. -/
def js_label_set_text (env : CallEnv) (b : Bridge) (args : List jsval) : jsval × Bridge :=
  if args.length < 2 then (jsval.null, b)
  else
    let lblHandle := js_getint (args.getD 0 jsval.undef)
    match env.rawText with
    | none => (jsval.null, b)
    | some rawText =>
      if env.freeHeap < 8000 then (jsval.null, b)
      else
        match get_lv_obj b.g_objects lblHandle with
        | none => (jsval.null, b)
        | some label =>
          (jsval.null,
            { b with lv_calls := b.lv_calls ++
                [LvCall.mk "lv_label_set_text" label [] (strip_quotes_cstr rawText)] })

/-- `js_obj_add_style`. -/
def js_obj_add_style (_env : CallEnv) (b : Bridge) (args : List jsval) : jsval × Bridge :=
  if args.length < 2 then (jsval.null, b)
  else
    let objHandle := js_getint (args.getD 0 jsval.undef)
    let styleHandle := js_getint (args.getD 1 jsval.undef)
    let partState := if args.length ≥ 3 then js_getint (args.getD 2 jsval.undef) else 0
    match get_lv_obj b.g_objects objHandle, get_lv_style b.g_style_map styleHandle with
    | some obj, some st =>
      (jsval.null,
        { b with lv_calls := b.lv_calls ++
            [LvCall.mk "lv_obj_add_style" obj [(st : Int), partState] []] })
    | _, _ => (jsval.null, b)

/-- The loop of `js_lv_line_set_points` that fills `points[i]` from
`args[idx++]`, `args[idx++]`, starting at `idx = 1`: the coordinates written,
in order. -/
def line_points (args : List jsval) (pairCount : Nat) : List Int :=
  (List.range pairCount).flatMap
    (fun i => [js_getint (args.getD (1 + 2 * i) jsval.undef),
               js_getint (args.getD (1 + 2 * i + 1) jsval.undef)])

/-- `js_lv_line_set_points`. -/
def js_lv_line_set_points (_env : CallEnv) (b : Bridge) (args : List jsval) :
    jsval × Bridge :=
  if args.length < 3 then (jsval.null, b)
  else
    let h := js_getint (args.getD 0 jsval.undef)
    let pairCount := (args.length - 1) / 2
    if pairCount < 1 then (jsval.null, b)
    else
      match get_lv_obj b.g_objects h with
      | none => (jsval.null, b)
      | some line =>
        let pairCount := if pairCount > 16 then 16 else pairCount
        (jsval.null,
          { b with lv_calls := b.lv_calls ++
              [LvCall.mk "lv_line_set_points" line
                (line_points args pairCount ++ [(pairCount : Int)]) []] })

/-- Every binding that looks an object handle up with `get_lv_obj`. -/
def handle_bindings : List (CallEnv → Bridge → List jsval → jsval × Bridge) :=
  object_bindings.map ObjBinding.call ++
    [js_animate_obj, js_label_set_text, js_obj_add_style, js_lv_line_set_points]

/-- A registry with a live object in slot 0 and a released slot 1, an empty
style pool and no toolkit call yet. -/
def sample_bridge : Bridge :=
  { g_objects := [some 500, none], g_style_map := g_style_map_init, lv_calls := [] }

/-- A call environment with ample heap. -/
def sample_env : CallEnv := { freeHeap := 100000, rawText := some "hi".toList, ret := 0 }

/-! ## Application set-up and shutdown (`webscreen_main.cpp`,
`webscreen_hardware.cpp`, `webscreen_network.cpp`) -/

/-- The globals of the application beyond those of `Runtime`: the fields
`wifi.enabled` and `wifi.ssid` of `g_webscreen_config`, the statics
`g_hardware_initialized`, `g_display_on`, `g_brightness` of
`webscreen_hardware.cpp` and `g_network_initialized` of
`webscreen_network.cpp`, and the connection status of the Wi-Fi and MQTT
clients (`WiFi.status() == WL_CONNECTED`, `g_mqtt_client.connected()`). -/
structure App where
  rt : Runtime
  wifi_enabled : Bool
  wifi_ssid : String
  g_hardware_initialized : Bool
  g_display_on : Bool
  g_brightness : Nat
  g_network_initialized : Bool
  wifi_connected : Bool
  mqtt_connected : Bool
  deriving DecidableEq, Repr

/-- What `load_configuration` finds in the parsed configuration file for the
modelled fields: `doc["wifi"]["ssid"]`, `doc["wifi"]["enabled"]` and
`doc["script_file"]`, each `none` when the document does not provide it. -/
structure ConfigFile where
  wifi_ssid : Option String
  wifi_enabled : Option Bool
  script_file : Option String
  deriving DecidableEq, Repr

/-- What the collaborators answer during `webscreen_setup`: whether
`initialize_storage` mounts the card, the configuration file (`none` when it is
absent, unreadable or does not parse), whether `webscreen_wifi_connect`
connects, whether the MQTT client is connected when `webscreen_network_init`
is done, and the answers for the start of the runtime. -/
structure SetupEnv where
  storage_ok : Bool
  config : Option ConfigFile
  wifi_connect_ok : Bool
  mqtt_connected : Bool
  runtime : RuntimeEnv
  deriving DecidableEq, Repr

/-- What one pass of the main loop reads: whether a button press is detected,
and the status of the Wi-Fi and MQTT clients after the network upkeep. -/
structure LoopEnv where
  button_pressed : Bool
  wifi_connected : Bool
  mqtt_connected : Bool
  deriving DecidableEq, Repr

/-- The application globals as their initialisers leave them at boot. -/
def boot_app : App :=
  { rt := boot_state
    wifi_enabled := true
    wifi_ssid := ""
    g_hardware_initialized := false
    g_display_on := true
    g_brightness := 200
    g_network_initialized := false
    wifi_connected := false
    mqtt_connected := false }

/-- `webscreen_display_init()`. -/
def webscreen_display_init (a : App) : Bool × App :=
  (true, { a with g_display_on := true, g_brightness := 200 })

/-- `webscreen_hardware_init()`. -/
def webscreen_hardware_init (a : App) : Bool × App :=
  if a.g_hardware_initialized then (true, a)
  else
    match webscreen_display_init a with
    | (false, a1) => (false, a1)
    | (true, a1) => (true, { a1 with g_hardware_initialized := true })

/-- `initialize_hardware()`. -/
def initialize_hardware (a : App) : Bool × App :=
  match webscreen_hardware_init a with
  | (false, a1) => (false, a1)
  | (true, a1) => (true, a1)

/-- `load_configuration()`, on the modelled fields. -/
def load_configuration (a : App) (env : SetupEnv) : Bool × App :=
  match env.config with
  | none => (false, a)
  | some c =>
    (true, { a with wifi_ssid := c.wifi_ssid.getD a.wifi_ssid
                    wifi_enabled := c.wifi_enabled.getD a.wifi_enabled
                    rt := { a.rt with script_file := c.script_file.getD a.rt.script_file } })

/-- `webscreen_network_init(&g_webscreen_config)`. -/
def webscreen_network_init (a : App) (env : SetupEnv) : Bool × App :=
  if !a.wifi_enabled then (false, a)
  else if a.wifi_ssid.length = 0 then (false, a)
  else
    let a1 := { a with wifi_connected := env.wifi_connect_ok }
    if !env.wifi_connect_ok then (false, a1)
    else (true, { a1 with mqtt_connected := env.mqtt_connected, g_network_initialized := true })

/-- `initialize_network()`. -/
def initialize_network (a : App) (env : SetupEnv) : Bool × App :=
  if a.wifi_ssid.length = 0 then (false, a)
  else webscreen_network_init a env

/-- `webscreen_setup()`. -/
def webscreen_setup (a : App) (env : SetupEnv) : Bool × App :=
  match initialize_hardware a with
  | (false, a1) => (false, a1)
  | (true, a1) =>
    let a2 := if !env.storage_ok then { a1 with rt := { a1.rt with g_use_fallback := true } }
              else a1
    let a3 := if !a2.rt.g_use_fallback then (load_configuration a2 env).2 else a2
    let a4 := if !a3.rt.g_use_fallback && a3.wifi_enabled then (initialize_network a3 env).2
              else a3
    match start_runtime a4.rt env.runtime with
    | (true, rt5) => (true, { a4 with rt := rt5 })
    | (false, rt5) =>
      match webscreen_runtime_start_fallback { rt5 with g_use_fallback := true } env.runtime with
      | (false, rt6) => (false, { a4 with rt := rt6 })
      | (true, rt6) => (true, { a4 with rt := rt6 })

/-- `webscreen_network_shutdown()`. -/
def webscreen_network_shutdown (a : App) : App :=
  if !a.g_network_initialized then a
  else { a with mqtt_connected := false, wifi_connected := false,
                g_network_initialized := false }

/-- `webscreen_hardware_shutdown()`. -/
def webscreen_hardware_shutdown (a : App) : App :=
  if !a.g_hardware_initialized then a
  else { a with g_display_on := false, g_hardware_initialized := false }

/-- `webscreen_shutdown()`. -/
def webscreen_shutdown (a : App) : App :=
  let a1 := { a with rt := webscreen_runtime_shutdown a.rt }
  let a2 := webscreen_network_shutdown a1
  let a3 := webscreen_hardware_shutdown a2
  { a3 with rt := { a3.rt with g_app_state := webscreen_app_state_t.SHUTDOWN } }

/-- `run_main_loop()` on the modelled globals.  A button press detected by
`webscreen_hardware_handle_button` toggles `g_display_on`.  The `switch` on
`g_app_state` then runs the script loop for `RUNNING_JS`, the fallback loop
for `RUNNING_FALLBACK` and a delay for `ERROR`, none of which writes a modelled
global; it returns at once for `SHUTDOWN`; and its `default` branch, taken for
`INITIALIZING`, writes `g_app_state = WEBSCREEN_STATE_ERROR`.  After the
`switch` the network upkeep runs when `!g_use_fallback` and Wi-Fi is enabled;
`webscreen_network_loop` returns at once unless the network is initialised and
otherwise leaves the clients in the status given by `env`. -/
def run_main_loop (a : App) (env : LoopEnv) : App :=
  let a1 := if env.button_pressed then { a with g_display_on := !a.g_display_on } else a
  match a1.rt.g_app_state with
  | webscreen_app_state_t.SHUTDOWN => a1
  | state =>
    let a2 :=
      match state with
      | webscreen_app_state_t.RUNNING_JS => a1
      | webscreen_app_state_t.RUNNING_FALLBACK => a1
      | webscreen_app_state_t.ERROR => a1
      | _ => { a1 with rt := { a1.rt with g_app_state := webscreen_app_state_t.ERROR } }
    if !a2.rt.g_use_fallback && a2.wifi_enabled then
      if !a2.g_network_initialized then a2
      else { a2 with wifi_connected := env.wifi_connected, mqtt_connected := env.mqtt_connected }
    else a2

/-- `webscreen_loop()`. -/
def webscreen_loop (a : App) (env : LoopEnv) : App := run_main_loop a env

/-- The states the application can be in between calls of its entry points:
the boot state, and what `webscreen_setup`, `webscreen_loop` and
`webscreen_shutdown` make of such a state, whatever the collaborators
answer. -/
inductive Reachable : App → Prop where
  | boot : Reachable boot_app
  | setup (a : App) (env : SetupEnv) : Reachable a → Reachable (webscreen_setup a env).2
  | loop (a : App) (env : LoopEnv) : Reachable a → Reachable (webscreen_loop a env)
  | shutdown (a : App) : Reachable a → Reachable (webscreen_shutdown a)

/-- Collaborator answers for a set-up with a mounted card, a configuration file
naming `/main.js`, Wi-Fi connecting, and a script that starts. -/
def env_setup_script : SetupEnv :=
  { storage_ok := true
    config := some { wifi_ssid := some "home", wifi_enabled := some true,
                     script_file := some "/main.js" }
    wifi_connect_ok := true
    mqtt_connected := false
    runtime := { env_task_failure with xTaskCreate := some 77 } }

/-- The two mode flags and the app state after a start: script mode or
fallback mode, with the matching flag and only that one. -/
def RenderingMode (rt : Runtime) : Prop :=
  (rt.g_app_state = webscreen_app_state_t.RUNNING_JS ∧ rt.g_javascript_active = true ∧
    rt.g_fallback_active = false) ∨
  (rt.g_app_state = webscreen_app_state_t.RUNNING_FALLBACK ∧ rt.g_javascript_active = false ∧
    rt.g_fallback_active = true)

/-- What holds of the runtime globals in every reachable state: the mode flags
are not both set, and while neither is set there is no engine reference and no
execution task. -/
def RuntimeInv (rt : Runtime) : Prop :=
  ¬ (rt.g_javascript_active = true ∧ rt.g_fallback_active = true) ∧
  (rt.g_javascript_active = false → rt.g_fallback_active = false →
    rt.js = none ∧ rt.g_js_task_handle = none)

/-! ## RAM image pool (`lvgl_elk.h`) -/

/-- `MAX_RAM_IMAGES`. -/
def MAX_RAM_IMAGES : Nat := 16

/-- `struct RamImage`, without the toolkit descriptor `dsc`. -/
structure RamImage where
  used : Bool
  buffer : Ptr
  size : Nat
  deriving DecidableEq, Repr, Inhabited

/-- The array `g_ram_images` as `init_ram_images()` leaves it. -/
def init_ram_images : List RamImage :=
  List.replicate MAX_RAM_IMAGES { used := false, buffer := none, size := 0 }

/-- What storage and the allocator answer inside `load_image_file_into_ram`:
whether `SD_MMC.open` yields a file, `f.size()`, the block `ps_malloc` returns,
and the byte count of `f.read`. -/
structure LoadEnv where
  open_ok : Bool
  fileSize : Nat
  ps_malloc : Ptr
  bytesRead : Nat
  deriving DecidableEq, Repr

/-- `load_image_file_into_ram(path, outImg)`: the result and `*outImg` after
the call. -/
def load_image_file_into_ram (env : LoadEnv) (outImg : RamImage) : Bool × RamImage :=
  if !env.open_ok then (false, outImg)
  else
    match env.ps_malloc with
    | none => (false, outImg)
    | some buf =>
      if env.bytesRead < env.fileSize then (false, outImg)
      else (true, { used := true, buffer := some buf, size := env.fileSize })

/-- The loop `for (i = ...; i < MAX_RAM_IMAGES; i++) if (!g_ram_images[i].used)`
of `js_create_image_from_ram`, with `n` iterations left starting at index `i`:
the first index whose slot is not in use. -/
def ram_slot_scan (g : List RamImage) : Nat → Nat → Option Nat
  | 0, _ => none
  | n + 1, i =>
    if (g[i]?).map RamImage.used = some false then some i else ram_slot_scan g n (i + 1)

/-- The state `js_create_image_from_ram` works on: the handle registry with the
toolkit-call record, the array `g_ram_images`, and the paths handed to
`SD_MMC.open` by the loader so far. -/
structure ImageState where
  bridge : Bridge
  g_ram_images : List RamImage
  opened : List (List Char)
  deriving DecidableEq, Repr

/-- What one call of `js_create_image_from_ram` reads from its surroundings:
what `js_str` renders for the path argument, the answers for the loader, and
the address of the image object that `lv_img_create` returns. -/
structure ImageEnv where
  rawPath : Option (List Char)
  load : LoadEnv
  img : Nat
  deriving DecidableEq, Repr

/-- `js_create_image_from_ram`. -/
def js_create_image_from_ram (env : ImageEnv) (s : ImageState) (args : List jsval) :
    jsval × ImageState :=
  if args.length < 3 then (jsval.num (-1), s)
  else
    let x := js_getint (args.getD 1 jsval.undef)
    let y := js_getint (args.getD 2 jsval.undef)
    match env.rawPath with
    | none => (jsval.num (-1), s)
    | some rawPath =>
      match ram_slot_scan s.g_ram_images MAX_RAM_IMAGES 0 with
      | none => (jsval.num (-1), s)
      | some slot =>
        let path := strip_quotes_substring rawPath
        let loaded := load_image_file_into_ram env.load (s.g_ram_images.getD slot default)
        let s1 := { s with opened := s.opened ++ [path],
                           g_ram_images := s.g_ram_images.set slot loaded.2 }
        if !loaded.1 then (jsval.num (-1), s1)
        else
          let stored := store_lv_obj s1.bridge.g_objects (some env.img)
          (jsval.num stored.1,
            { s1 with bridge :=
                { s1.bridge with
                  g_objects := stored.2
                  lv_calls := s1.bridge.lv_calls ++
                    [LvCall.mk "lv_img_create" env.img [] [],
                     LvCall.mk "lv_img_set_src" env.img [(slot : Int)] [],
                     LvCall.mk "lv_obj_set_pos" env.img [x, y] []] } })

/-- Successive calls of `create_image_from_ram`, each with its surroundings and
arguments; the state after the last. -/
def create_images (s : ImageState) : List (ImageEnv × List jsval) → ImageState
  | [] => s
  | c :: rest => create_images (js_create_image_from_ram c.1 s c.2).2 rest

/-- A loader environment in which the file opens and is read completely. -/
def load_ok : LoadEnv := { open_ok := true, fileSize := 80000, ps_malloc := some 9000,
                           bytesRead := 80000 }

/-! ## HTTP bindings: connection attempts (`lvgl_elk.h`) -/

/-- What one connection attempt of an HTTP binding meets: `client.connect`
fails, or it succeeds and `readHttpResponseBody` yields `body` (possibly
empty). -/
inductive AttemptOutcome where
  | connect_failed
  | response (body : List Char)
  deriving DecidableEq, Repr

/-- The calls an HTTP binding makes while it tries to reach the server:
`vTaskDelay(pdMS_TO_TICKS(ms))`, `client.connect(host, port, timeout_ms)` (with
`none` for the two-argument form without a timeout), and the exchange made of
the request, `readHttpResponseBody` and `client.stop()`. -/
inductive HttpEvent where
  | delay (ms : Nat)
  | connect (timeout_ms : Option Nat)
  | exchange
  deriving DecidableEq, Repr

/-- `MAX_RETRIES` of `js_http_get`. -/
def MAX_RETRIES : Nat := 3

/-- The loop `for (attempt = ...; attempt <= MAX_RETRIES; attempt++)` of
`js_http_get` with `n` iterations left, where `outcome k` is what attempt `k`
meets: the calls made and the final value of `response`. -/
def http_get_attempts (outcome : Nat → AttemptOutcome) :
    Nat → Nat → List HttpEvent × List Char
  | 0, _ => ([], [])
  | n + 1, attempt =>
    let pre := if attempt > 0 then [HttpEvent.delay (1000 * 2 ^ (attempt - 1))] else []
    match outcome attempt with
    | AttemptOutcome.connect_failed =>
      (pre ++ [HttpEvent.connect (some 10000)] ++ (http_get_attempts outcome n (attempt + 1)).1,
        (http_get_attempts outcome n (attempt + 1)).2)
    | AttemptOutcome.response body =>
      if body.length > 0 then
        (pre ++ [HttpEvent.connect (some 10000), HttpEvent.exchange], body)
      else
        (pre ++ [HttpEvent.connect (some 10000), HttpEvent.exchange]
            ++ (http_get_attempts outcome n (attempt + 1)).1,
          (http_get_attempts outcome n (attempt + 1)).2)

/-- `js_http_get` from the retry loop on (the argument checks and the parsing
of the URL come before): the calls made and the script value returned. -/
def js_http_get_request (outcome : Nat → AttemptOutcome) : List HttpEvent × jsval :=
  ((http_get_attempts outcome (MAX_RETRIES + 1) 0).1,
    jsval.str (http_get_attempts outcome (MAX_RETRIES + 1) 0).2)

/-- `js_http_post` from the connection on: one `client.connect(host, port)`;
on failure the empty string is returned at once. -/
def js_http_post_request (outcome : AttemptOutcome) : List HttpEvent × jsval :=
  match outcome with
  | AttemptOutcome.connect_failed => ([HttpEvent.connect none], jsval.str [])
  | AttemptOutcome.response body =>
    ([HttpEvent.connect none, HttpEvent.exchange], jsval.str body)

/-- `js_http_delete` from the connection on: one `client.connect(host, port)`;
on failure the empty string is returned at once. -/
def js_http_delete_request (outcome : AttemptOutcome) : List HttpEvent × jsval :=
  match outcome with
  | AttemptOutcome.connect_failed => ([HttpEvent.connect none], jsval.str [])
  | AttemptOutcome.response body =>
    ([HttpEvent.connect none, HttpEvent.exchange], jsval.str body)

/-- Whether a call is a connection attempt. -/
def HttpEvent.is_connect : HttpEvent → Bool
  | HttpEvent.connect _ => true
  | _ => false

/-! ## Configuration document (`serial_commands.cpp`, `configSet`) -/

/-- A JSON value that is not an object with members of interest: `null`, a
string, or anything else (number, boolean, array, deeper object) kept as its
text. -/
inductive JsonValue where
  | null
  | str (s : List Char)
  | other (raw : List Char)
  deriving DecidableEq, Repr

/-- A member of the root object of the configuration document: a value, or an
object (a section) with its members in order. -/
inductive JsonEntry where
  | value (v : JsonValue)
  | object (members : List (List Char × JsonValue))
  deriving DecidableEq, Repr

/-- The root of a `DynamicJsonDocument`: `null` (a fresh document, or one whose
`deserializeJson` failed), an object with its members in order, or another kind
of value (array, string, number) kept as its text. -/
inductive JsonDocument where
  | null
  | object (members : List (List Char × JsonEntry))
  | other (raw : List Char)
  deriving DecidableEq, Repr

/-- ArduinoJson `getMember` on an object: the value of the first member with
the key. -/
def json_get_member {α : Type} : List (List Char × α) → List Char → Option α
  | [], _ => none
  | (k, v) :: rest, key => if k = key then some v else json_get_member rest key

/-- ArduinoJson `getOrAddMember` on an object followed by an assignment: the
first member with the key takes the value, and a member is appended when there
is none. -/
def json_set_member {α : Type} : List (List Char × α) → List Char → α → List (List Char × α)
  | [], key, v => [(key, v)]
  | (k, old) :: rest, key, v =>
    if k = key then (k, v) :: rest else (k, old) :: json_set_member rest key v

/-- The assignment `doc[key] = value` of ArduinoJson: a `null` root becomes an
object, an object gets the member, and on a root of another kind
`getOrAddMember` yields no slot and the assignment does nothing. -/
def JsonDocument.assign (doc : JsonDocument) (key value : List Char) : JsonDocument :=
  match doc with
  | JsonDocument.null => JsonDocument.object [(key, JsonEntry.value (JsonValue.str value))]
  | JsonDocument.object ms =>
    JsonDocument.object (json_set_member ms key (JsonEntry.value (JsonValue.str value)))
  | JsonDocument.other raw => JsonDocument.other raw

/-- The assignment `doc[sect][subkey] = value` of ArduinoJson.  The slot of
`doc[sect]` is found or added as for `doc[key]`; a slot that holds `null`
becomes an object, a slot that holds an object gets the member, and on a slot
that holds a value of another kind `getOrAddMember` yields no slot and the
assignment does nothing. -/
def JsonDocument.assign_nested (doc : JsonDocument) (sect subkey value : List Char) :
    JsonDocument :=
  match doc with
  | JsonDocument.null =>
    JsonDocument.object [(sect, JsonEntry.object [(subkey, JsonValue.str value)])]
  | JsonDocument.object ms =>
    match json_get_member ms sect with
    | none =>
      JsonDocument.object
        (json_set_member ms sect (JsonEntry.object [(subkey, JsonValue.str value)]))
    | some (JsonEntry.value JsonValue.null) =>
      JsonDocument.object
        (json_set_member ms sect (JsonEntry.object [(subkey, JsonValue.str value)]))
    | some (JsonEntry.object sub) =>
      JsonDocument.object
        (json_set_member ms sect
          (JsonEntry.object (json_set_member sub subkey (JsonValue.str value))))
    | some (JsonEntry.value _) => JsonDocument.object ms
  | JsonDocument.other raw => JsonDocument.other raw

/-- Arduino core `String::indexOf(ch)`: the index of the first occurrence, or
`-1` when there is none. -/
def ArduinoString.indexOf (s : List Char) (ch : Char) : Int :=
  if ch ∈ s then (s.indexOf ch : Int) else -1

/-- What `configSet` meets on the card: whether `SD_MMC.begin()` succeeds, the
document `deserializeJson` makes of `/webscreen.json` (`none` when the file
cannot be opened for reading), and whether the file can be opened for
writing. -/
structure ConfigEnv where
  sd_begin_ok : Bool
  file : Option JsonDocument
  write_ok : Bool

/-- The line `configSet` prints. -/
inductive ConfigMessage where
  | error (text : List Char)
  | success (text : List Char)
  deriving DecidableEq, Repr

/-- The effect of `configSet`: the document serialised into `/webscreen.json`
(`none` when nothing is written) and the line printed. -/
structure ConfigOutcome where
  written : Option JsonDocument
  message : ConfigMessage
  deriving DecidableEq, Repr

/-- `SerialCommands::configSet(args)`.  The 2048-byte capacity of the document
is not modelled: every assignment finds room. -/
def configSet (env : ConfigEnv) (args : List Char) : ConfigOutcome :=
  let spaceIndex := ArduinoString.indexOf args ' '
  if spaceIndex < 0 then
    { written := none, message := ConfigMessage.error "Usage: /config set <key> <value>".toList }
  else
    let key := ArduinoString.substring args 0 spaceIndex.toNat
    let value := ArduinoString.substring args (spaceIndex.toNat + 1) args.length
    if !env.sd_begin_ok then
      { written := none, message := ConfigMessage.error "SD card not available".toList }
    else
      let doc := match env.file with
        | some d => d
        | none => JsonDocument.null
      let doc :=
        if ArduinoString.indexOf key '.' > 0 then
          JsonDocument.assign_nested doc
            (ArduinoString.substring key 0 (ArduinoString.indexOf key '.').toNat)
            (ArduinoString.substring key ((ArduinoString.indexOf key '.').toNat + 1) key.length)
            value
        else JsonDocument.assign doc key value
      if !env.write_ok then
        { written := none,
          message := ConfigMessage.error "Cannot write to webscreen.json".toList }
      else
        { written := some doc,
          message := ConfigMessage.success
            ("Config updated: ".toList ++ key ++ " = ".toList ++ value) }

/-- A configuration document whose `wifi` entry is a string, not a section:
`{"wifi": "home", "mqtt": {"enabled": false}}`. -/
def doc_wifi_string : JsonDocument :=
  JsonDocument.object
    [("wifi".toList, JsonEntry.value (JsonValue.str "home".toList)),
     ("mqtt".toList, JsonEntry.object [("enabled".toList, JsonValue.other "false".toList)])]

/-- A configuration document with a `wifi` section:
`{"wifi": {"ssid": "old", "pass": "secret"}, "mqtt": {"enabled": false}}`. -/
def doc_wifi_section : JsonDocument :=
  JsonDocument.object
    [("wifi".toList, JsonEntry.object
        [("ssid".toList, JsonValue.str "old".toList),
         ("pass".toList, JsonValue.str "secret".toList)]),
     ("mqtt".toList, JsonEntry.object [("enabled".toList, JsonValue.other "false".toList)])]

/-- A card that mounts, holds the document `doc` and can be written. -/
def card_with (doc : JsonDocument) : ConfigEnv :=
  { sd_begin_ok := true, file := some doc, write_ok := true }

/-! ## Storage bindings (`lvgl_elk.h`) -/

/-- The calls the storage bindings make on the card: `SD_MMC.open(path)` for
reading, `SD_MMC.open(path, FILE_WRITE)`, `f.write(data, strlen(data))`,
`SD_MMC.exists(path)` and `SD_MMC.remove(path)`. -/
inductive SdCall where
  | open_read (path : List Char)
  | open_write (path : List Char)
  | write (data : List Char)
  | file_exists (path : List Char)
  | remove (path : List Char)
  deriving DecidableEq, Repr

/-- What the card answers: the contents `readString` yields for a path that
opens for reading (`none` when it does not open), whether a path opens for
writing, whether a path exists, and whether its removal succeeds. -/
structure SdEnv where
  open_read : List Char → Option (List Char)
  open_write : List Char → Bool
  file_exists : List Char → Bool
  remove : List Char → Bool

/-- `js_sd_read_file`, where `raw` holds what `js_str` renders for each
argument (`none` for a null pointer): the value returned and the calls made on
the card. -/
def js_sd_read_file (env : SdEnv) (raw : List (Option (List Char))) : jsval × List SdCall :=
  if raw.length ≠ 1 then (jsval.null, [])
  else
    match raw.getD 0 none with
    | none => (jsval.null, [])
    | some rawPath =>
      let path := strip_quotes_remove rawPath
      match env.open_read path with
      | none => (jsval.null, [SdCall.open_read path])
      | some content => (jsval.str content, [SdCall.open_read path])

/-- `js_sd_write_file`, with `raw` as for `js_sd_read_file`. -/
def js_sd_write_file (env : SdEnv) (raw : List (Option (List Char))) : jsval × List SdCall :=
  if raw.length ≠ 2 then (jsval.fls, [])
  else
    match raw.getD 0 none, raw.getD 1 none with
    | some path, some data =>
      if !env.open_write path then (jsval.fls, [SdCall.open_write path])
      else (jsval.tru, [SdCall.open_write path, SdCall.write data])
    | _, _ => (jsval.fls, [])

/-- `js_sd_delete_file`, with `raw` as for `js_sd_read_file`. -/
def js_sd_delete_file (env : SdEnv) (raw : List (Option (List Char))) : jsval × List SdCall :=
  if raw.length < 1 then (jsval.fls, [])
  else
    match raw.getD 0 none with
    | none => (jsval.fls, [])
    | some path =>
      if env.file_exists path then
        (if env.remove path then jsval.tru else jsval.fls,
          [SdCall.file_exists path, SdCall.remove path])
      else (jsval.fls, [SdCall.file_exists path])

/-- A card that holds the single file `/log.txt` with the contents `boot`; it
can be written and removed under that path only. -/
def card_log_txt : SdEnv :=
  { open_read := fun path => if path = "/log.txt".toList then some "boot".toList else none,
    open_write := fun path => decide (path = "/log.txt".toList),
    file_exists := fun path => decide (path = "/log.txt".toList),
    remove := fun path => decide (path = "/log.txt".toList) }

/-! ## Object-creating bindings (`lvgl_elk.h`) -/

/-- What an object-creating binding reads from its surroundings: what `js_str`
renders for the path argument, the address of the object the toolkit creates,
and the address of the style that `new lv_style_t` yields. -/
structure CreateEnv where
  rawPath : Option (List Char)
  obj : Nat
  style : Nat
  deriving DecidableEq, Repr

/-- `js_lvgl_draw_rect`. -/
def js_lvgl_draw_rect (env : CreateEnv) (b : Bridge) (args : List jsval) : jsval × Bridge :=
  if args.length < 4 then (jsval.num (-1), b)
  else
    let x := js_getint (args.getD 0 jsval.undef)
    let y := js_getint (args.getD 1 jsval.undef)
    let w := js_getint (args.getD 2 jsval.undef)
    let h := js_getint (args.getD 3 jsval.undef)
    let color : Int :=
      if args.length ≥ 5 then js_getint (args.getD 4 jsval.undef) % 4294967296 else 0x00ff00
    let stored := store_lv_obj b.g_objects (some env.obj)
    (jsval.num stored.1,
      { b with
        g_objects := stored.2
        lv_calls := b.lv_calls ++
          [LvCall.mk "lv_obj_create" env.obj [] [],
           LvCall.mk "lv_obj_set_size" env.obj [w, h] [],
           LvCall.mk "lv_obj_set_pos" env.obj [x, y] [],
           LvCall.mk "lv_style_init" env.style [] [],
           LvCall.mk "lv_style_set_bg_color" env.style [color] [],
           LvCall.mk "lv_style_set_radius" env.style [5] [],
           LvCall.mk "lv_obj_add_style" env.obj [(env.style : Int), 0] []] })

/-- `js_create_image`. -/
def js_create_image (env : CreateEnv) (b : Bridge) (args : List jsval) : jsval × Bridge :=
  if args.length < 3 then (jsval.num (-1), b)
  else
    let x := js_getint (args.getD 1 jsval.undef)
    let y := js_getint (args.getD 2 jsval.undef)
    match env.rawPath with
    | none => (jsval.num (-1), b)
    | some rawPath =>
      let path := strip_quotes_substring rawPath
      let fullPath := "S:".toList ++ path
      let stored := store_lv_obj b.g_objects (some env.obj)
      (jsval.num stored.1,
        { b with
          g_objects := stored.2
          lv_calls := b.lv_calls ++
            [LvCall.mk "lv_img_create" env.obj [] [],
             LvCall.mk "lv_img_set_src" env.obj [] fullPath,
             LvCall.mk "lv_obj_set_pos" env.obj [x, y] []] })

/-- `js_create_label`. -/
def js_create_label (env : CreateEnv) (b : Bridge) (args : List jsval) : jsval × Bridge :=
  if args.length < 2 then (jsval.num (-1), b)
  else
    let x := js_getint (args.getD 0 jsval.undef)
    let y := js_getint (args.getD 1 jsval.undef)
    let stored := store_lv_obj b.g_objects (some env.obj)
    (jsval.num stored.1,
      { b with
        g_objects := stored.2
        lv_calls := b.lv_calls ++
          [LvCall.mk "lv_label_create" env.obj [] [],
           LvCall.mk "lv_obj_set_pos" env.obj [x, y] []] })

/-- An image state with two live objects, a released slot and one RAM image in
use. -/
def sample_image_state : ImageState :=
  { bridge := { g_objects := [some 500, none, some 502], g_style_map := g_style_map_init,
                lv_calls := [LvCall.mk "lv_label_create" 500 [] []] },
    g_ram_images := init_ram_images.set 0 { used := true, buffer := some 9000, size := 64 },
    opened := ["/a.bin".toList] }

/-! ## Binary loader (`binary_loader.h`) -/

/-- `BINARY_LOADER_BUFFER_SIZE`. -/
def BINARY_LOADER_BUFFER_SIZE : Nat := 4096

/-- `BINARY_LOADER_MAX_SIZE`. -/
def BINARY_LOADER_MAX_SIZE : Nat := 2 * 1024 * 1024

/-- `binary_loader_error_t`. -/
inductive binary_loader_error_t where
  | BINARY_LOADER_OK
  | BINARY_LOADER_ERR_FILE_NOT_FOUND
  | BINARY_LOADER_ERR_FILE_TOO_LARGE
  | BINARY_LOADER_ERR_FILE_READ
  | BINARY_LOADER_ERR_OTA_BEGIN
  | BINARY_LOADER_ERR_OTA_WRITE
  | BINARY_LOADER_ERR_OTA_END
  | BINARY_LOADER_ERR_VALIDATION
  | BINARY_LOADER_ERR_NO_OTA_PARTITION
  deriving DecidableEq, Repr

/-- One pass of the copy loop entered because `binFile.available()` is
non-zero: the count `binFile.read` returns and the count `Update.write`
returns for it. -/
structure Chunk where
  bytesRead : Nat
  written : Nat
  deriving DecidableEq, Repr

/-- What `binary_loader_load_and_flash` meets: whether the file opens, its
size, the size of the partition `esp_ota_get_next_update_partition` returns
(`none` for a null pointer), whether `Update.begin` and `malloc` succeed, the
passes of the copy loop for as long as the file has bytes available, and the
answers of `Update.end(true)` and `Update.isFinished()`. -/
structure LoaderEnv where
  open_ok : Bool
  fileSize : Nat
  partition : Option Nat
  begin_ok : Bool
  malloc_ok : Bool
  chunks : List Chunk
  end_ok : Bool
  finished : Bool
  deriving DecidableEq, Repr

/-- The calls of `binary_loader_load_and_flash` that act on the file, the
update and the device, in program order. -/
inductive LoaderEvent where
  | open_file
  | close_file
  | get_next_update_partition
  | print_partition_info
  | update_begin (size : Nat)
  | update_write (len : Nat)
  | update_abort
  | update_end
  | update_is_finished
  | delay (ms : Nat)
  | restart
  deriving DecidableEq, Repr

/-- The copy loop `while (binFile.available()) { ... }`: the calls made, and
whether the loop was left by the failed-write return. -/
def copy_loop : List Chunk → List LoaderEvent × Bool
  | [] => ([], false)
  | c :: rest =>
    if c.bytesRead = 0 then ([], false)
    else if c.written ≠ c.bytesRead then ([LoaderEvent.update_write c.bytesRead], true)
    else (LoaderEvent.update_write c.bytesRead :: (copy_loop rest).1, (copy_loop rest).2)

/-- `binary_loader_load_and_flash(bin_path)`: the calls made and the code
returned; `none` stands for the call that does not return because
`ESP.restart()` was reached. -/
def binary_loader_load_and_flash (env : LoaderEnv) :
    List LoaderEvent × Option binary_loader_error_t :=
  if !env.open_ok then
    ([LoaderEvent.open_file], some binary_loader_error_t.BINARY_LOADER_ERR_FILE_NOT_FOUND)
  else if env.fileSize = 0 then
    ([LoaderEvent.open_file, LoaderEvent.close_file],
      some binary_loader_error_t.BINARY_LOADER_ERR_FILE_NOT_FOUND)
  else if env.fileSize > BINARY_LOADER_MAX_SIZE then
    ([LoaderEvent.open_file, LoaderEvent.close_file],
      some binary_loader_error_t.BINARY_LOADER_ERR_FILE_TOO_LARGE)
  else
    match env.partition with
    | none =>
      ([LoaderEvent.open_file, LoaderEvent.get_next_update_partition, LoaderEvent.close_file,
        LoaderEvent.print_partition_info],
        some binary_loader_error_t.BINARY_LOADER_ERR_NO_OTA_PARTITION)
    | some partitionSize =>
      if env.fileSize > partitionSize then
        ([LoaderEvent.open_file, LoaderEvent.get_next_update_partition,
          LoaderEvent.close_file],
          some binary_loader_error_t.BINARY_LOADER_ERR_FILE_TOO_LARGE)
      else if !env.begin_ok then
        ([LoaderEvent.open_file, LoaderEvent.get_next_update_partition,
          LoaderEvent.update_begin env.fileSize, LoaderEvent.close_file],
          some binary_loader_error_t.BINARY_LOADER_ERR_OTA_BEGIN)
      else if !env.malloc_ok then
        ([LoaderEvent.open_file, LoaderEvent.get_next_update_partition,
          LoaderEvent.update_begin env.fileSize, LoaderEvent.close_file,
          LoaderEvent.update_abort],
          some binary_loader_error_t.BINARY_LOADER_ERR_OTA_BEGIN)
      else if (copy_loop env.chunks).2 then
        ([LoaderEvent.open_file, LoaderEvent.get_next_update_partition,
          LoaderEvent.update_begin env.fileSize] ++ (copy_loop env.chunks).1 ++
          [LoaderEvent.close_file, LoaderEvent.update_abort],
          some binary_loader_error_t.BINARY_LOADER_ERR_OTA_WRITE)
      else if !env.end_ok then
        ([LoaderEvent.open_file, LoaderEvent.get_next_update_partition,
          LoaderEvent.update_begin env.fileSize] ++ (copy_loop env.chunks).1 ++
          [LoaderEvent.close_file, LoaderEvent.update_end],
          some binary_loader_error_t.BINARY_LOADER_ERR_OTA_END)
      else if !env.finished then
        ([LoaderEvent.open_file, LoaderEvent.get_next_update_partition,
          LoaderEvent.update_begin env.fileSize] ++ (copy_loop env.chunks).1 ++
          [LoaderEvent.close_file, LoaderEvent.update_end, LoaderEvent.update_is_finished],
          some binary_loader_error_t.BINARY_LOADER_ERR_VALIDATION)
      else
        ([LoaderEvent.open_file, LoaderEvent.get_next_update_partition,
          LoaderEvent.update_begin env.fileSize] ++ (copy_loop env.chunks).1 ++
          [LoaderEvent.close_file, LoaderEvent.update_end, LoaderEvent.update_is_finished,
           LoaderEvent.delay 2000, LoaderEvent.restart],
          none)

/-- Whether a call is one of the `Update` operations. -/
def LoaderEvent.is_ota : LoaderEvent → Bool
  | LoaderEvent.update_begin _ => true
  | LoaderEvent.update_write _ => true
  | LoaderEvent.update_abort => true
  | LoaderEvent.update_end => true
  | LoaderEvent.update_is_finished => true
  | _ => false

/-- Every pass of the copy loop that is made, up to the pass whose read returns
0, writes all the bytes it read. -/
def chunks_written : List Chunk → Bool
  | [] => true
  | c :: rest =>
    if c.bytesRead = 0 then true
    else decide (c.written = c.bytesRead) && chunks_written rest

/-- A 10000-byte binary that is copied in three passes and flashed. -/
def env_flash_ok : LoaderEnv :=
  { open_ok := true, fileSize := 10000, partition := some 1966080, begin_ok := true,
    malloc_ok := true,
    chunks := [Chunk.mk 4096 4096, Chunk.mk 4096 4096, Chunk.mk 1808 1808],
    end_ok := true, finished := true }

/-! ## Timer registration (`lvgl_elk.h`, `js_create_timer`) -/

/-- A timer made by `lv_timer_create(elk_timer_cb, period, user_data)`: the
period and the bytes copied into the buffer `user_data` points to, before the
terminator that `js_create_timer` appends. -/
structure LvTimer where
  period : Nat
  user_data : List Char
  deriving DecidableEq, Repr

/-- `js_getstr(js, value, &len)` of the engine: the bytes of a string value
(their count is `len`), and a null pointer for a value that is not a string. -/
def js_getstr : jsval → Option (List Char)
  | jsval.str s => some s
  | _ => none

/-- `js_create_timer`, with the answer of `malloc` and the timers created so
far: the value returned and the timers after the call. -/
def js_create_timer (malloc_ok : Bool) (timers : List LvTimer) (args : List jsval) :
    jsval × List LvTimer :=
  if args.length < 2 then (jsval.null, timers)
  else
    match js_getstr (args.getD 0 jsval.undef) with
    | none => (jsval.null, timers)
    | some func_name_str =>
      if func_name_str.length = 0 then (jsval.null, timers)
      else if !malloc_ok then (jsval.null, timers)
      else
        (jsval.null,
          timers ++ [{ period := (js_getint (args.getD 1 jsval.undef) % 4294967296).toNat,
                       user_data := func_name_str }])

/-- A buffer read as a C string: the bytes before the first NUL. -/
def c_str (bytes : List Char) : List Char :=
  bytes.takeWhile (fun ch => ch ≠ Char.ofNat 0)

/-- The tick of a timer: `elk_timer_cb` reads `timer->user_data` as a C string;
the engine, the heap readings, the clock and the result of the evaluation are
those of `t`. -/
def LvTimer.tick (tm : LvTimer) (t : Tick) : Tick :=
  { t with func_name := some (c_str tm.user_data) }

/-! ## Low-memory warnings over a run of ticks -/

/-- Whether an action is the low-memory warning line. -/
def TimerEvent.is_low_memory_warning : TimerEvent → Bool
  | TimerEvent.log_low_memory _ => true
  | _ => false

/-- The clock readings of the ticks on which the low-memory warning is
emitted, over consecutive ticks of one timer up to and including the first
tick that restarts the device. -/
def warning_times (s : TimerState) : List Tick → List Nat
  | [] => []
  | t :: rest =>
    (if (elk_timer_cb s t).2.any TimerEvent.is_low_memory_warning then [t.now] else []) ++
      (if TimerEvent.restart ∈ (elk_timer_cb s t).2 then []
        else warning_times (elk_timer_cb s t).1 rest)

/-! ## Indices of `js_lv_line_set_points` -/

/-- The loop `for (i = ...; i < pairCount; i++) { x = args[idx++]; y =
args[idx++]; points[i] = ... }` of `js_lv_line_set_points` with `n` passes
left: for each pass the index of the point written and the indices of the two
arguments read. -/
def line_points_loop : Nat → Nat → Nat → List (Nat × Nat × Nat)
  | 0, _, _ => []
  | n + 1, i, idx => (i, idx, idx + 1) :: line_points_loop n (i + 1) (idx + 2)

/-- The indices of `args` that `js_lv_line_set_points` reads, in program
order: none when `nargs < 3`; otherwise `args[0]` for the handle and, when the
pair count is at least 1 and the handle is valid, the two reads of each pass of
the loop. -/
def js_lv_line_set_points_reads (b : Bridge) (args : List jsval) : List Nat :=
  if args.length < 3 then []
  else
    let h := js_getint (args.getD 0 jsval.undef)
    let pairCount := (args.length - 1) / 2
    if pairCount < 1 then [0]
    else
      match get_lv_obj b.g_objects h with
      | none => [0]
      | some _ =>
        let pairCount := if pairCount > 16 then 16 else pairCount
        0 :: (line_points_loop pairCount 0 1).flatMap (fun p => [p.2.1, p.2.2])

/-- A registry with a line object in slot 0. -/
def line_bridge : Bridge :=
  { g_objects := [some 900], g_style_map := g_style_map_init, lv_calls := [] }

/-! ## Display brightness (`webscreen_hardware.cpp`, `lvgl_elk.h` section H2) -/

/-- The display statics of `webscreen_hardware.cpp` together with the record of
the values sent to the panel through `lcd_brightness`. -/
structure Display where
  g_display_on : Bool
  g_brightness : Nat
  lcd_brightness : List Nat
  deriving DecidableEq, Repr

/-- The display statics as initialised (`g_display_on = true`,
`g_brightness = 200`), with nothing sent to the panel yet. -/
def display_boot : Display := { g_display_on := true, g_brightness := 200, lcd_brightness := [] }

/-- `webscreen_display_set_brightness(brightness)`, the parameter being a
`uint8_t`. -/
def webscreen_display_set_brightness (d : Display) (brightness : Nat) : Bool × Display :=
  (true, { d with g_brightness := brightness % 256,
                  lcd_brightness := d.lcd_brightness ++ [brightness % 256] })

/-- `webscreen_display_get_brightness()`. -/
def webscreen_display_get_brightness (d : Display) : Nat := d.g_brightness

/-- `js_set_brightness`. -/
def js_set_brightness (d : Display) (args : List jsval) : jsval × Display :=
  if args.length < 1 then (jsval.num (-1), d)
  else
    let val := js_getint (args.getD 0 jsval.undef)
    let val := if val < 0 then 0 else val
    let val := if val > 255 then 255 else val
    (jsval.num val, { d with lcd_brightness := d.lcd_brightness ++ [val.toNat % 256] })

/-- `js_get_brightness`. -/
def js_get_brightness (d : Display) (_args : List jsval) : jsval × Display :=
  (jsval.num (webscreen_display_get_brightness d : Nat), d)

/-- Successive calls of `set_brightness` from the script, each with its
arguments; the display state after the last. -/
def js_set_brightness_calls (d : Display) : List (List jsval) → Display
  | [] => d
  | args :: rest => js_set_brightness_calls (js_set_brightness d args).2 rest

/-! ## Base64 decoding of uploads (`serial_commands.cpp`) -/

/-- `base64_decode_table[128]`. -/
def base64_decode_table : List Nat :=
  [64, 64, 64, 64, 64, 64, 64, 64, 64, 64, 64, 64, 64, 64, 64, 64,
   64, 64, 64, 64, 64, 64, 64, 64, 64, 64, 64, 64, 64, 64, 64, 64,
   64, 64, 64, 64, 64, 64, 64, 64, 64, 64, 64, 62, 64, 64, 64, 63,
   52, 53, 54, 55, 56, 57, 58, 59, 60, 61, 64, 64, 64, 64, 64, 64,
   64,  0,  1,  2,  3,  4,  5,  6,  7,  8,  9, 10, 11, 12, 13, 14,
   15, 16, 17, 18, 19, 20, 21, 22, 23, 24, 25, 64, 64, 64, 64, 64,
   64, 26, 27, 28, 29, 30, 31, 32, 33, 34, 35, 36, 37, 38, 39, 40,
   41, 42, 43, 44, 45, 46, 47, 48, 49, 50, 51, 64, 64, 64, 64, 64]

/-- The locals of `base64_decode` between two passes of its loop: the bytes
written to `output[0 .. outputLen)`, the 32-bit `buffer` and
`bitsCollected`. -/
structure Base64State where
  output : List Nat
  buffer : Nat
  bitsCollected : Nat
  deriving DecidableEq, Repr

/-- One pass of the loop of `base64_decode` on the character `c`, given as the
value of its byte (0 to 255; the test `c < 0 || c >= 128` rejects the bytes
from 128 on whether `char` is signed or not).  `capacity` is the size of the
array that `output` points to.  The code writes `output[outputLen++]` without
a check; the result is `none` when that write falls at or beyond `capacity`,
where C leaves the behaviour undefined. -/
def base64_decode_step (capacity : Nat) (st : Base64State) (c : Nat) : Option Base64State :=
  if c = 61 ∨ c = 10 ∨ c = 13 ∨ c = 32 then some st
  else if c ≥ 128 then some st
  else
    let value := base64_decode_table.getD c 64
    if value ≥ 64 then some st
    else
      let buffer := ((st.buffer <<< 6) % UINT32_MOD) ||| value
      let bitsCollected := st.bitsCollected + 6
      if bitsCollected ≥ 8 then
        if st.output.length < capacity then
          some { output := st.output ++ [(buffer >>> (bitsCollected - 8)) &&& 0xFF],
                 buffer := buffer,
                 bitsCollected := bitsCollected - 8 }
        else none
      else
        some { output := st.output, buffer := buffer, bitsCollected := bitsCollected }

/-- The loop `for (i = ...; i < inputLen; i++)` of `base64_decode` over the
characters still to be read; `none` once a pass has written outside the
array. -/
def base64_decode_loop (capacity : Nat) : Base64State → List Nat → Option Base64State
  | st, [] => some st
  | st, c :: rest =>
    match base64_decode_step capacity st c with
    | none => none
    | some st1 => base64_decode_loop capacity st1 rest

/-- `base64_decode(input, inputLen, output)` with `output` pointing to an array
of `capacity` bytes: the bytes written to `output` and the returned
`outputLen`, which counts them, or `none` when a write falls outside the
array. -/
def base64_decode (capacity : Nat) (input : List Nat) : Option (List Nat × Nat) :=
  (base64_decode_loop capacity { output := [], buffer := 0, bitsCollected := 0 } input).map
    (fun st => (st.output, st.output.length))

/-- The size of `uint8_t decodeBuffer[512]`, the array that
`SerialCommands::uploadFile` hands to `base64_decode` for every line. -/
def DECODE_BUFFER_SIZE : Nat := 512

/-- The Base64 alphabet `A-Z a-z 0-9 + /` as character codes, in the order of
their 6-bit values. -/
def base64_alphabet : List Nat :=
  "ABCDEFGHIJKLMNOPQRSTUVWXYZabcdefghijklmnopqrstuvwxyz0123456789+/".toList.map Char.toNat

/-- The character of the alphabet for a 6-bit value. -/
def base64_char (v : Nat) : Nat := base64_alphabet.getD v 0

/-- The standard Base64 encoding of a byte sequence, as the claim names it
(not code of the repository): every 3 bytes give 4 characters of the alphabet,
and a last group of 1 or 2 bytes gives 2 or 3 characters followed by `=`
padding up to 4. -/
def standard_base64_encode : List Nat → List Nat
  | a :: b :: c :: rest =>
    base64_char (a / 4) :: base64_char (a % 4 * 16 + b / 16) ::
      base64_char (b % 16 * 4 + c / 64) :: base64_char (c % 64) ::
      standard_base64_encode rest
  | [a, b] =>
    [base64_char (a / 4), base64_char (a % 4 * 16 + b / 16), base64_char (b % 16 * 4), 61]
  | [a] => [base64_char (a / 4), base64_char (a % 4 * 16), 61, 61]
  | [] => []

/-- Whether a character is a space, a carriage return or a line feed. -/
def is_base64_whitespace (c : Nat) : Bool := c == 32 || c == 13 || c == 10

/-- Whether a character belongs to the Base64 alphabet. -/
def is_base64_alphabet (c : Nat) : Bool := decide (c ∈ base64_alphabet)

/-! # Part II. Lemmas and theorems -/

/-! ### Lemmas on the registry -/

theorem store_scan_lt (g : Registry) (i : Nat) (h : store_scan g = some i) :
    i < g.length ∧ g.getD i none = none := by
  induction g generalizing i with
  | nil => simp [store_scan] at h
  | cons a rest ih =>
    cases a with
    | none =>
      simp only [store_scan, Option.some.injEq] at h
      subst h
      simp
    | some v =>
      simp only [store_scan, Option.map_eq_some'] at h
      obtain ⟨j, hj, rfl⟩ := h
      obtain ⟨h1, h2⟩ := ih j hj
      refine ⟨by simpa using h1, ?_⟩
      simpa using h2

theorem store_scan_none (g : Registry) (h : store_scan g = none) :
    ∀ i, i < g.length → g.getD i none ≠ none := by
  induction g with
  | nil => intro i hi; simp at hi
  | cons a rest ih =>
    cases a with
    | none => simp [store_scan] at h
    | some v =>
      simp only [store_scan, Option.map_eq_none'] at h
      intro i hi
      cases i with
      | zero => simp
      | succ j =>
        have := ih h j (by simpa using hi)
        simpa using this

theorem get_lv_obj_of_nat (g : Registry) (i : Nat) :
    get_lv_obj g (i : Int) = g.getD i none := by
  unfold get_lv_obj
  by_cases hi : i < g.length
  · have : (0 : Int) ≤ i ∧ (i : Int) < g.length := ⟨by omega, by omega⟩
    simp [this]
  · have : ¬ ((0 : Int) ≤ i ∧ (i : Int) < g.length) := by omega
    rw [if_neg this]
    rw [List.getD_eq_default]
    omega

theorem get_lv_obj_neg (g : Registry) (h : Int) (hneg : h < 0) :
    get_lv_obj g h = none := by
  unfold get_lv_obj
  rw [if_neg]
  omega

theorem get_lv_obj_ge (g : Registry) (h : Int) (hge : (g.length : Int) ≤ h) :
    get_lv_obj g h = none := by
  unfold get_lv_obj
  rw [if_neg]
  omega


theorem get_lv_obj_set (g : Registry) (i : Nat) (p : Ptr) (hi : i < g.length) (h : Int) :
    get_lv_obj (g.set i p) h = if h = (i : Int) then p else get_lv_obj g h := by
  by_cases hneg : h < 0
  · rw [get_lv_obj_neg _ _ hneg, get_lv_obj_neg _ _ hneg, if_neg (by omega)]
  · obtain ⟨n, rfl⟩ := Int.eq_ofNat_of_zero_le (not_lt.mp hneg)
    rw [get_lv_obj_of_nat, get_lv_obj_of_nat]
    by_cases hn : n = i
    · subst hn
      simp [List.getD_eq_getElem?_getD, List.getElem?_set, hi]
    · have hne : ¬ ((n : Int) = (i : Int)) := by omega
      rw [if_neg hne]
      simp [List.getD_eq_getElem?_getD, List.getElem?_set, Ne.symm hn]

theorem get_lv_obj_append (g : Registry) (p : Ptr) (h : Int) :
    get_lv_obj (g ++ [p]) h = if h = (g.length : Int) then p else get_lv_obj g h := by
  by_cases hneg : h < 0
  · rw [get_lv_obj_neg _ _ hneg, get_lv_obj_neg _ _ hneg, if_neg (by omega)]
  · obtain ⟨n, rfl⟩ := Int.eq_ofNat_of_zero_le (not_lt.mp hneg)
    rw [get_lv_obj_of_nat, get_lv_obj_of_nat]
    rcases Nat.lt_trichotomy n g.length with hlt | heq | hgt
    · have hne : ¬ ((n : Int) = (g.length : Int)) := by omega
      rw [if_neg hne]
      simp [List.getD_eq_getElem?_getD, List.getElem?_append_left hlt]
    · subst heq
      simp [List.getD_eq_getElem?_getD]
    · have hne : ¬ ((n : Int) = (g.length : Int)) := by omega
      rw [if_neg hne]
      rw [List.getD_eq_default, List.getD_eq_default]
      · omega
      · simp; omega

/-- The slot that `store_lv_obj` is about to use holds no object. -/
theorem get_lv_obj_store_handle_free (g : Registry) (p : Ptr) :
    get_lv_obj g (store_lv_obj g p).1 = none := by
  unfold store_lv_obj
  cases hs : store_scan g with
  | some i =>
    simp only
    rw [get_lv_obj_of_nat]
    exact (store_scan_lt g i hs).2
  | none =>
    simp only
    apply get_lv_obj_ge
    simp

/-- Lookup after a store: the returned handle now holds the object, every other
handle is unaffected. -/
theorem get_lv_obj_store (g : Registry) (p : Ptr) (h : Int) :
    get_lv_obj (store_lv_obj g p).2 h
      = if h = (store_lv_obj g p).1 then p else get_lv_obj g h := by
  unfold store_lv_obj
  cases hs : store_scan g with
  | some i =>
    simp only
    exact get_lv_obj_set g i p (store_scan_lt g i hs).1 h
  | none =>
    simp only
    have : (((g ++ [p]).length - 1 : Nat) : Int) = (g.length : Int) := by simp
    rw [this]
    exact get_lv_obj_append g p h

/-- Lookup after a release: the released handle is null, every other handle
is unaffected. -/
theorem get_lv_obj_release (g : Registry) (k h : Int) :
    get_lv_obj (release_lv_obj g k) h = if h = k then none else get_lv_obj g h := by
  unfold release_lv_obj
  by_cases hk : 0 ≤ k ∧ k < (g.length : Int)
  · rw [if_pos hk]
    obtain ⟨n, rfl⟩ := Int.eq_ofNat_of_zero_le hk.1
    have hn : n < g.length := by omega
    simpa using get_lv_obj_set g n none hn h
  · rw [if_neg hk]
    by_cases hh : h = k
    · subst hh
      rw [if_pos rfl]
      unfold get_lv_obj
      rw [if_neg hk]
    · rw [if_neg hh]

theorem runOps_append (g : Registry) (ops : List RegOp) (op : RegOp) :
    runOps g (ops ++ [op]) = op.apply (runOps g ops) := by
  simp [runOps, List.foldl_append]


/-- How a sequence with a last operation splits around one of its stores. -/
theorem split_last (ops pre post : List RegOp) (op x : RegOp) :
    ops ++ [op] = pre ++ x :: post ↔
      (post = [] ∧ pre = ops ∧ x = op) ∨
        ∃ post', post = post' ++ [op] ∧ ops = pre ++ x :: post' := by
  rcases List.eq_nil_or_concat post with hnil | ⟨post', y, hpost⟩
  · subst hnil
    constructor
    · intro h
      have := List.append_inj' h rfl
      left
      refine ⟨rfl, this.1.symm, ?_⟩
      simpa using this.2.symm
    · rintro (⟨-, rfl, rfl⟩ | ⟨post', hp, -⟩)
      · rfl
      · simp at hp
  · rw [List.concat_eq_append] at hpost
    subst hpost
    constructor
    · intro h
      have h' : ops ++ [op] = (pre ++ x :: post') ++ [y] := by simpa using h
      have := List.append_inj' h' rfl
      right
      refine ⟨post', ?_, this.1⟩
      have hy : op = y := by simpa using this.2
      rw [hy]
    · rintro (⟨hp, -, -⟩ | ⟨post'', hp, rfl⟩)
      · simp at hp
      · have := List.append_inj' hp rfl
        obtain ⟨h1, h2⟩ := this
        have hy : y = op := by simpa using h2
        subst hy
        subst h1
        simp

/-- C1. Handle registry lookup.  After any sequence of stores (of non-null
objects) and releases from the empty registry, and for every integer `h`
(negative and past-the-end values included), `get_lv_obj h` is the object `o`
exactly when some store of `o` in the sequence returned `h` and no release of
`h` follows that store; when no such store exists, `get_lv_obj h` is null. -/
theorem get_lv_obj_iff_stored_and_not_released (ops : List RegOp) (h : Int) :
    (∀ o : Nat, get_lv_obj (runOps [] ops) h = some o ↔
      ∃ pre post, ops = pre ++ RegOp.store o :: post ∧
        (store_lv_obj (runOps [] pre) (some o)).1 = h ∧ RegOp.release h ∉ post) ∧
    (get_lv_obj (runOps [] ops) h = none ↔
      ¬ ∃ o pre post, ops = pre ++ RegOp.store o :: post ∧
        (store_lv_obj (runOps [] pre) (some o)).1 = h ∧ RegOp.release h ∉ post) := by
  have main : ∀ (ops : List RegOp) (o : Nat), get_lv_obj (runOps [] ops) h = some o ↔
      ∃ pre post, ops = pre ++ RegOp.store o :: post ∧
        (store_lv_obj (runOps [] pre) (some o)).1 = h ∧ RegOp.release h ∉ post := by
    intro ops
    induction ops using List.reverseRecOn with
    | nil =>
      intro o
      constructor
      · intro hg
        simp [runOps, get_lv_obj] at hg
      · rintro ⟨pre, post, hsplit, -⟩
        simp at hsplit
    | append_singleton ops op ih =>
      intro o
      rw [runOps_append]
      cases op with
      | release k =>
        simp only [RegOp.apply]
        rw [get_lv_obj_release]
        by_cases hk : h = k
        · subst hk
          rw [if_pos rfl]
          constructor
          · intro hc
            cases hc
          · rintro ⟨pre, post, hsplit, -, hnot⟩
            rw [split_last] at hsplit
            rcases hsplit with ⟨-, -, hx⟩ | ⟨post', rfl, -⟩
            · cases hx
            · exact absurd (by simp) hnot
        · rw [if_neg hk, ih o]
          constructor
          · rintro ⟨pre, post, rfl, hh, hnot⟩
            refine ⟨pre, post ++ [RegOp.release k], by simp, hh, ?_⟩
            simp only [List.mem_append, List.mem_singleton, RegOp.release.injEq, not_or]
            exact ⟨hnot, hk⟩
          · rintro ⟨pre, post, hsplit, hh, hnot⟩
            rw [split_last] at hsplit
            rcases hsplit with ⟨-, -, hx⟩ | ⟨post', rfl, rfl⟩
            · cases hx
            · refine ⟨pre, post', rfl, hh, ?_⟩
              intro hmem
              exact hnot (List.mem_append_left _ hmem)
      | store o' =>
        simp only [RegOp.apply]
        rw [get_lv_obj_store]
        by_cases hk : h = (store_lv_obj (runOps [] ops) (some o')).1
        · rw [if_pos hk]
          constructor
          · intro ho
            have ho' : o' = o := by simpa using ho
            subst ho'
            exact ⟨ops, [], rfl, hk.symm, by simp⟩
          · rintro ⟨pre, post, hsplit, hh, hnot⟩
            rw [split_last] at hsplit
            rcases hsplit with ⟨-, -, hx⟩ | ⟨post', rfl, rfl⟩
            · cases hx
              rfl
            · exfalso
              have hlive : get_lv_obj (runOps [] (pre ++ RegOp.store o :: post')) h = some o :=
                (ih o).mpr ⟨pre, post', rfl, hh, fun hmem => hnot (List.mem_append_left _ hmem)⟩
              have hfree := get_lv_obj_store_handle_free
                (runOps [] (pre ++ RegOp.store o :: post')) (some o')
              rw [← hk, hlive] at hfree
              cases hfree
        · rw [if_neg hk, ih o]
          constructor
          · rintro ⟨pre, post, rfl, hh, hnot⟩
            refine ⟨pre, post ++ [RegOp.store o'], by simp, hh, ?_⟩
            simp only [List.mem_append, List.mem_singleton, not_or]
            exact ⟨hnot, by intro hc; cases hc⟩
          · rintro ⟨pre, post, hsplit, hh, hnot⟩
            rw [split_last] at hsplit
            rcases hsplit with ⟨-, rfl, hx⟩ | ⟨post', rfl, rfl⟩
            · cases hx
              exact absurd hh.symm hk
            · refine ⟨pre, post', rfl, hh, ?_⟩
              intro hmem
              exact hnot (List.mem_append_left _ hmem)
  refine ⟨main ops, ?_⟩
  constructor
  · intro hnone
    rintro ⟨o, pre, post, hex⟩
    have := (main ops o).mpr ⟨pre, post, hex⟩
    rw [hnone] at this
    cases this
  · intro hno
    cases hget : get_lv_obj (runOps [] ops) h with
    | none => rfl
    | some o =>
      obtain ⟨pre, post, hex⟩ := (main ops o).mp hget
      exact absurd ⟨o, pre, post, hex⟩ hno


/-- C2. Handles are not reused while their object is alive.  For every registry
state and non-null object, `store_lv_obj` returns a handle whose slot was free
(an existing null slot, or the new slot just past the end), the handle then
holds the stored object, every other handle looks up as before, and every
object that was live keeps its own handle, which differs from the new one. -/
theorem store_lv_obj_uses_free_slot (g : Registry) (o : Nat) :
    (0 ≤ (store_lv_obj g (some o)).1 ∧ (store_lv_obj g (some o)).1 ≤ (g.length : Int)) ∧
    get_lv_obj g (store_lv_obj g (some o)).1 = none ∧
    get_lv_obj (store_lv_obj g (some o)).2 (store_lv_obj g (some o)).1 = some o ∧
    (∀ h' : Int, h' ≠ (store_lv_obj g (some o)).1 →
      get_lv_obj (store_lv_obj g (some o)).2 h' = get_lv_obj g h') ∧
    (∀ (h' : Int) (o' : Nat), get_lv_obj g h' = some o' →
      h' ≠ (store_lv_obj g (some o)).1 ∧
        get_lv_obj (store_lv_obj g (some o)).2 h' = some o') := by
  refine ⟨?_, get_lv_obj_store_handle_free g (some o), ?_, ?_, ?_⟩
  · unfold store_lv_obj
    cases hs : store_scan g with
    | some i =>
      have := (store_scan_lt g i hs).1
      simp only
      omega
    | none =>
      simp
  · rw [get_lv_obj_store, if_pos rfl]
  · intro h' hne
    rw [get_lv_obj_store, if_neg hne]
  · intro h' o' hlive
    have hne : h' ≠ (store_lv_obj g (some o)).1 := by
      intro heq
      have hfree := get_lv_obj_store_handle_free g (some o)
      rw [← heq, hlive] at hfree
      cases hfree
    refine ⟨hne, ?_⟩
    rw [get_lv_obj_store, if_neg hne, hlive]

/-! ### Lemmas on the style pool -/

theorem create_style_scan_found (m : StyleMap) (n i k : Nat)
    (hik : i ≤ k) (hkn : k < i + n)
    (hfull : ∀ j, i ≤ j → j < k → m.getD j none ≠ none)
    (hfree : m.getD k none = none) :
    create_style_scan m n i = some k := by
  induction n generalizing i with
  | zero => omega
  | succ n ih =>
    unfold create_style_scan
    by_cases hi : i = k
    · subst hi
      rw [if_pos hfree]
    · have hlt : i < k := by omega
      rw [if_neg (hfull i (le_refl i) hlt)]
      exact ih (i + 1) (by omega) (by omega) (fun j h1 h2 => hfull j (by omega) h2)

theorem create_style_scan_full (m : StyleMap) (n i : Nat)
    (hfull : ∀ j, i ≤ j → j < i + n → m.getD j none ≠ none) :
    create_style_scan m n i = none := by
  induction n generalizing i with
  | zero => rfl
  | succ n ih =>
    unfold create_style_scan
    rw [if_neg (hfull i (le_refl i) (by omega))]
    exact ih (i + 1) (fun j h1 h2 => hfull j (by omega) (by omega))

theorem filledTo_init : FilledTo 0 g_style_map_init := by
  refine ⟨by simp [g_style_map_init], fun j hj => absurd hj (Nat.not_lt_zero j), ?_⟩
  intro j _
  simp [g_style_map_init, List.getD_eq_getElem?_getD, List.getElem?_replicate]
  split <;> rfl

theorem js_create_style_of_filledTo (m : StyleMap) (k st : Nat) (hk : k < MAX_STYLES)
    (hm : FilledTo k m) :
    js_create_style m st = (jsval.num (k : Int), m.set k (some st)) ∧
      FilledTo (k + 1) (m.set k (some st)) := by
  obtain ⟨hlen, hlow, hhigh⟩ := hm
  have hscan : create_style_scan m MAX_STYLES 0 = some k :=
    create_style_scan_found m MAX_STYLES 0 k (Nat.zero_le k) (by omega)
      (fun j _ hj => hlow j hj) (hhigh k (le_refl k))
  refine ⟨by simp [js_create_style, hscan], by simpa using hlen, ?_, ?_⟩
  · intro j hj
    by_cases hjk : j = k
    · subst hjk
      simp [List.getD_eq_getElem?_getD, List.getElem?_set, hlen, hk]
    · have := hlow j (by omega)
      simpa [List.getD_eq_getElem?_getD, List.getElem?_set, Ne.symm hjk] using this
  · intro j hj
    have hne : k ≠ j := by omega
    have := hhigh j (by omega)
    simpa [List.getD_eq_getElem?_getD, List.getElem?_set, hne] using this

theorem js_create_style_of_full (m : StyleMap) (st : Nat) (hm : FilledTo MAX_STYLES m) :
    js_create_style m st = (jsval.num (-1), m) := by
  obtain ⟨-, hlow, -⟩ := hm
  have hscan : create_style_scan m MAX_STYLES 0 = none :=
    create_style_scan_full m MAX_STYLES 0 (fun j _ hj => hlow j (by omega))
  simp [js_create_style, hscan]

theorem create_styles_results (sts : List Nat) :
    ∀ (k : Nat) (m : StyleMap), k ≤ MAX_STYLES → FilledTo k m →
      (∀ i, i < sts.length → (create_styles m sts).1[i]? = some (expectedHandle k i)) ∧
      FilledTo (min (k + sts.length) MAX_STYLES) (create_styles m sts).2 := by
  induction sts with
  | nil =>
    intro k m hk hm
    refine ⟨fun i hi => absurd hi (Nat.not_lt_zero i), ?_⟩
    simpa [create_styles, Nat.min_eq_left hk] using hm
  | cons st rest ih =>
    intro k m hk hm
    rcases Nat.lt_or_ge k MAX_STYLES with hlt | hge
    · obtain ⟨hcall, hnext⟩ := js_create_style_of_filledTo m k st hlt hm
      obtain ⟨hres, hfin⟩ := ih (k + 1) (m.set k (some st)) hlt hnext
      constructor
      · intro i hi
        cases i with
        | zero => simp [create_styles, hcall, expectedHandle, hlt]
        | succ i =>
          have := hres i (by simpa using hi)
          simp only [create_styles, hcall, List.getElem?_cons_succ, this]
          simp only [expectedHandle]
          have e : k + 1 + i = k + (i + 1) := by omega
          rw [e]
      · simp only [create_styles, hcall]
        have e : k + 1 + rest.length = k + (st :: rest).length := by simp; omega
        rw [← e]
        exact hfin
    · have hkeq : k = MAX_STYLES := le_antisymm hk hge
      subst hkeq
      have hcall := js_create_style_of_full m st hm
      obtain ⟨hres, hfin⟩ := ih MAX_STYLES m (le_refl _) hm
      constructor
      · intro i hi
        cases i with
        | zero => simp [create_styles, hcall, expectedHandle]
        | succ i =>
          have := hres i (by simpa using hi)
          simp only [create_styles, hcall, List.getElem?_cons_succ, this]
          simp [expectedHandle]
      · simp only [create_styles, hcall]
        have e1 : min (MAX_STYLES + rest.length) MAX_STYLES = MAX_STYLES := by omega
        have e2 : min (MAX_STYLES + (st :: rest).length) MAX_STYLES = MAX_STYLES := by omega
        rw [e2]
        rw [e1] at hfin
        exact hfin


/-- C3. Style pool capacity.  Starting from the empty pool, with every
allocation succeeding, the first 32 calls of `create_style` return the handles
0, 1, ..., 31 (pairwise distinct), every call from the 33rd on returns -1, and
once 32 styles exist a further call leaves the pool as it is. -/
theorem create_style_capacity (sts : List Nat) :
    (∀ i, i < sts.length → i < 32 →
      (create_styles g_style_map_init sts).1[i]? = some (jsval.num (i : Int))) ∧
    (∀ i j, i < j → j < sts.length → j < 32 →
      (create_styles g_style_map_init sts).1[i]? ≠ (create_styles g_style_map_init sts).1[j]?) ∧
    (∀ i, 32 ≤ i → i < sts.length →
      (create_styles g_style_map_init sts).1[i]? = some (jsval.num (-1))) ∧
    (∀ st, 32 ≤ sts.length →
      js_create_style (create_styles g_style_map_init sts).2 st
        = (jsval.num (-1), (create_styles g_style_map_init sts).2)) := by
  obtain ⟨hres, hfin⟩ :=
    create_styles_results sts 0 g_style_map_init (Nat.zero_le _) filledTo_init
  have hlow : ∀ i, i < sts.length → i < 32 →
      (create_styles g_style_map_init sts).1[i]? = some (jsval.num (i : Int)) := by
    intro i hi h32
    rw [hres i hi]
    simp [expectedHandle, MAX_STYLES, h32]
  refine ⟨hlow, ?_, ?_, ?_⟩
  · intro i j hij hj h32
    rw [hlow i (by omega) (by omega), hlow j hj h32]
    intro heq
    simp only [Option.some.injEq, jsval.num.injEq, Nat.cast_inj] at heq
    omega
  · intro i h32 hi
    rw [hres i hi]
    have : ¬ (0 + i < MAX_STYLES) := by simp [MAX_STYLES]; omega
    simp only [expectedHandle, if_neg this]
  · intro st hlen
    apply js_create_style_of_full
    have e : min (0 + sts.length) MAX_STYLES = MAX_STYLES := by
      simp [MAX_STYLES]; omega
    rw [e] at hfin
    exact hfin


/-! ### The periodic callback -/

/-- The low-memory branch of a tick: a collection, no evaluation, and a restart
exactly when the heap is still under the critical floor. -/
theorem elk_timer_cb_low (s : TimerState) (t : Tick) (name : List Char) (e : Nat)
    (hname : t.func_name = some name) (hjs : t.js = some e) (hlow : t.freeHeap < 20000) :
    TimerEvent.js_gc ∈ (elk_timer_cb s t).2 ∧
    (∀ sn, TimerEvent.js_eval sn ∉ (elk_timer_cb s t).2) ∧
    (TimerEvent.restart ∈ (elk_timer_cb s t).2 ↔ t.freeHeapAfterGc < 15000) := by
  unfold elk_timer_cb
  simp only [hname, hjs, if_pos hlow]
  by_cases hcrit : t.freeHeapAfterGc < 15000
  · simp only [if_pos hcrit]
    refine ⟨by simp, ?_, by simp [hcrit]⟩
    intro sn
    split <;> simp
  · simp only [if_neg hcrit]
    refine ⟨by simp, ?_, ?_⟩
    · intro sn
      split <;> simp
    · simp only [hcrit, iff_false]
      split <;> simp

/-- The normal branch of a tick below the reboot threshold: the snippet is
evaluated. -/
theorem elk_timer_cb_normal (s : TimerState) (t : Tick) (name : List Char) (e : Nat)
    (hname : t.func_name = some name) (hjs : t.js = some e) (hheap : 20000 ≤ t.freeHeap)
    (hcount : (s.g_timer_exec_count + 1) % UINT32_MOD < REBOOT_THRESHOLD) :
    TimerEvent.js_eval (timer_snippet name) ∈ (elk_timer_cb s t).2 := by
  unfold elk_timer_cb
  have h1 : ¬ t.freeHeap < 20000 := by omega
  have h2 : ¬ (s.g_timer_exec_count + 1) % UINT32_MOD ≥ REBOOT_THRESHOLD := by omega
  simp only [hname, hjs, if_neg h1, if_neg h2]
  cases t.evalResult with
  | ok => simp
  | error text =>
    simp only
    split <;> simp

/-- C4. Low-memory ladder of `elk_timer_cb`.  On every tick with a registered
callback name and a live engine: if the free heap read at the start is below
20000 bytes, a collection is forced, the callback is not evaluated, and the
device restarts exactly when the heap read after the collection is below 15000
bytes; if the free heap at the start is at least 20000 and the incremented
invocation counter is below the reboot threshold, the callback is evaluated.
With readings 25000, 18000, 12000 on three consecutive ticks the callback runs
on the first, the second only collects, and the third collects, re-checks and
restarts. -/
theorem elk_timer_cb_low_memory_ladder :
    (∀ (s : TimerState) (t : Tick) (name : List Char) (e : Nat),
      t.func_name = some name → t.js = some e →
        (t.freeHeap < 20000 →
          TimerEvent.js_gc ∈ (elk_timer_cb s t).2 ∧
          (∀ sn, TimerEvent.js_eval sn ∉ (elk_timer_cb s t).2) ∧
          (TimerEvent.restart ∈ (elk_timer_cb s t).2 ↔ t.freeHeapAfterGc < 15000)) ∧
        (20000 ≤ t.freeHeap →
          (s.g_timer_exec_count + 1) % UINT32_MOD < REBOOT_THRESHOLD →
          TimerEvent.js_eval (timer_snippet name) ∈ (elk_timer_cb s t).2)) ∧
    run_ticks { g_timer_exec_count := 0, lastWarning := 0 }
        [simulated_tick 25000 1000, simulated_tick 18000 2000, simulated_tick 12000 3000]
      = [[TimerEvent.js_eval "tick();".toList],
         [TimerEvent.js_gc],
         [TimerEvent.js_gc, TimerEvent.log_critical 12000, TimerEvent.delay 1000,
          TimerEvent.restart]] := by
  refine ⟨?_, by decide⟩
  intro s t name e hname hjs
  exact ⟨elk_timer_cb_low s t name e hname hjs, elk_timer_cb_normal s t name e hname hjs⟩

/-- The ladder of C4 at a concrete tick: counter 7, heap 18000 before and 16000
after the collection. -/
theorem elk_timer_cb_low_memory_ladder_witness :
    TimerEvent.js_gc ∈ (elk_timer_cb { g_timer_exec_count := 7, lastWarning := 0 }
        { func_name := some "tick".toList, js := some 1, freeHeap := 18000,
          freeHeapAfterGc := 16000, now := 9000, evalResult := EvalResult.ok }).2 ∧
    TimerEvent.restart ∉ (elk_timer_cb { g_timer_exec_count := 7, lastWarning := 0 }
        { func_name := some "tick".toList, js := some 1, freeHeap := 18000,
          freeHeapAfterGc := 16000, now := 9000, evalResult := EvalResult.ok }).2 := by
  have h := (elk_timer_cb_low_memory_ladder.1 { g_timer_exec_count := 7, lastWarning := 0 }
    { func_name := some "tick".toList, js := some 1, freeHeap := 18000,
      freeHeapAfterGc := 16000, now := 9000, evalResult := EvalResult.ok }
    "tick".toList 1 rfl rfl).1 (by decide)
  exact ⟨h.1, fun hr => absurd (h.2.2.mp hr) (by decide)⟩

/-- C5, as stated, fails: on the tick that brings the invocation counter to
36000 with a free heap of 18000 bytes (and 18000 after the collection), the
low-memory branch returns first and the device is not restarted. -/
theorem elk_timer_cb_no_reboot_at_threshold_when_low :
    ((35999 + 1) % UINT32_MOD = REBOOT_THRESHOLD) ∧
    (simulated_tick 18000 1000).freeHeap < 20000 ∧
    TimerEvent.restart ∉
      (elk_timer_cb { g_timer_exec_count := 35999, lastWarning := 0 }
        (simulated_tick 18000 1000)).2 := by
  decide

/-- C5, amended.  On the tick at which the invocation counter reaches 36000
(with a registered callback name and a live engine), the device restarts if the
free heap read at the start of the tick is at least 20000 bytes: the actions
are the periodic collection, the maintenance log line, the delay and the
restart, and the callback is not evaluated.  If the reading is below 20000 the
low-memory branch runs instead, and the device restarts on that tick exactly
when the heap read after the collection is below 15000 bytes. -/
theorem elk_timer_cb_reboot_at_threshold (s : TimerState) (t : Tick) (name : List Char)
    (e : Nat) (hname : t.func_name = some name) (hjs : t.js = some e)
    (hcount : (s.g_timer_exec_count + 1) % UINT32_MOD = REBOOT_THRESHOLD) :
    (20000 ≤ t.freeHeap →
      (elk_timer_cb s t).2 = [TimerEvent.js_gc, TimerEvent.log_scheduled_reboot,
        TimerEvent.delay 1000, TimerEvent.restart]) ∧
    (t.freeHeap < 20000 →
      (TimerEvent.restart ∈ (elk_timer_cb s t).2 ↔ t.freeHeapAfterGc < 15000)) := by
  constructor
  · intro hheap
    unfold elk_timer_cb
    have h1 : ¬ t.freeHeap < 20000 := by omega
    have h2 : (s.g_timer_exec_count + 1) % UINT32_MOD ≥ REBOOT_THRESHOLD := by omega
    have h3 : (s.g_timer_exec_count + 1) % UINT32_MOD % GC_INTERVAL = 0 := by
      rw [hcount]; decide
    simp only [hname, hjs, if_neg h1, if_pos h2, h3]
    rfl
  · intro hlow
    exact (elk_timer_cb_low s t name e hname hjs hlow).2.2

/-- The amended C5 at the threshold tick with a free heap of 25000 bytes. -/
theorem elk_timer_cb_reboot_at_threshold_witness :
    (elk_timer_cb { g_timer_exec_count := 35999, lastWarning := 0 }
        (simulated_tick 25000 1000)).2
      = [TimerEvent.js_gc, TimerEvent.log_scheduled_reboot, TimerEvent.delay 1000,
         TimerEvent.restart] :=
  (elk_timer_cb_reboot_at_threshold { g_timer_exec_count := 35999, lastWarning := 0 }
    (simulated_tick 25000 1000) "tick".toList 1 rfl rfl (by decide)).1 (by decide)


/-! ### Start of the runtime -/

/-- What `webscreen_runtime_start_fallback` does to any state: it succeeds, sets
the fallback flag and clears the script flag, leaves the arena alone, and the
only collaborator call it can make is the deletion of a running script task. -/
theorem webscreen_runtime_start_fallback_spec (st : Runtime) (env : RuntimeEnv) :
    (webscreen_runtime_start_fallback st env).1 = true ∧
    (webscreen_runtime_start_fallback st env).2.g_app_state = st.g_app_state ∧
    (webscreen_runtime_start_fallback st env).2.g_fallback_active = true ∧
    (webscreen_runtime_start_fallback st env).2.g_javascript_active = false ∧
    (webscreen_runtime_start_fallback st env).2.elk_memory = st.elk_memory ∧
    (webscreen_runtime_start_fallback st env).2.elk_memory_size = st.elk_memory_size ∧
    ∃ new, (webscreen_runtime_start_fallback st env).2.calls = st.calls ++ new ∧
      ∀ c ∈ new, ∃ task, c = RuntimeCall.vTaskDelete task := by
  unfold webscreen_runtime_start_fallback webscreen_runtime_init_lvgl
    webscreen_runtime_shutdown
  by_cases hact : (st.g_javascript_active || st.g_fallback_active) = true
  · rw [if_pos hact]
    cases htask : st.g_js_task_handle with
    | none =>
      refine ⟨rfl, rfl, rfl, rfl, rfl, rfl, [], by simp, ?_⟩
      intro c hc
      cases hc
    | some task =>
      refine ⟨rfl, rfl, rfl, rfl, rfl, rfl, [RuntimeCall.vTaskDelete task], rfl, ?_⟩
      intro c hc
      exact ⟨task, by simpa using hc⟩
  · rw [if_neg hact]
    refine ⟨rfl, rfl, rfl, rfl, rfl, rfl, [], by simp, ?_⟩
    intro c hc
    cases hc

/-- C6. Fallback fallthrough.  If storage is available (`g_use_fallback` is
clear) and the configured script file does not exist, `start_runtime` returns
true with the app state `RUNNING_FALLBACK`, the fallback flag set and the
script flag clear; the arena pointer and size are as before, and among the
collaborator calls made there is no `init_elk_memory`, no allocation and no
`js_create`. -/
theorem start_runtime_missing_script_falls_back (st : Runtime) (env : RuntimeEnv)
    (hstorage : st.g_use_fallback = false) (hmissing : env.exists_main = false) :
    (start_runtime st env).1 = true ∧
    (start_runtime st env).2.g_app_state = webscreen_app_state_t.RUNNING_FALLBACK ∧
    (start_runtime st env).2.g_fallback_active = true ∧
    (start_runtime st env).2.g_javascript_active = false ∧
    (start_runtime st env).2.elk_memory = st.elk_memory ∧
    (start_runtime st env).2.elk_memory_size = st.elk_memory_size ∧
    ∃ new, (start_runtime st env).2.calls = st.calls ++ new ∧
      RuntimeCall.init_elk_memory ∉ new ∧
      (∀ n, RuntimeCall.ps_malloc n ∉ new ∧ RuntimeCall.malloc n ∉ new ∧
        RuntimeCall.js_create n ∉ new) := by
  have hrun : start_runtime st env =
      webscreen_runtime_start_fallback
        { st with g_use_fallback := true
                  g_app_state := webscreen_app_state_t.RUNNING_FALLBACK } env := by
    unfold start_runtime
    simp [hstorage, hmissing]
  rw [hrun]
  obtain ⟨h1, h2, h3, h4, h5, h6, new, hcalls, hnew⟩ :=
    webscreen_runtime_start_fallback_spec
      { st with g_use_fallback := true
                g_app_state := webscreen_app_state_t.RUNNING_FALLBACK } env
  refine ⟨h1, h2, h3, h4, h5, h6, new, hcalls, ?_, ?_⟩
  · intro hmem
    obtain ⟨task, htask⟩ := hnew _ hmem
    cases htask
  · intro n
    refine ⟨?_, ?_, ?_⟩ <;>
    · intro hmem
      obtain ⟨task, htask⟩ := hnew _ hmem
      cases htask

/-- C6 at boot with the script file absent. -/
theorem start_runtime_missing_script_falls_back_witness :
    (start_runtime boot_state { env_empty_script with exists_main := false }).1 = true ∧
    (start_runtime boot_state { env_empty_script with exists_main := false }).2.g_app_state
      = webscreen_app_state_t.RUNNING_FALLBACK ∧
    (start_runtime boot_state { env_empty_script with exists_main := false }).2.elk_memory
      = none :=
  have h := start_runtime_missing_script_falls_back boot_state
    { env_empty_script with exists_main := false } rfl rfl
  ⟨h.1, h.2.1, h.2.2.2.2.1⟩

/-- C7 fails on the code.  From the boot state, when the script file exists, the
arena and the engine are created and the script turns out empty (or the script
loads and the execution task cannot be created),
`webscreen_runtime_start_javascript` reports failure and `start_runtime` falls
back to display-only mode, yet the engine reference `js` is still set and
`g_js_engine_initialized` is still true: `webscreen_runtime_shutdown` clears
them only when one of the two mode flags is set, and neither is at that
point. -/
theorem start_runtime_leaves_engine_after_failed_start :
    (webscreen_runtime_start_javascript boot_state env_empty_script (some "/app.js")).1 = false ∧
    (start_runtime boot_state env_empty_script).1 = true ∧
    (start_runtime boot_state env_empty_script).2.g_app_state
      = webscreen_app_state_t.RUNNING_FALLBACK ∧
    (start_runtime boot_state env_empty_script).2.g_fallback_active = true ∧
    (start_runtime boot_state env_empty_script).2.g_javascript_active = false ∧
    (start_runtime boot_state env_empty_script).2.js = some 4096 ∧
    (start_runtime boot_state env_empty_script).2.g_js_engine_initialized = true ∧
    (webscreen_runtime_start_javascript boot_state env_task_failure (some "/app.js")).1 = false ∧
    (start_runtime boot_state env_task_failure).2.g_app_state
      = webscreen_app_state_t.RUNNING_FALLBACK ∧
    (start_runtime boot_state env_task_failure).2.js = some 4096 ∧
    (start_runtime boot_state env_task_failure).2.g_js_engine_initialized = true := by
  refine ⟨by decide, by decide, by decide, by decide, by decide, by decide, by decide,
    by decide, by decide, by decide, by decide⟩


/-! ### Quote stripping -/

theorem quoted_wrapped (s : List Char) : IsWrapped (quoted s) := by
  constructor
  · exact ⟨s ++ [DQUOTE], rfl⟩
  · exact ⟨DQUOTE :: s, by simp [quoted]⟩

theorem strip_quotes_substring_quoted (s : List Char) :
    strip_quotes_substring (quoted s) = s := by
  have hw := quoted_wrapped s
  unfold strip_quotes_substring ArduinoString.startsWith ArduinoString.endsWith
  have hlen : (quoted s).length = s.length + 2 := by simp [quoted]
  simp only [decide_eq_true hw.1, decide_eq_true hw.2, Bool.and_self, if_true]
  unfold ArduinoString.substring u32_pred
  rw [hlen]
  have h1 : ¬ (s.length + 2 = 0) := by omega
  have h2 : ¬ (1 > s.length + 2 - 1) := by omega
  have h3 : ¬ (1 ≥ s.length + 2) := by omega
  have h4 : ¬ (s.length + 2 - 1 > s.length + 2) := by omega
  simp only [if_neg h1, if_neg h2, if_neg h3, if_neg h4]
  have h5 : s.length + 2 - 1 - 1 = s.length := by omega
  rw [h5]
  simp [quoted]

theorem strip_quotes_remove_quoted (s : List Char) :
    strip_quotes_remove (quoted s) = s := by
  have hw := quoted_wrapped s
  unfold strip_quotes_remove ArduinoString.startsWith ArduinoString.endsWith
  simp only [decide_eq_true hw.1, decide_eq_true hw.2, Bool.and_self, if_true]
  have hfirst : ArduinoString.remove (quoted s) 0 1 = s ++ [DQUOTE] := by
    unfold ArduinoString.remove
    have hlen : (quoted s).length = s.length + 2 := by simp [quoted]
    rw [hlen]
    have h1 : ¬ (0 ≥ s.length + 2) := by omega
    have h2 : ¬ (1 > s.length + 2 - 0) := by omega
    simp only [if_neg h1, if_neg h2]
    simp [quoted]
  rw [hfirst]
  unfold ArduinoString.remove u32_pred
  have hlen : (s ++ [DQUOTE]).length = s.length + 1 := by simp
  rw [hlen]
  have h1 : ¬ (s.length + 1 = 0) := by omega
  have h2 : ¬ (s.length + 1 - 1 ≥ s.length + 1) := by omega
  have h3 : ¬ (1 > s.length + 1 - (s.length + 1 - 1)) := by omega
  simp only [if_neg h1, if_neg h2, if_neg h3]
  have h5 : s.length + 1 - 1 = s.length := by omega
  rw [h5]
  simp

theorem strip_quotes_cstr_quoted (s : List Char) :
    strip_quotes_cstr (quoted s) = s.take 255 := by
  unfold strip_quotes_cstr
  have hlen : (quoted s).length = s.length + 2 := by simp [quoted]
  have h0 : (quoted s)[0]? = some DQUOTE := by simp [quoted]
  have hl : (quoted s)[s.length + 2 - 1]? = some DQUOTE := by
    have : s.length + 2 - 1 = s.length + 1 := by omega
    rw [this]
    simp [quoted, List.getElem?_append_right]
  rw [hlen]
  simp only [h0, hl, decide_True, Bool.and_self, if_true, ge_iff_le, Nat.le_add_left]
  have hd : (quoted s).drop 1 = s ++ [DQUOTE] := by simp [quoted]
  rw [hd]
  have h5 : s.length + 2 - 2 = s.length := by omega
  rw [h5]
  by_cases hbig : 256 ≤ s.length
  · rw [if_pos hbig]
    rw [List.take_append_of_le_length (by omega)]
  · rw [if_neg hbig]
    rw [List.take_append_of_le_length (le_refl _)]
    rw [List.take_length, List.take_of_length_le (by omega)]

theorem strip_quotes_cstr_unwrapped (s : List Char) (h : ¬ IsWrapped s) :
    strip_quotes_cstr s = s.take 255 := by
  unfold strip_quotes_cstr
  have hq : (decide (s.length ≥ 2) && decide (s[0]? = some DQUOTE)
      && decide (s[s.length - 1]? = some DQUOTE)) = false := by
    by_contra hc
    simp only [Bool.not_eq_false, Bool.and_eq_true, decide_eq_true_eq] at hc
    obtain ⟨⟨hlen, hfirst⟩, hlast⟩ := hc
    apply h
    constructor
    · cases s with
      | nil => simp at hlen
      | cons c rest =>
        simp at hfirst
        subst hfirst
        exact ⟨rest, rfl⟩
    · have hne : s ≠ [] := by
        intro hnil
        subst hnil
        simp at hlen
      have hgl : s.getLast? = some DQUOTE := by
        rw [List.getLast?_eq_getElem?]
        exact hlast
      have e : s.dropLast ++ [DQUOTE] = s :=
        List.dropLast_append_getLast? DQUOTE (by simpa using hgl)
      exact ⟨s.dropLast, e⟩
  simp only [hq, Bool.false_eq_true, if_false, List.drop_zero]
  by_cases hbig : 256 ≤ s.length
  · simp [hbig]
  · rw [if_neg (by simpa using hbig)]
    rw [List.take_length, List.take_of_length_le (by omega)]


theorem not_wrapped_replicate_a : ¬ IsWrapped (List.replicate 256 'a') := by
  rintro ⟨⟨t, ht⟩, -⟩
  rw [show (256 : Nat) = 255 + 1 from rfl, List.replicate_succ] at ht
  have hc : DQUOTE = 'a' := by
    simp only [List.singleton_append, List.cons.injEq] at ht
    exact ht.1
  exact absurd hc (by decide)


/-- C8, as stated, fails.  For the string `"a"` (an `a` wrapped in quotes), each
variant maps the string wrapped once more to `"a"` but maps `"a"` itself to
`a`; and the C-string variant of `label_set_text` does not return an unwrapped
string of 256 characters unchanged: it keeps 255 of them. -/
theorem quote_stripping_differs_on_wrapped_input :
    strip_quotes_substring (quoted (quoted ['a'])) ≠ strip_quotes_substring (quoted ['a']) ∧
    strip_quotes_remove (quoted (quoted ['a'])) ≠ strip_quotes_remove (quoted ['a']) ∧
    strip_quotes_cstr (quoted (quoted ['a'])) ≠ strip_quotes_cstr (quoted ['a']) ∧
    ¬ IsWrapped (List.replicate 256 'a') ∧
    strip_quotes_cstr (List.replicate 256 'a') ≠ List.replicate 256 'a' := by
  refine ⟨by decide, by decide, by decide, not_wrapped_replicate_a, ?_⟩
  intro heq
  have hlen := congrArg List.length heq
  rw [strip_quotes_cstr_unwrapped _ not_wrapped_replicate_a, List.length_take,
    List.length_replicate] at hlen
  exact absurd hlen (by decide)

/-- C8, amended.  Each variant removes exactly one layer of quotes: for every
string `s`, the substring and remove variants map `s` wrapped in quotes to `s`,
and the C-string variant of `label_set_text` maps it to the first 255
characters of `s`.  For every `s` that is not itself wrapped in quotes, the
substring and remove variants return `s` unchanged, the C-string variant
returns the first 255 characters of `s`, and so each variant gives the same
text for `s` wrapped in quotes as for `s`. -/
theorem quote_stripping_removes_one_layer (s : List Char) :
    (strip_quotes_substring (quoted s) = s ∧
      strip_quotes_remove (quoted s) = s ∧
      strip_quotes_cstr (quoted s) = s.take 255) ∧
    (¬ IsWrapped s →
      strip_quotes_substring s = s ∧
      strip_quotes_remove s = s ∧
      strip_quotes_cstr s = s.take 255 ∧
      strip_quotes_substring (quoted s) = strip_quotes_substring s ∧
      strip_quotes_remove (quoted s) = strip_quotes_remove s ∧
      strip_quotes_cstr (quoted s) = strip_quotes_cstr s) := by
  refine ⟨⟨strip_quotes_substring_quoted s, strip_quotes_remove_quoted s,
    strip_quotes_cstr_quoted s⟩, ?_⟩
  intro hnw
  have hcond : (ArduinoString.startsWith s [DQUOTE] && ArduinoString.endsWith s [DQUOTE])
      = false := by
    unfold ArduinoString.startsWith ArduinoString.endsWith
    by_contra hc
    simp only [Bool.not_eq_false, Bool.and_eq_true, decide_eq_true_eq] at hc
    exact hnw hc
  have h1 : strip_quotes_substring s = s := by
    unfold strip_quotes_substring
    rw [hcond]
    rfl
  have h2 : strip_quotes_remove s = s := by
    unfold strip_quotes_remove
    rw [hcond]
    rfl
  have h3 := strip_quotes_cstr_unwrapped s hnw
  refine ⟨h1, h2, h3, ?_, ?_, ?_⟩
  · rw [h1, strip_quotes_substring_quoted]
  · rw [h2, strip_quotes_remove_quoted]
  · rw [h3, strip_quotes_cstr_quoted]

/-- The amended C8 at the unwrapped string `abc`. -/
theorem quote_stripping_removes_one_layer_witness :
    strip_quotes_substring (quoted "abc".toList) = "abc".toList ∧
    strip_quotes_remove "abc".toList = "abc".toList ∧
    strip_quotes_cstr (quoted "abc".toList) = strip_quotes_cstr "abc".toList :=
  have h := quote_stripping_removes_one_layer "abc".toList
  have hu := h.2 (by decide)
  ⟨h.1.1, hu.2.1, hu.2.2.2.2.2⟩

/-! ### Argument-count tests of the bindings -/

theorem register_js_functions_sentinels :
    ∀ b ∈ register_js_functions, ∀ v, b.check.sentinel = some v →
      is_binding_sentinel b v = true := by
  decide

theorem ArgCheck.reject_of_lt (c : ArgCheck) (m nargs : Nat)
    (hm : c.minimum = some m) (hlt : nargs < m) :
    ∃ v, c.reject nargs = some v ∧ c.sentinel = some v := by
  cases c with
  | unchecked => simp [ArgCheck.minimum] at hm
  | atLeast n v =>
    simp only [ArgCheck.minimum, Option.some.injEq] at hm
    subst hm
    exact ⟨v, by simp [ArgCheck.reject, hlt], rfl⟩
  | exactly n v =>
    simp only [ArgCheck.minimum, Option.some.injEq] at hm
    subst hm
    have hne : nargs ≠ n := by omega
    exact ⟨v, by simp [ArgCheck.reject, hne], rfl⟩

/-- C9, as stated, fails: `http_get` is registered with the test
`if (nargs < 1) return js_mkstr(js, "", 0)`, so a call without arguments
returns the empty string, which is neither null, nor false, nor a negative
number; likewise `toNumber` without arguments returns the number 0. -/
theorem under_supplied_http_get_returns_empty_string :
    Binding.mk "http_get" "js_http_get" (ArgCheck.atLeast 1 (jsval.str []))
      ∈ register_js_functions ∧
    (ArgCheck.atLeast 1 (jsval.str [])).minimum = some 1 ∧
    (ArgCheck.atLeast 1 (jsval.str [])).reject 0 = some (jsval.str []) ∧
    is_null_false_or_negative (jsval.str []) = false ∧
    Binding.mk "toNumber" "js_to_number" (ArgCheck.exactly 1 (jsval.num 0))
      ∈ register_js_functions ∧
    (ArgCheck.exactly 1 (jsval.num 0)).reject 0 = some (jsval.num 0) ∧
    is_null_false_or_negative (jsval.num 0) = false := by
  decide

/-- C9, amended.  For every binding registered by `register_js_functions` whose
argument-count test enforces a minimum, a call with fewer arguments than that
minimum is rejected by the test with null, false, the number -1, the empty
string, or (for `toNumber` only) the number 0; the value is never an engine
error value. -/
theorem under_supplied_call_returns_sentinel (b : Binding) (m nargs : Nat)
    (hreg : b ∈ register_js_functions) (hmin : b.check.minimum = some m)
    (hlt : nargs < m) :
    ∃ v, b.check.reject nargs = some v ∧
      (v = jsval.null ∨ v = jsval.fls ∨ v = jsval.num (-1) ∨ v = jsval.str [] ∨
        (b.name = "toNumber" ∧ v = jsval.num 0)) ∧
      ∀ msg, v ≠ jsval.err msg := by
  obtain ⟨v, hrej, hsent⟩ := ArgCheck.reject_of_lt b.check m nargs hmin hlt
  have hok := register_js_functions_sentinels b hreg v hsent
  have hshape : v = jsval.null ∨ v = jsval.fls ∨ v = jsval.num (-1) ∨ v = jsval.str [] ∨
      (b.name = "toNumber" ∧ v = jsval.num 0) := by
    simp only [is_binding_sentinel, Bool.or_eq_true, Bool.and_eq_true,
      decide_eq_true_eq] at hok
    tauto
  refine ⟨v, hrej, hshape, ?_⟩
  intro msg hmsg
  subst hmsg
  rcases hshape with h | h | h | h | ⟨-, h⟩ <;> cases h

/-- The amended C9 at `draw_rect` called with two arguments. -/
theorem under_supplied_call_returns_sentinel_witness :
    ∃ v, (ArgCheck.atLeast 4 (jsval.num (-1))).reject 2 = some v ∧
      (v = jsval.null ∨ v = jsval.fls ∨ v = jsval.num (-1) ∨ v = jsval.str [] ∨
        ("draw_rect" = "toNumber" ∧ v = jsval.num 0)) ∧
      ∀ msg, v ≠ jsval.err msg :=
  under_supplied_call_returns_sentinel
    (Binding.mk "draw_rect" "js_lvgl_draw_rect" (ArgCheck.atLeast 4 (jsval.num (-1)))) 4 2
    (by decide) rfl (by decide)


/-! ### Invalid handles -/

theorem get_lv_obj_invalid (g : Registry) (h : Int)
    (hinv : h < 0 ∨ (g.length : Int) ≤ h ∨ g.getD h.toNat none = none) :
    get_lv_obj g h = none := by
  rcases hinv with hneg | hge | hnull
  · exact get_lv_obj_neg g h hneg
  · exact get_lv_obj_ge g h hge
  · unfold get_lv_obj
    split
    · exact hnull
    · rfl

theorem ObjBinding.call_invalid (d : ObjBinding) (env : CallEnv) (b : Bridge)
    (args : List jsval)
    (hinv : get_lv_obj b.g_objects (js_getint (args.getD 0 jsval.undef)) = none) :
    d.call env b args = (jsval.null, b) := by
  unfold ObjBinding.call
  split
  · rfl
  · rw [hinv]

theorem js_animate_obj_invalid (env : CallEnv) (b : Bridge) (args : List jsval)
    (hinv : get_lv_obj b.g_objects (js_getint (args.getD 0 jsval.undef)) = none) :
    js_animate_obj env b args = (jsval.null, b) := by
  unfold js_animate_obj
  split
  · rfl
  · simp only [hinv]

theorem js_label_set_text_invalid (env : CallEnv) (b : Bridge) (args : List jsval)
    (hinv : get_lv_obj b.g_objects (js_getint (args.getD 0 jsval.undef)) = none) :
    js_label_set_text env b args = (jsval.null, b) := by
  unfold js_label_set_text
  split
  · rfl
  · cases env.rawText with
    | none => rfl
    | some rawText =>
      simp only [hinv]
      split <;> rfl

theorem js_obj_add_style_invalid (env : CallEnv) (b : Bridge) (args : List jsval)
    (hinv : get_lv_obj b.g_objects (js_getint (args.getD 0 jsval.undef)) = none ∨
      get_lv_style b.g_style_map (js_getint (args.getD 1 jsval.undef)) = none) :
    js_obj_add_style env b args = (jsval.null, b) := by
  unfold js_obj_add_style
  split
  · rfl
  · rcases hinv with hobj | hst
    · simp only [hobj]
    · simp only [hst]
      split
      · rename_i heq
        cases heq
      · rfl

theorem js_lv_line_set_points_invalid (env : CallEnv) (b : Bridge) (args : List jsval)
    (hinv : get_lv_obj b.g_objects (js_getint (args.getD 0 jsval.undef)) = none) :
    js_lv_line_set_points env b args = (jsval.null, b) := by
  unfold js_lv_line_set_points
  split
  · rfl
  · simp only [hinv]
    split <;> rfl

/-- C10. Invalid handles are a no-op.  For every binding that looks an object
handle up (the 44 bindings of the common shape, among them `move_obj`,
`rotate_obj`, `obj_set_size`, `obj_align` and `lv_chart_set_type`, and
`animate_obj`, `label_set_text`, `obj_add_style`, `lv_line_set_points`), every
state and every argument list whose handle is negative, at or beyond the
registry size, or names a null (released) slot, the call returns null and
leaves the registry, the style pool and the record of toolkit calls as they
were; `obj_add_style` does the same for an invalid style handle.  `get_lv_obj`
returns null for every negative or past-the-end integer and for a released
handle, and `get_lv_style` returns null for every integer outside 0..31. -/
theorem invalid_handle_is_noop :
    (∀ f ∈ handle_bindings, ∀ (env : CallEnv) (b : Bridge) (args : List jsval),
      (js_getint (args.getD 0 jsval.undef) < 0 ∨
        (b.g_objects.length : Int) ≤ js_getint (args.getD 0 jsval.undef) ∨
        b.g_objects.getD (js_getint (args.getD 0 jsval.undef)).toNat none = none) →
      f env b args = (jsval.null, b)) ∧
    (∀ (env : CallEnv) (b : Bridge) (args : List jsval),
      get_lv_style b.g_style_map (js_getint (args.getD 1 jsval.undef)) = none →
      js_obj_add_style env b args = (jsval.null, b)) ∧
    (∀ (g : Registry) (h : Int), (h < 0 ∨ (g.length : Int) ≤ h) → get_lv_obj g h = none) ∧
    (∀ (g : Registry) (h : Int), get_lv_obj (release_lv_obj g h) h = none) ∧
    (∀ (m : StyleMap) (h : Int), (h < 0 ∨ 32 ≤ h) → get_lv_style m h = none) := by
  refine ⟨?_, ?_, ?_, ?_, ?_⟩
  · intro f hf env b args hinv
    have hnone := get_lv_obj_invalid b.g_objects _ hinv
    simp only [handle_bindings, List.mem_append, List.mem_map, List.mem_cons,
      List.mem_singleton, List.not_mem_nil, or_false] at hf
    rcases hf with ⟨d, -, rfl⟩ | rfl | rfl | rfl | rfl
    · exact ObjBinding.call_invalid d env b args hnone
    · exact js_animate_obj_invalid env b args hnone
    · exact js_label_set_text_invalid env b args hnone
    · exact js_obj_add_style_invalid env b args (Or.inl hnone)
    · exact js_lv_line_set_points_invalid env b args hnone
  · intro env b args hst
    exact js_obj_add_style_invalid env b args (Or.inr hst)
  · intro g h hout
    rcases hout with hneg | hge
    · exact get_lv_obj_neg g h hneg
    · exact get_lv_obj_ge g h hge
  · intro g h
    rw [get_lv_obj_release, if_pos rfl]
  · intro m h hout
    unfold get_lv_style
    rw [if_pos]
    simp only [MAX_STYLES, Nat.cast_ofNat, ge_iff_le]
    exact hout

/-- C10 at concrete calls: `move_obj` on the released handle 1, `animate_obj`
on the handle -1 and `label_set_text` on the past-the-end handle 7 all return
null and leave the state as it was. -/
theorem invalid_handle_is_noop_witness :
    (ObjBinding.mk "js_move_obj" 3 "lv_obj_set_pos" false).call sample_env sample_bridge
        [jsval.num 1, jsval.num 10, jsval.num 20] = (jsval.null, sample_bridge) ∧
    js_animate_obj sample_env sample_bridge
        [jsval.num (-1), jsval.num 0, jsval.num 0, jsval.num 5, jsval.num 5]
      = (jsval.null, sample_bridge) ∧
    js_label_set_text sample_env sample_bridge [jsval.num 7, jsval.str "hi".toList]
      = (jsval.null, sample_bridge) :=
  ⟨invalid_handle_is_noop.1 _
      (List.mem_append_left _ (List.mem_map.mpr
        ⟨ObjBinding.mk "js_move_obj" 3 "lv_obj_set_pos" false, by decide, rfl⟩))
      sample_env sample_bridge [jsval.num 1, jsval.num 10, jsval.num 20] (by decide),
    invalid_handle_is_noop.1 js_animate_obj (by simp [handle_bindings]) sample_env sample_bridge
      [jsval.num (-1), jsval.num 0, jsval.num 0, jsval.num 5, jsval.num 5] (by decide),
    invalid_handle_is_noop.1 js_label_set_text (by simp [handle_bindings]) sample_env
      sample_bridge [jsval.num 7, jsval.str "hi".toList] (by decide)⟩

/-! ### Release and allocation order of the registry -/

theorem store_scan_min (g : Registry) (k : Nat) (h : store_scan g = some k) :
    ∀ j, j < k → g.getD j none ≠ none := by
  induction g generalizing k with
  | nil => simp [store_scan] at h
  | cons a rest ih =>
    cases a with
    | none =>
      simp only [store_scan, Option.some.injEq] at h
      subst h
      intro j hj
      exact absurd hj (Nat.not_lt_zero j)
    | some v =>
      simp only [store_scan, Option.map_eq_some'] at h
      obtain ⟨k', hk', rfl⟩ := h
      intro j hj
      cases j with
      | zero => simp
      | succ j =>
        have := ih k' hk' j (by omega)
        simpa using this

theorem release_lv_obj_length (g : Registry) (h : Int) :
    (release_lv_obj g h).length = g.length := by
  unfold release_lv_obj
  split
  · simp
  · rfl

theorem release_lv_obj_out_of_range (g : Registry) (h : Int)
    (hout : h < 0 ∨ (g.length : Int) ≤ h) : release_lv_obj g h = g := by
  unfold release_lv_obj
  rw [if_neg]
  omega

theorem release_lv_obj_other_slot (g : Registry) (h : Int) (i : Nat) (hne : (i : Int) ≠ h) :
    (release_lv_obj g h).getD i none = g.getD i none := by
  unfold release_lv_obj
  split
  · rename_i hr
    have hi : h.toNat ≠ i := by omega
    simp [List.getD_eq_getElem?_getD, List.getElem?_set, hi]
  · rfl

theorem release_lv_obj_twice (g : Registry) (h : Int) :
    release_lv_obj (release_lv_obj g h) h = release_lv_obj g h := by
  by_cases hr : 0 ≤ h ∧ h < (g.length : Int)
  · have hr' : 0 ≤ h ∧ h < ((g.set h.toNat none).length : Int) := by simpa using hr
    unfold release_lv_obj
    rw [if_pos hr, if_pos hr']
    simp
  · have hout : h < 0 ∨ (g.length : Int) ≤ h := by omega
    rw [release_lv_obj_out_of_range g h hout, release_lv_obj_out_of_range g h hout]

/-- After a release of `h`, lookups of `h` stay null through any further
operations among which no store returns `h`. -/
theorem get_lv_obj_null_until_stored (g : Registry) (h : Int) (ops : List RegOp)
    (hno : ∀ pre o post, ops = pre ++ RegOp.store o :: post →
      (store_lv_obj (runOps (release_lv_obj g h) pre) (some o)).1 ≠ h) :
    get_lv_obj (runOps (release_lv_obj g h) ops) h = none := by
  induction ops using List.reverseRecOn with
  | nil =>
    simp only [runOps, List.foldl_nil]
    rw [get_lv_obj_release, if_pos rfl]
  | append_singleton ops op ih =>
    have ih' := ih (fun pre o post hsplit =>
      hno pre o (post ++ [op]) (by rw [hsplit]; simp))
    rw [runOps_append]
    cases op with
    | release k =>
      simp only [RegOp.apply]
      rw [get_lv_obj_release]
      split
      · rfl
      · exact ih'
    | store o =>
      simp only [RegOp.apply]
      rw [get_lv_obj_store]
      have hne := hno ops o [] rfl
      rw [if_neg (Ne.symm hne)]
      exact ih'

/-- C11. Release is an idempotent, bounds-checked no-op.  For every registry
state and every integer `h`: releasing `h` twice leaves the state that one
release leaves; after the release `get_lv_obj h` is null, and it stays null
through every further sequence of operations in which no store returns `h`;
for `h` negative or at or beyond the slot count the registry is unchanged; and
a release changes neither the slot count nor any slot other than `h`. -/
theorem release_lv_obj_idempotent_bounds_checked (g : Registry) (h : Int) :
    release_lv_obj (release_lv_obj g h) h = release_lv_obj g h ∧
    get_lv_obj (release_lv_obj g h) h = none ∧
    (∀ ops : List RegOp,
      (∀ pre o post, ops = pre ++ RegOp.store o :: post →
        (store_lv_obj (runOps (release_lv_obj g h) pre) (some o)).1 ≠ h) →
      get_lv_obj (runOps (release_lv_obj g h) ops) h = none) ∧
    ((h < 0 ∨ (g.length : Int) ≤ h) → release_lv_obj g h = g) ∧
    (release_lv_obj g h).length = g.length ∧
    (∀ i : Nat, (i : Int) ≠ h → (release_lv_obj g h).getD i none = g.getD i none) := by
  refine ⟨release_lv_obj_twice g h, ?_, get_lv_obj_null_until_stored g h,
    release_lv_obj_out_of_range g h, release_lv_obj_length g h,
    release_lv_obj_other_slot g h⟩
  rw [get_lv_obj_release, if_pos rfl]

/-- C12. Store allocation order.  For every registry state and non-null
object: if some slot is free, `store_lv_obj` returns the smallest index of a
free slot and the slot count stays the same; if no slot is free, it appends one
slot holding the object and returns the previous slot count; in both cases the
slot count does not decrease and grows by at most one. -/
theorem store_lv_obj_allocation_order (g : Registry) (o : Nat) :
    (∀ i, i < g.length → g.getD i none = none →
      ∃ k : Nat, (store_lv_obj g (some o)).1 = (k : Int) ∧ k ≤ i ∧
        g.getD k none = none ∧ (∀ j, j < k → g.getD j none ≠ none) ∧
        (store_lv_obj g (some o)).2 = g.set k (some o) ∧
        (store_lv_obj g (some o)).2.length = g.length) ∧
    ((∀ i, i < g.length → g.getD i none ≠ none) →
      (store_lv_obj g (some o)).1 = (g.length : Int) ∧
      (store_lv_obj g (some o)).2 = g ++ [some o] ∧
      (store_lv_obj g (some o)).2.length = g.length + 1) ∧
    g.length ≤ (store_lv_obj g (some o)).2.length ∧
    (store_lv_obj g (some o)).2.length ≤ g.length + 1 := by
  unfold store_lv_obj
  cases hs : store_scan g with
  | some k =>
    obtain ⟨hk, hfree⟩ := store_scan_lt g k hs
    have hmin := store_scan_min g k hs
    refine ⟨?_, ?_, by simp, by simp⟩
    · intro i hi hnull
      refine ⟨k, rfl, ?_, hfree, hmin, rfl, by simp⟩
      by_contra hlt
      exact hmin i (by omega) hnull
    · intro hfull
      exact absurd hfree (hfull k hk)
  | none =>
    have hfull := store_scan_none g hs
    refine ⟨?_, ?_, by simp, by simp⟩
    · intro i hi hnull
      exact absurd hnull (hfull i hi)
    · intro _
      exact ⟨by simp, rfl, by simp⟩

/-! ### No early maintenance reboot -/

theorem elk_timer_cb_no_scheduled_reboot_below (s : TimerState) (t : Tick)
    (hcount : (s.g_timer_exec_count + 1) % UINT32_MOD < REBOOT_THRESHOLD) :
    TimerEvent.log_scheduled_reboot ∉ (elk_timer_cb s t).2 := by
  unfold elk_timer_cb
  have h2 : ¬ (s.g_timer_exec_count + 1) % UINT32_MOD ≥ REBOOT_THRESHOLD := by omega
  cases hn : t.func_name with
  | none => simp
  | some name =>
    cases hj : t.js with
    | none => simp
    | some e =>
      simp only [if_neg h2]
      by_cases hlow : t.freeHeap < 20000
      · simp only [if_pos hlow]
        split_ifs <;> simp
      · simp only [if_neg hlow]
        cases t.evalResult with
        | ok =>
          simp only
          split_ifs <;> simp
        | error text =>
          simp only
          split_ifs <;> simp

/-- A tick with enough heap and a successful evaluation, below the threshold:
no restart, and the counter advances by at most one. -/
theorem elk_timer_cb_quiet_tick (s : TimerState) (t : Tick)
    (hcount : s.g_timer_exec_count + 1 < REBOOT_THRESHOLD)
    (hheap : 20000 ≤ t.freeHeap) (hok : t.evalResult = EvalResult.ok) :
    TimerEvent.restart ∉ (elk_timer_cb s t).2 ∧
    (elk_timer_cb s t).1.g_timer_exec_count ≤ s.g_timer_exec_count + 1 := by
  have hmod : (s.g_timer_exec_count + 1) % UINT32_MOD = s.g_timer_exec_count + 1 := by
    apply Nat.mod_eq_of_lt
    simp only [REBOOT_THRESHOLD, UINT32_MOD] at *
    omega
  unfold elk_timer_cb
  have h1 : ¬ t.freeHeap < 20000 := by omega
  have h2 : ¬ s.g_timer_exec_count + 1 ≥ REBOOT_THRESHOLD := by omega
  cases hn : t.func_name with
  | none => simp
  | some name =>
    cases hj : t.js with
    | none => simp
    | some e =>
      simp only [hmod, if_neg h1, if_neg h2, hok]
      refine ⟨?_, le_refl _⟩
      split_ifs <;> simp

theorem run_ticks_quiet (ticks : List Tick) :
    ∀ s : TimerState, s.g_timer_exec_count + ticks.length < REBOOT_THRESHOLD →
      (∀ t ∈ ticks, 20000 ≤ t.freeHeap ∧ t.evalResult = EvalResult.ok) →
      (run_ticks s ticks).length = ticks.length ∧
        ∀ evs ∈ run_ticks s ticks, TimerEvent.restart ∉ evs := by
  induction ticks with
  | nil =>
    intro s _ _
    exact ⟨rfl, fun evs hmem => by simp [run_ticks] at hmem⟩
  | cons t rest ih =>
    intro s hlen hall
    have ht := hall t (List.mem_cons_self t rest)
    have hlen' : s.g_timer_exec_count + 1 + rest.length < REBOOT_THRESHOLD := by
      simp only [List.length_cons] at hlen
      omega
    obtain ⟨hno, hstep⟩ := elk_timer_cb_quiet_tick s t (by omega) ht.1 ht.2
    obtain ⟨hl, hrest⟩ := ih (elk_timer_cb s t).1 (by omega)
      (fun t' ht' => hall t' (List.mem_cons_of_mem t ht'))
    unfold run_ticks
    rw [if_neg hno]
    refine ⟨by simp [hl], ?_⟩
    intro evs hmem
    rcases List.mem_cons.mp hmem with rfl | hmem'
    · exact hno
    · exact hrest evs hmem'

/-- C13. No early maintenance reboot.  On every tick whose incremented
invocation counter is below 36000 the scheduled maintenance restart is not
triggered, whatever the state and the readings.  And from a counter of 0, over
any run of at most 35999 ticks on each of which the free heap is at least
20000 bytes and the callback evaluation reports no error, every tick completes
and none restarts the device. -/
theorem no_early_maintenance_reboot :
    (∀ (s : TimerState) (t : Tick),
      (s.g_timer_exec_count + 1) % UINT32_MOD < REBOOT_THRESHOLD →
      TimerEvent.log_scheduled_reboot ∉ (elk_timer_cb s t).2) ∧
    (∀ (ticks : List Tick) (w : Nat), ticks.length ≤ 35999 →
      (∀ t ∈ ticks, 20000 ≤ t.freeHeap ∧ t.evalResult = EvalResult.ok) →
      (run_ticks { g_timer_exec_count := 0, lastWarning := w } ticks).length = ticks.length ∧
        ∀ evs ∈ run_ticks { g_timer_exec_count := 0, lastWarning := w } ticks,
          TimerEvent.restart ∉ evs) := by
  refine ⟨elk_timer_cb_no_scheduled_reboot_below, ?_⟩
  intro ticks w hlen hall
  apply run_ticks_quiet ticks _ _ hall
  simp only [REBOOT_THRESHOLD]
  omega

/-- C13 on a run of three ticks with a free heap of 25000 bytes. -/
theorem no_early_maintenance_reboot_witness :
    (run_ticks { g_timer_exec_count := 0, lastWarning := 0 }
      [simulated_tick 25000 1000, simulated_tick 25000 2000,
       simulated_tick 25000 3000]).length = 3 :=
  (no_early_maintenance_reboot.2
    [simulated_tick 25000 1000, simulated_tick 25000 2000, simulated_tick 25000 3000] 0
    (by decide) (by decide)).1

/-! ### Engine arena -/

theorem init_elk_memory_true_sets_arena (st : Runtime) (env : RuntimeEnv)
    (h : (init_elk_memory st env).1 = true) : (init_elk_memory st env).2.elk_memory ≠ none := by
  unfold init_elk_memory at h ⊢
  simp only at h ⊢
  split_ifs at h ⊢ with h1 h2 h3
  · exact h1
  · exact h2
  · exact h3

theorem init_elk_memory_when_set (st : Runtime) (env : RuntimeEnv)
    (hset : st.elk_memory ≠ none) :
    (init_elk_memory st env).1 = true ∧
    (init_elk_memory st env).2.elk_memory = st.elk_memory ∧
    (init_elk_memory st env).2.elk_memory_size = st.elk_memory_size ∧
    (init_elk_memory st env).2.calls = st.calls ++ [RuntimeCall.init_elk_memory] := by
  unfold init_elk_memory
  simp only
  rw [if_pos hset]
  exact ⟨rfl, rfl, rfl, rfl⟩

/-- C17. Engine arena provisioning in `init_elk_memory`.  From a state without
an arena: if the external-RAM allocation of 256 KiB succeeds, the call returns
true and the arena is that block with size 262144; if it fails and the
internal-RAM allocation of 96 KiB succeeds, the call returns true and the arena
is that block with size 98304; if both fail, the call returns false and the
arena stays unset.  From a state with an arena, and so on every call after a
successful one, the call returns true, makes no allocator call, and leaves the
arena and its size as they are. -/
theorem init_elk_memory_provisioning (st : Runtime) (env : RuntimeEnv) :
    (st.elk_memory = none → env.ps_malloc ≠ none →
      (init_elk_memory st env).1 = true ∧
      (init_elk_memory st env).2.elk_memory = env.ps_malloc ∧
      (init_elk_memory st env).2.elk_memory_size = 262144 ∧
      (init_elk_memory st env).2.calls
        = st.calls ++ [RuntimeCall.init_elk_memory, RuntimeCall.ps_malloc 262144]) ∧
    (st.elk_memory = none → env.ps_malloc = none → env.malloc ≠ none →
      (init_elk_memory st env).1 = true ∧
      (init_elk_memory st env).2.elk_memory = env.malloc ∧
      (init_elk_memory st env).2.elk_memory_size = 98304 ∧
      (init_elk_memory st env).2.calls
        = st.calls ++ [RuntimeCall.init_elk_memory, RuntimeCall.ps_malloc 262144,
            RuntimeCall.malloc 98304]) ∧
    (st.elk_memory = none → env.ps_malloc = none → env.malloc = none →
      (init_elk_memory st env).1 = false ∧
      (init_elk_memory st env).2.elk_memory = none ∧
      (init_elk_memory st env).2.elk_memory_size = st.elk_memory_size) ∧
    (st.elk_memory ≠ none →
      (init_elk_memory st env).1 = true ∧
      (init_elk_memory st env).2.elk_memory = st.elk_memory ∧
      (init_elk_memory st env).2.elk_memory_size = st.elk_memory_size ∧
      (init_elk_memory st env).2.calls = st.calls ++ [RuntimeCall.init_elk_memory]) ∧
    ((init_elk_memory st env).1 = true → ∀ env' : RuntimeEnv,
      (init_elk_memory (init_elk_memory st env).2 env').1 = true ∧
      (init_elk_memory (init_elk_memory st env).2 env').2.elk_memory
        = (init_elk_memory st env).2.elk_memory ∧
      (init_elk_memory (init_elk_memory st env).2 env').2.elk_memory_size
        = (init_elk_memory st env).2.elk_memory_size ∧
      (init_elk_memory (init_elk_memory st env).2 env').2.calls
        = (init_elk_memory st env).2.calls ++ [RuntimeCall.init_elk_memory]) := by
  refine ⟨?_, ?_, ?_, init_elk_memory_when_set st env, ?_⟩
  · intro hunset hps
    unfold init_elk_memory
    simp only [hunset, ne_eq, not_true_eq_false, if_false, if_pos hps]
    refine ⟨trivial, trivial, by decide, ?_⟩
    simp [ELK_HEAP_BYTES]
  · intro hunset hps hm
    unfold init_elk_memory
    simp only [hunset, hps, ne_eq, not_true_eq_false, if_false, if_pos hm]
    refine ⟨trivial, trivial, trivial, ?_⟩
    simp [ELK_HEAP_BYTES]
  · intro hunset hps hm
    unfold init_elk_memory
    simp only [hunset, hps, hm, ne_eq, not_true_eq_false, if_false]
    exact ⟨trivial, trivial, trivial⟩
  · intro htrue env'
    exact init_elk_memory_when_set _ env' (init_elk_memory_true_sets_arena st env htrue)

/-- C17 at boot: with external RAM available, and with only internal RAM
available. -/
theorem init_elk_memory_provisioning_witness :
    (init_elk_memory boot_state env_empty_script).2.elk_memory_size = 262144 ∧
    (init_elk_memory boot_state { env_empty_script with ps_malloc := none }).2.elk_memory_size
      = 98304 :=
  ⟨((init_elk_memory_provisioning boot_state env_empty_script).1 rfl (by decide)).2.2.1,
   ((init_elk_memory_provisioning boot_state
      { env_empty_script with ps_malloc := none }).2.1 rfl rfl (by decide)).2.2.1⟩

/-! ### Entry to script mode -/

/-- C15. Entry to script mode.  After `start_runtime` the app state is
`RUNNING_JS` exactly when storage was available (`g_use_fallback` clear), the
configured script file exists, and `webscreen_runtime_start_javascript`
returned success; in every other case the app state is `RUNNING_FALLBACK`. -/
theorem start_runtime_script_mode_iff (st : Runtime) (env : RuntimeEnv) :
    ((start_runtime st env).2.g_app_state = webscreen_app_state_t.RUNNING_JS ↔
      (st.g_use_fallback = false ∧ env.exists_main = true ∧
        (webscreen_runtime_start_javascript st env (some st.script_file)).1 = true)) ∧
    (¬ (st.g_use_fallback = false ∧ env.exists_main = true ∧
        (webscreen_runtime_start_javascript st env (some st.script_file)).1 = true) →
      (start_runtime st env).2.g_app_state = webscreen_app_state_t.RUNNING_FALLBACK) := by
  have key : (st.g_use_fallback = false ∧ env.exists_main = true ∧
        (webscreen_runtime_start_javascript st env (some st.script_file)).1 = true) ∧
        (start_runtime st env).2.g_app_state = webscreen_app_state_t.RUNNING_JS ∨
      ¬ (st.g_use_fallback = false ∧ env.exists_main = true ∧
        (webscreen_runtime_start_javascript st env (some st.script_file)).1 = true) ∧
        (start_runtime st env).2.g_app_state = webscreen_app_state_t.RUNNING_FALLBACK := by
    unfold start_runtime
    cases hfb : st.g_use_fallback with
    | true =>
      right
      refine ⟨by simp, ?_⟩
      simp only [if_true]
      exact (webscreen_runtime_start_fallback_spec _ env).2.1
    | false =>
      cases hex : env.exists_main with
      | false =>
        right
        refine ⟨by simp, ?_⟩
        simp only [Bool.false_eq_true, if_false, Bool.not_false, if_true]
        exact (webscreen_runtime_start_fallback_spec _ env).2.1
      | true =>
        simp only [Bool.false_eq_true, if_false, Bool.not_true]
        rcases hjs : webscreen_runtime_start_javascript st env (some st.script_file)
          with ⟨ok, st1⟩
        cases ok with
        | true =>
          left
          exact ⟨⟨trivial, trivial, rfl⟩, rfl⟩
        | false =>
          right
          refine ⟨by simp, ?_⟩
          exact (webscreen_runtime_start_fallback_spec _ env).2.1
  rcases key with ⟨hc, hs⟩ | ⟨hc, hs⟩
  · exact ⟨⟨fun _ => hc, fun _ => hs⟩, fun hn => absurd hc hn⟩
  · refine ⟨⟨fun hjs => ?_, fun h => absurd h hc⟩, fun _ => hs⟩
    rw [hs] at hjs
    cases hjs

/-! ### Rendering state after set-up, and shutdown -/

theorem webscreen_runtime_shutdown_flags (st : Runtime) :
    (webscreen_runtime_shutdown st).g_javascript_active = false ∧
    (webscreen_runtime_shutdown st).g_fallback_active = false ∧
    (webscreen_runtime_shutdown st).g_app_state = st.g_app_state := by
  unfold webscreen_runtime_shutdown
  by_cases hact : (st.g_javascript_active || st.g_fallback_active) = true
  · rw [if_pos hact]
    cases htask : st.g_js_task_handle <;> exact ⟨rfl, rfl, rfl⟩
  · rw [if_neg hact]
    simp only [Bool.or_eq_true, not_or, Bool.not_eq_true] at hact
    exact ⟨hact.1, hact.2, rfl⟩

theorem webscreen_runtime_shutdown_active (st : Runtime)
    (hact : st.g_javascript_active = true ∨ st.g_fallback_active = true) :
    (webscreen_runtime_shutdown st).js = none ∧
    (webscreen_runtime_shutdown st).g_js_task_handle = none := by
  unfold webscreen_runtime_shutdown
  have h : (st.g_javascript_active || st.g_fallback_active) = true := by
    simpa using hact
  rw [if_pos h]
  cases htask : st.g_js_task_handle with
  | none => exact ⟨rfl, by simpa using htask⟩
  | some task => exact ⟨rfl, rfl⟩

theorem webscreen_runtime_shutdown_inactive (st : Runtime)
    (hja : st.g_javascript_active = false) (hfa : st.g_fallback_active = false) :
    webscreen_runtime_shutdown st = st := by
  unfold webscreen_runtime_shutdown
  simp [hja, hfa]


theorem init_elk_memory_flags (st : Runtime) (env : RuntimeEnv) :
    (init_elk_memory st env).2.g_javascript_active = st.g_javascript_active ∧
    (init_elk_memory st env).2.g_fallback_active = st.g_fallback_active := by
  unfold init_elk_memory
  simp only
  split_ifs <;> exact ⟨rfl, rfl⟩

theorem webscreen_runtime_init_javascript_engine_flags (st : Runtime) (env : RuntimeEnv) :
    (webscreen_runtime_init_javascript_engine st env).2.g_javascript_active
      = st.g_javascript_active ∧
    (webscreen_runtime_init_javascript_engine st env).2.g_fallback_active
      = st.g_fallback_active := by
  have hm := init_elk_memory_flags st env
  unfold webscreen_runtime_init_javascript_engine
  split_ifs with hinit
  · exact ⟨rfl, rfl⟩
  · rcases hmem : init_elk_memory st env with ⟨ok, st1⟩
    rw [hmem] at hm
    cases ok with
    | false => exact hm
    | true =>
      simp only [webscreen_runtime_register_js_functions]
      split_ifs <;> exact hm

theorem webscreen_runtime_load_script_flags (st : Runtime) (env : RuntimeEnv)
    (p : Option String) :
    (webscreen_runtime_load_script st env p).2.g_javascript_active = st.g_javascript_active ∧
    (webscreen_runtime_load_script st env p).2.g_fallback_active = st.g_fallback_active := by
  unfold webscreen_runtime_load_script
  cases p with
  | none => exact ⟨rfl, rfl⟩
  | some path =>
    simp only
    split_ifs <;> exact ⟨rfl, rfl⟩

theorem webscreen_runtime_start_javascript_task_flags (st : Runtime) (env : RuntimeEnv) :
    (webscreen_runtime_start_javascript_task st env).2.g_javascript_active
      = st.g_javascript_active ∧
    (webscreen_runtime_start_javascript_task st env).2.g_fallback_active
      = st.g_fallback_active := by
  unfold webscreen_runtime_start_javascript_task
  split_ifs
  · exact ⟨rfl, rfl⟩
  · cases env.xTaskCreate <;> exact ⟨rfl, rfl⟩

/-- After `webscreen_runtime_start_javascript`: on success the script flag is
set and the fallback flag clear; on failure either the flags were not touched
(null path or missing file) or both flags are clear. -/
theorem webscreen_runtime_start_javascript_flags (st : Runtime) (env : RuntimeEnv)
    (p : Option String) :
    ((webscreen_runtime_start_javascript st env p).1 = true ∧
      (webscreen_runtime_start_javascript st env p).2.g_javascript_active = true ∧
      (webscreen_runtime_start_javascript st env p).2.g_fallback_active = false) ∨
    ((webscreen_runtime_start_javascript st env p).1 = false ∧
      (((webscreen_runtime_start_javascript st env p).2.g_javascript_active
          = st.g_javascript_active ∧
        (webscreen_runtime_start_javascript st env p).2.g_fallback_active
          = st.g_fallback_active) ∨
       ((webscreen_runtime_start_javascript st env p).2.g_javascript_active = false ∧
        (webscreen_runtime_start_javascript st env p).2.g_fallback_active = false))) := by
  unfold webscreen_runtime_start_javascript
  cases p with
  | none => exact Or.inr ⟨rfl, Or.inl ⟨rfl, rfl⟩⟩
  | some path =>
    simp only
    by_cases hex : env.exists_runtime = true
    · simp only [hex, Bool.not_true, Bool.false_eq_true, if_false,
        webscreen_runtime_init_sd_filesystem, webscreen_runtime_init_memory_filesystem,
        webscreen_runtime_init_ram_images]
      have hsd := webscreen_runtime_shutdown_flags st
      generalize webscreen_runtime_shutdown st = s0 at hsd ⊢
      have he := webscreen_runtime_init_javascript_engine_flags
        { s0 with calls := s0.calls ++ [RuntimeCall.init_lvgl_display] ++ [RuntimeCall.init_lv_fs]
            ++ [RuntimeCall.init_mem_fs] ++ [RuntimeCall.init_ram_images] } env
      simp only at he
      split
      next st6 h6 =>
        rw [h6] at he
        exact Or.inr ⟨rfl, Or.inr ⟨he.1.trans hsd.1, he.2.trans hsd.2.1⟩⟩
      next st6 h6 =>
        rw [h6] at he
        have hl := webscreen_runtime_load_script_flags st6 env (some path)
        split
        next st7 h7 =>
          rw [h7] at hl
          exact Or.inr ⟨rfl, Or.inr ⟨(hl.1.trans he.1).trans hsd.1,
            (hl.2.trans he.2).trans hsd.2.1⟩⟩
        next st7 h7 =>
          rw [h7] at hl
          have ht := webscreen_runtime_start_javascript_task_flags st7 env
          split
          next st8 h8 =>
            rw [h8] at ht
            exact Or.inr ⟨rfl, Or.inr ⟨((ht.1.trans hl.1).trans he.1).trans hsd.1,
              ((ht.2.trans hl.2).trans he.2).trans hsd.2.1⟩⟩
          next st8 h8 =>
            exact Or.inl ⟨rfl, rfl, rfl⟩
    · have hex' : env.exists_runtime = false := by simpa using hex
      simp only [hex', Bool.not_false, if_true]
      exact Or.inr ⟨trivial, Or.inl ⟨trivial, trivial⟩⟩

theorem start_runtime_modes (st : Runtime) (env : RuntimeEnv) (b : Bool) (rt : Runtime)
    (h : start_runtime st env = (b, rt)) : b = true ∧ RenderingMode rt := by
  unfold start_runtime at h
  have hfb : ∀ s : Runtime, s.g_app_state = webscreen_app_state_t.RUNNING_FALLBACK →
      webscreen_runtime_start_fallback s env = (b, rt) → b = true ∧ RenderingMode rt := by
    intro s hs heq
    obtain ⟨h1, h2, h3, h4, -⟩ := webscreen_runtime_start_fallback_spec s env
    rw [heq] at h1 h2 h3 h4
    exact ⟨h1, Or.inr ⟨h2.trans hs, h4, h3⟩⟩
  split_ifs at h with h1 h2
  · exact hfb _ rfl h
  · exact hfb _ rfl h
  · have hf := webscreen_runtime_start_javascript_flags st env (some st.script_file)
    rcases hjs : webscreen_runtime_start_javascript st env (some st.script_file) with ⟨ok, st1⟩
    rw [hjs] at h hf
    cases ok with
    | true =>
      simp only [Prod.mk.injEq] at h
      obtain ⟨hb, hrt⟩ := h
      rcases hf with ⟨-, hja, hfa⟩ | ⟨hc, -⟩
      · subst hrt
        exact ⟨hb.symm, Or.inl ⟨rfl, hja, hfa⟩⟩
      · cases hc
    | false =>
      exact hfb _ rfl h

theorem initialize_hardware_spec (a : App) :
    (initialize_hardware a).1 = true ∧ (initialize_hardware a).2.rt = a.rt := by
  unfold initialize_hardware webscreen_hardware_init webscreen_display_init
  split_ifs <;> exact ⟨rfl, rfl⟩

theorem webscreen_setup_modes (a : App) (env : SetupEnv) :
    (webscreen_setup a env).1 = true ∧ RenderingMode (webscreen_setup a env).2.rt := by
  unfold webscreen_setup
  obtain ⟨hok, -⟩ := initialize_hardware_spec a
  rcases hh : initialize_hardware a with ⟨ok, a1⟩
  rw [hh] at hok
  simp only at hok
  subst hok
  simp only
  split
  next rt5 heq =>
    exact ⟨rfl, (start_runtime_modes _ _ _ _ heq).2⟩
  next rt5 heq =>
    have := (start_runtime_modes _ _ _ _ heq).1
    cases this

/-- A pass of the main loop writes no runtime global other than `g_app_state`,
which it leaves alone except for `INITIALIZING`, turned into `ERROR`. -/
theorem webscreen_loop_rt (a : App) (env : LoopEnv) :
    (webscreen_loop a env).rt
      = { a.rt with g_app_state :=
            if a.rt.g_app_state = webscreen_app_state_t.INITIALIZING
            then webscreen_app_state_t.ERROR else a.rt.g_app_state } := by
  obtain ⟨rt, we, ws, hwi, don, br, ni, wc, mc⟩ := a
  obtain ⟨state, s2, s3, s4, s5, s6, s7, s8, s9, s10, s11, s12, s13, s14, s15, s16⟩ := rt
  unfold webscreen_loop run_main_loop
  cases state <;> cases env.button_pressed <;>
    simp only [Bool.false_eq_true, if_false, if_true, reduceCtorEq] <;>
    first
    | rfl
    | (split_ifs <;> rfl)

theorem webscreen_shutdown_rt (a : App) :
    (webscreen_shutdown a).rt =
      { webscreen_runtime_shutdown a.rt with g_app_state := webscreen_app_state_t.SHUTDOWN } := by
  unfold webscreen_shutdown webscreen_network_shutdown webscreen_hardware_shutdown
  simp only
  split_ifs <;> rfl

theorem renderingMode_inv (rt : Runtime) (h : RenderingMode rt) : RuntimeInv rt := by
  rcases h with ⟨-, hja, hfa⟩ | ⟨-, hja, hfa⟩
  · exact ⟨by simp [hja, hfa], fun h1 _ => by rw [hja] at h1; cases h1⟩
  · exact ⟨by simp [hja, hfa], fun _ h2 => by rw [hfa] at h2; cases h2⟩

theorem webscreen_runtime_shutdown_inv (rt : Runtime) (h : RuntimeInv rt) :
    (webscreen_runtime_shutdown rt).js = none ∧
    (webscreen_runtime_shutdown rt).g_js_task_handle = none := by
  by_cases hact : rt.g_javascript_active = true ∨ rt.g_fallback_active = true
  · exact webscreen_runtime_shutdown_active rt hact
  · have hja : rt.g_javascript_active = false := by
      cases hv : rt.g_javascript_active with
      | true => exact absurd (Or.inl hv) hact
      | false => rfl
    have hfa : rt.g_fallback_active = false := by
      cases hv : rt.g_fallback_active with
      | true => exact absurd (Or.inr hv) hact
      | false => rfl
    rw [webscreen_runtime_shutdown_inactive rt hja hfa]
    exact h.2 hja hfa

theorem reachable_inv (a : App) (h : Reachable a) : RuntimeInv a.rt := by
  induction h with
  | boot => exact ⟨by decide, fun _ _ => ⟨rfl, rfl⟩⟩
  | setup a env _ _ => exact renderingMode_inv _ (webscreen_setup_modes a env).2
  | loop a env _ ih =>
    rw [webscreen_loop_rt]
    exact ih
  | shutdown a _ ih =>
    rw [webscreen_shutdown_rt]
    obtain ⟨hja, hfa, -⟩ := webscreen_runtime_shutdown_flags a.rt
    obtain ⟨hjs, htask⟩ := webscreen_runtime_shutdown_inv a.rt ih
    refine ⟨?_, fun _ _ => ⟨hjs, htask⟩⟩
    rintro ⟨h1, -⟩
    simp only at h1
    rw [hja] at h1
    cases h1

/-- C14. Rendering state after set-up.  Whenever `webscreen_setup` returns
true, either the app state is `RUNNING_JS` with the script flag set and the
fallback flag clear, or it is `RUNNING_FALLBACK` with the fallback flag set
and the script flag clear.  The two flags are never both set: not after
`webscreen_runtime_shutdown` (both are clear), not after
`webscreen_runtime_start_fallback` (only the fallback flag is set), not after
`webscreen_runtime_start_javascript` called in a state where they are not both
set, and so in no state reachable from boot. -/
theorem webscreen_setup_rendering_state :
    (∀ (a : App) (env : SetupEnv), (webscreen_setup a env).1 = true →
      RenderingMode (webscreen_setup a env).2.rt) ∧
    (∀ st : Runtime,
      (webscreen_runtime_shutdown st).g_javascript_active = false ∧
      (webscreen_runtime_shutdown st).g_fallback_active = false) ∧
    (∀ (st : Runtime) (env : RuntimeEnv),
      (webscreen_runtime_start_fallback st env).2.g_javascript_active = false ∧
      (webscreen_runtime_start_fallback st env).2.g_fallback_active = true) ∧
    (∀ (st : Runtime) (env : RuntimeEnv) (p : Option String),
      ¬ (st.g_javascript_active = true ∧ st.g_fallback_active = true) →
      ¬ ((webscreen_runtime_start_javascript st env p).2.g_javascript_active = true ∧
         (webscreen_runtime_start_javascript st env p).2.g_fallback_active = true)) ∧
    (∀ a : App, Reachable a →
      ¬ (a.rt.g_javascript_active = true ∧ a.rt.g_fallback_active = true)) := by
  refine ⟨fun a env _ => (webscreen_setup_modes a env).2, ?_, ?_, ?_, ?_⟩
  · intro st
    exact ⟨(webscreen_runtime_shutdown_flags st).1, (webscreen_runtime_shutdown_flags st).2.1⟩
  · intro st env
    obtain ⟨-, -, h3, h4, -⟩ := webscreen_runtime_start_fallback_spec st env
    exact ⟨h4, h3⟩
  · intro st env p hnb
    rcases webscreen_runtime_start_javascript_flags st env p with
      ⟨-, hja, hfa⟩ | ⟨-, ⟨hja, hfa⟩ | ⟨hja, hfa⟩⟩
    · rw [hja, hfa]
      simp
    · rw [hja, hfa]
      exact hnb
    · rw [hja, hfa]
      simp
  · intro a hr
    exact (reachable_inv a hr).1

/-- C14 at boot with a mounted card and a script that starts. -/
theorem webscreen_setup_rendering_state_witness :
    RenderingMode (webscreen_setup boot_app env_setup_script).2.rt :=
  webscreen_setup_rendering_state.1 boot_app env_setup_script (by decide)

/-- In every state the application reaches from boot through
`webscreen_setup`, `webscreen_loop` and `webscreen_shutdown`, a shutdown leaves
the execution-task handle cleared and the engine reference null. -/
theorem webscreen_shutdown_clears_reachable (a : App) (hr : Reachable a) :
    (webscreen_shutdown a).rt.g_js_task_handle = none ∧
    (webscreen_shutdown a).rt.js = none := by
  rw [webscreen_shutdown_rt]
  obtain ⟨hjs, htask⟩ := webscreen_runtime_shutdown_inv a.rt (reachable_inv a hr)
  exact ⟨htask, hjs⟩

theorem ram_slot_scan_found (g : List RamImage) (n i k : Nat)
    (hik : i ≤ k) (hkn : k < i + n)
    (hused : ∀ j, i ≤ j → j < k → (g[j]?).map RamImage.used ≠ some false)
    (hfree : (g[k]?).map RamImage.used = some false) :
    ram_slot_scan g n i = some k := by
  induction n generalizing i with
  | zero => omega
  | succ n ih =>
    unfold ram_slot_scan
    by_cases hi : i = k
    · subst hi
      rw [if_pos hfree]
    · rw [if_neg (hused i (le_refl i) (by omega))]
      exact ih (i + 1) (by omega) (by omega) (fun j h1 h2 => hused j (by omega) h2)

theorem ram_slot_scan_full (g : List RamImage) (n i : Nat)
    (hused : ∀ j, i ≤ j → j < i + n → (g[j]?).map RamImage.used ≠ some false) :
    ram_slot_scan g n i = none := by
  induction n generalizing i with
  | zero => rfl
  | succ n ih =>
    unfold ram_slot_scan
    rw [if_neg (hused i (le_refl i) (by omega))]
    exact ih (i + 1) (fun j h1 h2 => hused j (by omega) (by omega))

theorem load_image_file_into_ram_cases (env : LoadEnv) (img : RamImage) :
    load_image_file_into_ram env img = (false, img) ∨
    ∃ buf, load_image_file_into_ram env img
      = (true, { used := true, buffer := some buf, size := env.fileSize }) := by
  unfold load_image_file_into_ram
  by_cases h1 : (!env.open_ok) = true
  · rw [if_pos h1]
    exact Or.inl rfl
  · rw [if_neg h1]
    cases env.ps_malloc with
    | none => exact Or.inl rfl
    | some buf =>
      simp only
      by_cases h2 : env.bytesRead < env.fileSize
      · rw [if_pos h2]
        exact Or.inl rfl
      · rw [if_neg h2]
        exact Or.inr ⟨buf, rfl⟩

theorem load_image_file_into_ram_failed (env : LoadEnv) (img : RamImage)
    (h : (load_image_file_into_ram env img).1 = false) :
    (load_image_file_into_ram env img).2 = img := by
  rcases load_image_file_into_ram_cases env img with hc | ⟨buf, hc⟩
  · rw [hc]
  · rw [hc] at h
    cases h

theorem load_image_file_into_ram_used (env : LoadEnv) (img : RamImage)
    (h : (load_image_file_into_ram env img).1 = true) :
    (load_image_file_into_ram env img).2.used = true := by
  rcases load_image_file_into_ram_cases env img with hc | ⟨buf, hc⟩
  · rw [hc] at h
    cases h
  · rw [hc]

theorem js_create_image_from_ram_length (env : ImageEnv) (s : ImageState)
    (args : List jsval) :
    (js_create_image_from_ram env s args).2.g_ram_images.length = s.g_ram_images.length := by
  unfold js_create_image_from_ram
  split_ifs
  · rfl
  · cases env.rawPath with
    | none => rfl
    | some rawPath =>
      simp only
      cases ram_slot_scan s.g_ram_images MAX_RAM_IMAGES 0 with
      | none => rfl
      | some slot =>
        simp only
        split_ifs <;> simp

theorem create_images_length (calls : List (ImageEnv × List jsval)) (s : ImageState) :
    (create_images s calls).g_ram_images.length = s.g_ram_images.length := by
  induction calls generalizing s with
  | nil => rfl
  | cons c rest ih =>
    unfold create_images
    rw [ih, js_create_image_from_ram_length]

theorem list_set_getD_self (g : List RamImage) (k : Nat) :
    g.set k (g.getD k default) = g := by
  apply List.ext_getElem?
  intro i
  rw [List.getElem?_set]
  split
  · rename_i hki
    subst hki
    split
    · rename_i hlt
      simp [List.getD_eq_getElem?_getD, List.getElem?_eq_getElem hlt]
    · rename_i hge
      rw [List.getElem?_eq_none (by omega)]
  · rfl

theorem js_create_image_from_ram_at_slot (env : ImageEnv) (s : ImageState)
    (args : List jsval) (rawPath : List Char) (k : Nat)
    (hargs : 3 ≤ args.length) (hpath : env.rawPath = some rawPath)
    (hscan : ram_slot_scan s.g_ram_images MAX_RAM_IMAGES 0 = some k) :
    ((load_image_file_into_ram env.load (s.g_ram_images.getD k default)).1 = true →
      (js_create_image_from_ram env s args).1
        = jsval.num (store_lv_obj s.bridge.g_objects (some env.img)).1 ∧
      (js_create_image_from_ram env s args).2.g_ram_images
        = s.g_ram_images.set k
            (load_image_file_into_ram env.load (s.g_ram_images.getD k default)).2 ∧
      (js_create_image_from_ram env s args).2.bridge.g_objects
        = (store_lv_obj s.bridge.g_objects (some env.img)).2 ∧
      (js_create_image_from_ram env s args).2.opened
        = s.opened ++ [strip_quotes_substring rawPath]) ∧
    ((load_image_file_into_ram env.load (s.g_ram_images.getD k default)).1 = false →
      (js_create_image_from_ram env s args).1 = jsval.num (-1) ∧
      (js_create_image_from_ram env s args).2.g_ram_images = s.g_ram_images ∧
      (js_create_image_from_ram env s args).2.bridge = s.bridge) := by
  have hn : ¬ args.length < 3 := by omega
  unfold js_create_image_from_ram
  simp only [if_neg hn, hpath, hscan]
  constructor
  · intro hok
    simp only [hok, Bool.not_true, Bool.false_eq_true, if_false]
    exact ⟨trivial, trivial, trivial, trivial⟩
  · intro hfail
    simp only [hfail, Bool.not_false, if_true]
    refine ⟨trivial, ?_, trivial⟩
    rw [load_image_file_into_ram_failed _ _ hfail]
    exact list_set_getD_self s.g_ram_images k

/-- C18. RAM image pool bound.  After `init_ram_images`, through every sequence
of `create_image_from_ram` calls, the pool keeps its 16 slots, so at most 16
are marked used.  A call made when every slot is used returns -1 and leaves
the whole state as it is: no file is opened and no handle is stored.  A call
with three arguments and a path, made when slot `k` is free and every lower
slot is used, works on slot `k`: if the load succeeds, slot `k` becomes the
loaded image (marked used), the image object is stored in the registry and its
handle returned; if the load fails, the call returns -1 and leaves all slots
and the registry as they were. -/
theorem ram_image_pool_bound :
    (∀ (b : Bridge) (calls : List (ImageEnv × List jsval)),
      (create_images { bridge := b, g_ram_images := init_ram_images, opened := [] }
        calls).g_ram_images.length = 16 ∧
      ((create_images { bridge := b, g_ram_images := init_ram_images, opened := [] }
        calls).g_ram_images.filter (fun img => img.used)).length ≤ 16) ∧
    (∀ (env : ImageEnv) (s : ImageState) (args : List jsval),
      (∀ img ∈ s.g_ram_images, img.used = true) →
      js_create_image_from_ram env s args = (jsval.num (-1), s)) ∧
    (∀ (env : ImageEnv) (s : ImageState) (args : List jsval) (rawPath : List Char) (k : Nat),
      3 ≤ args.length → env.rawPath = some rawPath → k < 16 →
      (s.g_ram_images[k]?).map RamImage.used = some false →
      (∀ j, j < k → (s.g_ram_images[j]?).map RamImage.used ≠ some false) →
      ((load_image_file_into_ram env.load (s.g_ram_images.getD k default)).1 = true →
        (js_create_image_from_ram env s args).1
          = jsval.num (store_lv_obj s.bridge.g_objects (some env.img)).1 ∧
        (js_create_image_from_ram env s args).2.g_ram_images
          = s.g_ram_images.set k
              (load_image_file_into_ram env.load (s.g_ram_images.getD k default)).2 ∧
        (load_image_file_into_ram env.load (s.g_ram_images.getD k default)).2.used = true ∧
        (js_create_image_from_ram env s args).2.bridge.g_objects
          = (store_lv_obj s.bridge.g_objects (some env.img)).2 ∧
        (js_create_image_from_ram env s args).2.opened
          = s.opened ++ [strip_quotes_substring rawPath]) ∧
      ((load_image_file_into_ram env.load (s.g_ram_images.getD k default)).1 = false →
        (js_create_image_from_ram env s args).1 = jsval.num (-1) ∧
        (js_create_image_from_ram env s args).2.g_ram_images = s.g_ram_images ∧
        (js_create_image_from_ram env s args).2.bridge = s.bridge)) := by
  refine ⟨?_, ?_, ?_⟩
  · intro b calls
    have hlen : (create_images { bridge := b, g_ram_images := init_ram_images, opened := [] }
        calls).g_ram_images.length = 16 := by
      rw [create_images_length]
      simp [init_ram_images, MAX_RAM_IMAGES]
    refine ⟨hlen, ?_⟩
    rw [← hlen]
    exact List.length_filter_le _ _
  · intro env s args hall
    have hscan : ram_slot_scan s.g_ram_images MAX_RAM_IMAGES 0 = none := by
      apply ram_slot_scan_full
      intro j _ _ hc
      cases hj : s.g_ram_images[j]? with
      | none =>
        rw [hj] at hc
        cases hc
      | some img =>
        rw [hj] at hc
        have hu := hall img (List.getElem?_mem hj)
        simp only [Option.map_some', Option.some.injEq] at hc
        rw [hu] at hc
        cases hc
    unfold js_create_image_from_ram
    split_ifs
    · rfl
    · cases env.rawPath with
      | none => rfl
      | some rawPath =>
        simp only [hscan]
  · intro env s args rawPath k hargs hpath hk hfree hlow
    have hscan : ram_slot_scan s.g_ram_images MAX_RAM_IMAGES 0 = some k :=
      ram_slot_scan_found s.g_ram_images MAX_RAM_IMAGES 0 k (Nat.zero_le k)
        (by simp only [MAX_RAM_IMAGES]; omega) (fun j _ hj => hlow j hj) hfree
    obtain ⟨hok, hfail⟩ := js_create_image_from_ram_at_slot env s args rawPath k hargs hpath hscan
    refine ⟨?_, hfail⟩
    intro hload
    obtain ⟨h1, h2, h3, h4⟩ := hok hload
    exact ⟨h1, h2, load_image_file_into_ram_used _ _ hload, h3, h4⟩

/-- C18 on two calls from the initialised pool: the first loads into slot 0 and
returns the handle 0, the second fails to open its file and returns -1 with
slot 0 still the only used slot. -/
theorem ram_image_pool_bound_witness :
    (js_create_image_from_ram { rawPath := some "/a.bin".toList, load := load_ok, img := 700 }
      { bridge := { g_objects := [], g_style_map := g_style_map_init, lv_calls := [] },
        g_ram_images := init_ram_images, opened := [] }
      [jsval.str "/a.bin".toList, jsval.num 0, jsval.num 0]).1 = jsval.num 0 ∧
    (js_create_image_from_ram
      { rawPath := some "/b.bin".toList, load := { load_ok with open_ok := false }, img := 701 }
      { bridge := { g_objects := [], g_style_map := g_style_map_init, lv_calls := [] },
        g_ram_images := init_ram_images, opened := [] }
      [jsval.str "/b.bin".toList, jsval.num 0, jsval.num 0]).1 = jsval.num (-1) :=
  ⟨((ram_image_pool_bound.2.2 _ _ _ "/a.bin".toList 0 (by decide) rfl (by decide) (by decide)
      (fun j hj => absurd hj (Nat.not_lt_zero j))).1 (by decide)).1,
   ((ram_image_pool_bound.2.2 _ _ _ "/b.bin".toList 0 (by decide) rfl (by decide) (by decide)
      (fun j hj => absurd hj (Nat.not_lt_zero j))).2 (by decide)).1⟩

/-! ### Retries of the HTTP bindings -/

theorem http_get_attempts_connects (outcome : Nat → AttemptOutcome) (n attempt : Nat) :
    ((http_get_attempts outcome n attempt).1.filter HttpEvent.is_connect).length ≤ n ∧
    ((http_get_attempts outcome n attempt).2 = [] →
      ((http_get_attempts outcome n attempt).1.filter HttpEvent.is_connect).length = n) := by
  induction n generalizing attempt with
  | zero => exact ⟨le_refl 0, fun _ => rfl⟩
  | succ n ih =>
    obtain ⟨ih1, ih2⟩ := ih (attempt + 1)
    have hpre : ((if attempt > 0 then [HttpEvent.delay (1000 * 2 ^ (attempt - 1))] else []
        : List HttpEvent).filter HttpEvent.is_connect) = [] := by
      split_ifs <;> rfl
    unfold http_get_attempts
    cases outcome attempt with
    | connect_failed =>
      simp only [List.filter_append, hpre, List.nil_append, List.length_append]
      constructor
      · have : ([HttpEvent.connect (some 10000)].filter HttpEvent.is_connect).length = 1 := rfl
        omega
      · intro hempty
        have := ih2 hempty
        have h1 : ([HttpEvent.connect (some 10000)].filter HttpEvent.is_connect).length = 1 := rfl
        omega
    | response body =>
      simp only
      by_cases hb : body.length > 0
      · simp only [if_pos hb, List.filter_append, hpre, List.nil_append]
        constructor
        · have : ([HttpEvent.connect (some 10000), HttpEvent.exchange].filter
              HttpEvent.is_connect).length = 1 := rfl
          omega
        · intro hempty
          subst hempty
          simp at hb
      · simp only [if_neg hb, List.filter_append, hpre, List.nil_append, List.length_append]
        have h1 : ([HttpEvent.connect (some 10000), HttpEvent.exchange].filter
            HttpEvent.is_connect).length = 1 := rfl
        constructor
        · omega
        · intro hempty
          have := ih2 hempty
          omega

theorem http_get_attempts_timeout (outcome : Nat → AttemptOutcome) (t : Option Nat) :
    ∀ n attempt, HttpEvent.connect t ∈ (http_get_attempts outcome n attempt).1 →
      t = some 10000 := by
  intro n
  induction n with
  | zero =>
    intro attempt hmem
    simp [http_get_attempts] at hmem
  | succ n ih =>
    intro attempt hmem
    have hr := ih (attempt + 1)
    unfold http_get_attempts at hmem
    cases hout : outcome attempt with
    | connect_failed =>
      rw [hout] at hmem
      by_cases ha : attempt > 0
      · simp only [if_pos ha, List.mem_append, List.mem_cons, List.mem_singleton,
          List.mem_nil_iff, HttpEvent.connect.injEq, or_false, false_or, reduceCtorEq] at hmem
        tauto
      · simp only [if_neg ha, List.mem_append, List.mem_cons, List.mem_singleton,
          List.mem_nil_iff, HttpEvent.connect.injEq, or_false, false_or, reduceCtorEq] at hmem
        tauto
    | response body =>
      rw [hout] at hmem
      by_cases ha : attempt > 0 <;> by_cases hb : body.length > 0
      all_goals
        simp only [if_pos, if_neg, ha, hb, not_false_eq_true, List.mem_append, List.mem_cons,
          List.mem_singleton, List.mem_nil_iff, HttpEvent.connect.injEq, or_false, false_or,
          reduceCtorEq] at hmem
        tauto

/-- C19 fails on the code for `http_post` and `http_delete`.  `http_get` does
what the claim says: it makes at most 4 connection attempts, each with a
10000 ms connect timeout, with delays of 1000, 2000 and 4000 ms before the
2nd, 3rd and 4th, and it returns the empty string only after all 4 have been
made.  `http_post` and `http_delete`, given a server that refuses the
connection, make a single connection attempt without a timeout argument, no
delay and no retry, and return the empty string at once. -/
theorem http_post_and_delete_give_up_after_one_attempt :
    (∀ outcome : Nat → AttemptOutcome,
      ((js_http_get_request outcome).1.filter HttpEvent.is_connect).length ≤ 4 ∧
      (∀ t, HttpEvent.connect t ∈ (js_http_get_request outcome).1 → t = some 10000) ∧
      ((js_http_get_request outcome).2 = jsval.str [] →
        ((js_http_get_request outcome).1.filter HttpEvent.is_connect).length = 4)) ∧
    js_http_get_request (fun _ => AttemptOutcome.connect_failed)
      = ([HttpEvent.connect (some 10000),
          HttpEvent.delay 1000, HttpEvent.connect (some 10000),
          HttpEvent.delay 2000, HttpEvent.connect (some 10000),
          HttpEvent.delay 4000, HttpEvent.connect (some 10000)], jsval.str []) ∧
    js_http_post_request AttemptOutcome.connect_failed
      = ([HttpEvent.connect none], jsval.str []) ∧
    js_http_delete_request AttemptOutcome.connect_failed
      = ([HttpEvent.connect none], jsval.str []) := by
  refine ⟨?_, by decide, rfl, rfl⟩
  intro outcome
  obtain ⟨h1, h2⟩ := http_get_attempts_connects outcome (MAX_RETRIES + 1) 0
  refine ⟨h1, ?_, ?_⟩
  · intro t ht
    exact http_get_attempts_timeout outcome t _ _ ht
  · intro hempty
    apply h2
    simpa [js_http_get_request] using hempty

/-! ### `configSet` -/

theorem json_get_set_member_self {α : Type} (ms : List (List Char × α)) (key : List Char)
    (v : α) : json_get_member (json_set_member ms key v) key = some v := by
  induction ms with
  | nil => simp [json_set_member, json_get_member]
  | cons hd tl ih =>
    obtain ⟨k, old⟩ := hd
    unfold json_set_member
    by_cases hk : k = key
    · simp [hk, json_get_member]
    · simp [hk, json_get_member, ih]

theorem json_get_set_member_other {α : Type} (ms : List (List Char × α)) (key other : List Char)
    (v : α) (hne : other ≠ key) :
    json_get_member (json_set_member ms key v) other = json_get_member ms other := by
  induction ms with
  | nil => simp [json_set_member, json_get_member, Ne.symm hne]
  | cons hd tl ih =>
    obtain ⟨k, old⟩ := hd
    unfold json_set_member
    by_cases hk : k = key
    · subst hk
      simp [json_get_member, Ne.symm hne]
    · simp only [if_neg hk, json_get_member, ih]

/-- On an object root `doc[key] = value` sets that member and keeps the
others. -/
theorem assign_on_object (ms : List (List Char × JsonEntry)) (key value : List Char) :
    ∃ ms', JsonDocument.assign (JsonDocument.object ms) key value = JsonDocument.object ms' ∧
      json_get_member ms' key = some (JsonEntry.value (JsonValue.str value)) ∧
      ∀ other, other ≠ key → json_get_member ms' other = json_get_member ms other :=
  ⟨_, rfl, json_get_set_member_self _ _ _, fun other h => json_get_set_member_other _ _ other _ h⟩

/-- On an object root whose `sect` entry is absent, `null` or an object,
`doc[sect][subkey] = value` sets that member, keeps the other members of the
section and keeps the other entries of the root. -/
theorem assign_nested_on_section (ms : List (List Char × JsonEntry))
    (sect subkey value : List Char)
    (hsect : ∀ v, json_get_member ms sect = some (JsonEntry.value v) → v = JsonValue.null) :
    ∃ ms' sub', JsonDocument.assign_nested (JsonDocument.object ms) sect subkey value
        = JsonDocument.object ms' ∧
      json_get_member ms' sect = some (JsonEntry.object sub') ∧
      json_get_member sub' subkey = some (JsonValue.str value) ∧
      (∀ other, other ≠ sect → json_get_member ms' other = json_get_member ms other) ∧
      (∀ sub, json_get_member ms sect = some (JsonEntry.object sub) →
        ∀ other, other ≠ subkey → json_get_member sub' other = json_get_member sub other) := by
  cases hget : json_get_member ms sect with
  | none =>
    refine ⟨json_set_member ms sect (JsonEntry.object [(subkey, JsonValue.str value)]),
      [(subkey, JsonValue.str value)], ?_, json_get_set_member_self _ _ _, ?_,
      fun other h => json_get_set_member_other _ _ other _ h, ?_⟩
    · simp only [JsonDocument.assign_nested, hget]
    · simp [json_get_member]
    · intro sub hsub
      cases hsub
  | some e =>
    cases e with
    | value v =>
      have hv := hsect v hget
      subst hv
      refine ⟨json_set_member ms sect (JsonEntry.object [(subkey, JsonValue.str value)]),
        [(subkey, JsonValue.str value)], ?_, json_get_set_member_self _ _ _, ?_,
        fun other h => json_get_set_member_other _ _ other _ h, ?_⟩
      · simp only [JsonDocument.assign_nested, hget]
      · simp [json_get_member]
      · intro sub hsub
        cases hsub
    | object sub =>
      refine ⟨json_set_member ms sect
          (JsonEntry.object (json_set_member sub subkey (JsonValue.str value))),
        json_set_member sub subkey (JsonValue.str value), ?_,
        json_get_set_member_self _ _ _, json_get_set_member_self _ _ _,
        fun other h => json_get_set_member_other _ _ other _ h, ?_⟩
      · simp only [JsonDocument.assign_nested, hget]
      · intro sub2 hsub other hne
        cases hsub
        exact json_get_set_member_other _ _ other _ hne

/-- C20 fails on the code when the addressed section holds a value that is not
an object.  With the document `{"wifi": "home", "mqtt": {...}}` on the card,
`configSet("wifi.ssid MyNet")` rewrites the file with the unchanged document
(the assignment `doc["wifi"]["ssid"] = value` finds no slot and does nothing)
and still prints `Config updated: wifi.ssid = MyNet`.  On the document with a
`wifi` section the same command does set `wifi.ssid` and keeps the rest, and an
argument without a space writes nothing. -/
theorem configSet_drops_update_when_section_is_string :
    configSet (card_with doc_wifi_string) "wifi.ssid MyNet".toList
      = { written := some doc_wifi_string,
          message := ConfigMessage.success "Config updated: wifi.ssid = MyNet".toList } ∧
    configSet (card_with doc_wifi_section) "wifi.ssid MyNet".toList
      = { written := some (JsonDocument.object
            [("wifi".toList, JsonEntry.object
                [("ssid".toList, JsonValue.str "MyNet".toList),
                 ("pass".toList, JsonValue.str "secret".toList)]),
             ("mqtt".toList,
                JsonEntry.object [("enabled".toList, JsonValue.other "false".toList)])]),
          message := ConfigMessage.success "Config updated: wifi.ssid = MyNet".toList } ∧
    (∀ env args, ArduinoString.indexOf args ' ' < 0 → (configSet env args).written = none) := by
  refine ⟨by decide, by decide, ?_⟩
  intro env args h
  unfold configSet
  simp only [h, if_true]

/-! ### Quote stripping of the storage bindings -/

theorem quoted_ne_self (p : List Char) : quoted p ≠ p := by
  intro h
  have hlen := congrArg List.length h
  simp only [quoted, List.length_cons, List.length_append, List.length_nil] at hlen
  omega

/-- C21 fails on the code for `sd_write_file` and `sd_delete_file`.  Given the
path `p` wrapped in quotes, `sd_read_file` opens `p`, while `sd_write_file`
opens the path with its quotes for writing and `sd_delete_file` asks the card
for the path with its quotes, which is a different path.  On a card that holds
`/log.txt`, the quoted argument is read successfully, but the write and the
deletion with the same argument both return false and leave the file alone. -/
theorem sd_write_and_delete_keep_the_quotes :
    (∀ (env : SdEnv) (p data : List Char),
      (js_sd_read_file env [some (quoted p)]).2 = [SdCall.open_read p] ∧
      (js_sd_write_file env [some (quoted p), some data]).2.head?
        = some (SdCall.open_write (quoted p)) ∧
      (js_sd_delete_file env [some (quoted p)]).2.head?
        = some (SdCall.file_exists (quoted p)) ∧
      quoted p ≠ p) ∧
    js_sd_read_file card_log_txt [some (quoted "/log.txt".toList)]
      = (jsval.str "boot".toList, [SdCall.open_read "/log.txt".toList]) ∧
    js_sd_write_file card_log_txt [some (quoted "/log.txt".toList), some "x".toList]
      = (jsval.fls, [SdCall.open_write (quoted "/log.txt".toList)]) ∧
    js_sd_delete_file card_log_txt [some (quoted "/log.txt".toList)]
      = (jsval.fls, [SdCall.file_exists (quoted "/log.txt".toList)]) := by
  refine ⟨?_, by decide, by decide, by decide⟩
  intro env p data
  refine ⟨?_, ?_, ?_, quoted_ne_self p⟩
  · simp only [js_sd_read_file, List.length_singleton, ne_eq, not_true_eq_false, if_false,
      List.getD_cons_zero, strip_quotes_remove_quoted]
    cases env.open_read p <;> rfl
  · simp only [js_sd_write_file, List.length_cons, List.length_nil, ne_eq]
    simp only [List.getD_cons_zero, List.getD_cons_succ]
    cases env.open_write (quoted p) <;> simp
  · simp only [js_sd_delete_file, List.length_singleton, List.getD_cons_zero]
    cases env.file_exists (quoted p) <;> simp

/-! ### Under-supplied object-creating bindings -/

/-- C22: a call of `draw_rect` with fewer than 4 arguments, of `create_image`
or `create_image_from_ram` with fewer than 3, or of `create_label` with fewer
than 2 returns -1 and leaves the whole state as it was: the handle registry
(its length and every slot), the record of toolkit calls (so no object is
created), the RAM image pool and the list of opened files.  With enough
arguments `create_label` does create an object and returns its handle. -/
theorem under_supplied_creation_has_no_effect :
    (∀ (env : CreateEnv) (s : ImageState) (args : List jsval), args.length < 4 →
      js_lvgl_draw_rect env s.bridge args = (jsval.num (-1), s.bridge)) ∧
    (∀ (env : CreateEnv) (s : ImageState) (args : List jsval), args.length < 3 →
      js_create_image env s.bridge args = (jsval.num (-1), s.bridge)) ∧
    (∀ (env : ImageEnv) (s : ImageState) (args : List jsval), args.length < 3 →
      js_create_image_from_ram env s args = (jsval.num (-1), s)) ∧
    (∀ (env : CreateEnv) (s : ImageState) (args : List jsval), args.length < 2 →
      js_create_label env s.bridge args = (jsval.num (-1), s.bridge)) ∧
    js_create_label { rawPath := none, obj := 700, style := 0 } sample_image_state.bridge
        [jsval.num 10, jsval.num 20]
      = (jsval.num 1,
          { g_objects := [some 500, some 700, some 502], g_style_map := g_style_map_init,
            lv_calls := [LvCall.mk "lv_label_create" 500 [] [],
                         LvCall.mk "lv_label_create" 700 [] [],
                         LvCall.mk "lv_obj_set_pos" 700 [10, 20] []] }) := by
  refine ⟨?_, ?_, ?_, ?_, by decide⟩
  · intro env s args h
    simp only [js_lvgl_draw_rect, if_pos h]
  · intro env s args h
    simp only [js_create_image, if_pos h]
  · intro env s args h
    simp only [js_create_image_from_ram, if_pos h]
  · intro env s args h
    simp only [js_create_label, if_pos h]

/-- C22 at calls with one argument on a state with live objects and a RAM
image in use. -/
theorem under_supplied_creation_has_no_effect_witness :
    js_lvgl_draw_rect { rawPath := none, obj := 700, style := 800 } sample_image_state.bridge
        [jsval.num 1] = (jsval.num (-1), sample_image_state.bridge) ∧
    js_create_image_from_ram { rawPath := some "/b.bin".toList, load := load_ok, img := 700 }
        sample_image_state [jsval.str "/b.bin".toList]
      = (jsval.num (-1), sample_image_state) :=
  ⟨under_supplied_creation_has_no_effect.1 _ sample_image_state _ (by decide),
   under_supplied_creation_has_no_effect.2.2.1 _ sample_image_state _ (by decide)⟩

/-! ### Binary loader -/

theorem copy_loop_no_restart (chunks : List Chunk) :
    LoaderEvent.restart ∉ (copy_loop chunks).1 := by
  induction chunks with
  | nil => simp [copy_loop]
  | cons c rest ih =>
    unfold copy_loop
    split_ifs
    · simp
    · simp
    · simp only [List.mem_cons, reduceCtorEq, false_or]
      exact ih

theorem copy_loop_failed_iff (chunks : List Chunk) :
    (copy_loop chunks).2 = false ↔ chunks_written chunks = true := by
  induction chunks with
  | nil => simp [copy_loop, chunks_written]
  | cons c rest ih =>
    unfold copy_loop chunks_written
    by_cases h0 : c.bytesRead = 0
    · simp [h0]
    · by_cases hw : c.written = c.bytesRead
      · simp [h0, hw, ih]
      · simp [h0, hw]

/-- The conditions under which `binary_loader_load_and_flash` reaches the
restart. -/
theorem binary_loader_load_and_flash_restart_iff (env : LoaderEnv) :
    LoaderEvent.restart ∈ (binary_loader_load_and_flash env).1 ↔
      (env.open_ok = true ∧ env.fileSize ≠ 0 ∧ env.fileSize ≤ BINARY_LOADER_MAX_SIZE ∧
        (∃ p, env.partition = some p ∧ env.fileSize ≤ p) ∧ env.begin_ok = true ∧
        env.malloc_ok = true ∧ chunks_written env.chunks = true ∧ env.end_ok = true ∧
        env.finished = true) := by
  have hloop := copy_loop_no_restart env.chunks
  have hiff := copy_loop_failed_iff env.chunks
  unfold binary_loader_load_and_flash
  by_cases h1 : env.open_ok = true
  swap
  · simp [h1]
  by_cases h2 : env.fileSize = 0
  · simp [h1, h2]
  by_cases h3 : env.fileSize > BINARY_LOADER_MAX_SIZE
  · simp [h1, h2, h3]
  cases hp : env.partition with
  | none => simp [h1, h2, h3]
  | some p =>
    by_cases h4 : env.fileSize > p
    · simp [h1, h2, h3, h4]
    by_cases h5 : env.begin_ok = true
    swap
    · simp [h1, h2, h3, h4, h5]
    by_cases h6 : env.malloc_ok = true
    swap
    · simp [h1, h2, h3, h4, h5, h6]
    by_cases h7 : (copy_loop env.chunks).2 = true
    · have hw : ¬ chunks_written env.chunks = true := by
        intro hc
        rw [← hiff] at hc
        rw [hc] at h7
        cases h7
      simp [h1, h2, h3, h4, h5, h6, h7, hw, hloop]
    have h7f : (copy_loop env.chunks).2 = false := by simpa using h7
    have hw : chunks_written env.chunks = true := hiff.mp h7f
    by_cases h8 : env.end_ok = true
    swap
    · simp [h1, h2, h3, h4, h5, h6, h7f, h8, hloop]
    by_cases h9 : env.finished = true
    swap
    · simp [h1, h2, h3, h4, h5, h6, h7f, h8, h9, hloop]
    simp only [h1, h2, h3, h4, h5, h6, h7f, h8, h9, hw, Bool.not_true, if_false,
      Bool.false_eq_true, ne_eq, not_false_eq_true, Option.some.injEq, exists_eq_left', true_and,
      and_true, iff_true]
    constructor
    · intro _
      exact ⟨by omega, by omega⟩
    · intro _
      simp

/-- When the restart is not reached the call returns, and with an error
code. -/
theorem binary_loader_load_and_flash_returns_error (env : LoaderEnv)
    (h : LoaderEvent.restart ∉ (binary_loader_load_and_flash env).1) :
    ∃ code, (binary_loader_load_and_flash env).2 = some code ∧
      code ≠ binary_loader_error_t.BINARY_LOADER_OK := by
  unfold binary_loader_load_and_flash at h ⊢
  by_cases h1 : env.open_ok = true
  swap
  · simp [h1]
  by_cases h2 : env.fileSize = 0
  · simp [h1, h2]
  by_cases h3 : env.fileSize > BINARY_LOADER_MAX_SIZE
  · simp [h1, h2, h3]
  cases hp : env.partition with
  | none => simp [h1, h2, h3]
  | some p =>
    by_cases h4 : env.fileSize > p
    · simp [h1, h2, h3, h4]
    by_cases h5 : env.begin_ok = true
    swap
    · simp [h1, h2, h3, h4, h5]
    by_cases h6 : env.malloc_ok = true
    swap
    · simp [h1, h2, h3, h4, h5, h6]
    by_cases h7 : (copy_loop env.chunks).2 = true
    · simp [h1, h2, h3, h4, h5, h6, h7]
    by_cases h8 : env.end_ok = true
    swap
    · simp [h1, h2, h3, h4, h5, h6, h7, h8]
    by_cases h9 : env.finished = true
    swap
    · simp [h1, h2, h3, h4, h5, h6, h7, h8, h9]
    exfalso
    apply h
    simp [hp, h1, h2, h3, h4, h5, h6, h7, h8, h9]

/-- C23: `binary_loader_load_and_flash` reaches the restart only if the file
opens, its size is non-zero, at most 2 MiB and at most the size of the OTA
partition, which exists, `Update.begin` succeeds, every pass of the copy loop
writes what it read, `Update.end` succeeds and the update is finished.
Whenever one of these fails, and whenever the restart is not reached, the call
returns a code different from `BINARY_LOADER_OK` and does not restart.  An
empty file gives `BINARY_LOADER_ERR_FILE_NOT_FOUND` and a file above 2 MiB or
above the partition size gives `BINARY_LOADER_ERR_FILE_TOO_LARGE`, both without
any `Update` operation. -/
theorem binary_loader_keeps_firmware_on_failure (env : LoaderEnv) :
    (LoaderEvent.restart ∈ (binary_loader_load_and_flash env).1 →
      env.open_ok = true ∧ env.fileSize ≠ 0 ∧ env.fileSize ≤ 2 * 1024 * 1024 ∧
      (∃ p, env.partition = some p ∧ env.fileSize ≤ p) ∧ env.begin_ok = true ∧
      chunks_written env.chunks = true ∧ env.end_ok = true ∧ env.finished = true) ∧
    (¬ (env.open_ok = true ∧ env.fileSize ≠ 0 ∧ env.fileSize ≤ 2 * 1024 * 1024 ∧
        (∃ p, env.partition = some p ∧ env.fileSize ≤ p) ∧ env.begin_ok = true ∧
        chunks_written env.chunks = true ∧ env.end_ok = true ∧ env.finished = true) →
      LoaderEvent.restart ∉ (binary_loader_load_and_flash env).1) ∧
    (LoaderEvent.restart ∉ (binary_loader_load_and_flash env).1 →
      ∃ code, (binary_loader_load_and_flash env).2 = some code ∧
        code ≠ binary_loader_error_t.BINARY_LOADER_OK) ∧
    (env.open_ok = true → env.fileSize = 0 →
      (binary_loader_load_and_flash env).2
          = some binary_loader_error_t.BINARY_LOADER_ERR_FILE_NOT_FOUND ∧
        ∀ e ∈ (binary_loader_load_and_flash env).1, e.is_ota = false) ∧
    (env.open_ok = true →
      (env.fileSize > 2 * 1024 * 1024 ∨ ∃ p, env.partition = some p ∧ env.fileSize > p) →
      (binary_loader_load_and_flash env).2
          = some binary_loader_error_t.BINARY_LOADER_ERR_FILE_TOO_LARGE ∧
        ∀ e ∈ (binary_loader_load_and_flash env).1, e.is_ota = false) := by
  have hiff := binary_loader_load_and_flash_restart_iff env
  have hmax : BINARY_LOADER_MAX_SIZE = 2 * 1024 * 1024 := rfl
  rw [hmax] at hiff
  refine ⟨?_, ?_, binary_loader_load_and_flash_returns_error env, ?_, ?_⟩
  · intro h
    obtain ⟨a, b, c, d, e, -, f, g, i⟩ := hiff.mp h
    exact ⟨a, b, c, d, e, f, g, i⟩
  · intro hn h
    obtain ⟨a, b, c, d, e, -, f, g, i⟩ := hiff.mp h
    exact hn ⟨a, b, c, d, e, f, g, i⟩
  · intro h1 h2
    unfold binary_loader_load_and_flash
    simp only [h1, h2, Bool.not_true, if_false, if_true, Bool.false_eq_true, true_and]
    intro e he
    simp only [List.mem_cons, List.mem_singleton, List.mem_nil_iff, or_false] at he
    rcases he with he | he <;> subst he <;> rfl
  · intro h1 hbig
    unfold binary_loader_load_and_flash
    by_cases h2 : env.fileSize = 0
    · exfalso
      rcases hbig with hb | ⟨p, -, hb⟩ <;> omega
    by_cases h3 : env.fileSize > BINARY_LOADER_MAX_SIZE
    · simp only [h1, h2, h3, Bool.not_true, if_false, if_true, Bool.false_eq_true, true_and]
      intro e he
      simp only [List.mem_cons, List.mem_singleton, List.mem_nil_iff, or_false] at he
      rcases he with he | he <;> subst he <;> rfl
    · rcases hbig with hb | ⟨p, hp, hb⟩
      · exact absurd (hmax ▸ hb) h3
      · simp only [h1, h2, h3, hp, hb, Bool.not_true, if_false, if_true, Bool.false_eq_true,
          true_and]
        intro e he
        simp only [List.mem_cons, List.mem_singleton, List.mem_nil_iff, or_false] at he
        rcases he with he | he | he <;> subst he <;> rfl

/-- C23 at a 10000-byte binary copied in three passes: the restart is reached
and every condition holds. -/
theorem binary_loader_keeps_firmware_on_failure_witness :
    LoaderEvent.restart ∈ (binary_loader_load_and_flash env_flash_ok).1 ∧
    env_flash_ok.open_ok = true ∧ env_flash_ok.fileSize ≠ 0 ∧
    env_flash_ok.fileSize ≤ 2 * 1024 * 1024 ∧
    (∃ p, env_flash_ok.partition = some p ∧ env_flash_ok.fileSize ≤ p) ∧
    env_flash_ok.begin_ok = true ∧ chunks_written env_flash_ok.chunks = true ∧
    env_flash_ok.end_ok = true ∧ env_flash_ok.finished = true :=
  ⟨by decide, (binary_loader_keeps_firmware_on_failure env_flash_ok).1 (by decide)⟩

/-! ### Periodic collection and parse-failure escalation -/

/-- The state and the actions of a tick that reaches the evaluation of the
callback. -/
theorem elk_timer_cb_eval_shape (s : TimerState) (t : Tick) (name : List Char) (e : Nat)
    (hname : t.func_name = some name) (hjs : t.js = some e) (hheap : 20000 ≤ t.freeHeap)
    (hcount : (s.g_timer_exec_count + 1) % UINT32_MOD < REBOOT_THRESHOLD) :
    (elk_timer_cb s t).1 = { g_timer_exec_count := (s.g_timer_exec_count + 1) % UINT32_MOD,
                             lastWarning := s.lastWarning } ∧
    (elk_timer_cb s t).2 =
      (if (s.g_timer_exec_count + 1) % UINT32_MOD % GC_INTERVAL = 0 then [TimerEvent.js_gc]
        else []) ++ [TimerEvent.js_eval (timer_snippet name)] ++
      (match t.evalResult with
        | EvalResult.ok => []
        | EvalResult.error text =>
          if is_parse_error text then
            [TimerEvent.log_eval_error, TimerEvent.log_parse_error, TimerEvent.delay 1000,
             TimerEvent.restart]
          else [TimerEvent.log_eval_error]) := by
  unfold elk_timer_cb
  have h1 : ¬ t.freeHeap < 20000 := by omega
  have h2 : ¬ (s.g_timer_exec_count + 1) % UINT32_MOD ≥ REBOOT_THRESHOLD := by omega
  simp only [hname, hjs, if_neg h1, if_neg h2]
  cases t.evalResult with
  | ok => simp
  | error text =>
    simp only
    split <;> simp

/-- A tick on which the callback is evaluated has a registered name, a live
engine, a free heap of at least 20000 bytes and a counter below the reboot
threshold. -/
theorem elk_timer_cb_eval_inv (s : TimerState) (t : Tick) (sn : List Char)
    (h : TimerEvent.js_eval sn ∈ (elk_timer_cb s t).2) :
    ∃ name e, t.func_name = some name ∧ t.js = some e ∧ 20000 ≤ t.freeHeap ∧
      (s.g_timer_exec_count + 1) % UINT32_MOD < REBOOT_THRESHOLD := by
  cases hname : t.func_name with
  | none =>
    exfalso
    unfold elk_timer_cb at h
    simp [hname] at h
  | some name =>
    cases hjs : t.js with
    | none =>
      exfalso
      unfold elk_timer_cb at h
      simp [hname, hjs] at h
    | some e =>
      refine ⟨name, e, rfl, rfl, ?_⟩
      by_cases hlow : t.freeHeap < 20000
      · exact absurd h ((elk_timer_cb_low s t name e hname hjs hlow).2.1 sn)
      · refine ⟨by omega, ?_⟩
        by_contra hc
        have h2 : (s.g_timer_exec_count + 1) % UINT32_MOD ≥ REBOOT_THRESHOLD := by omega
        unfold elk_timer_cb at h
        simp only [hname, hjs, if_neg hlow, if_pos h2] at h
        split_ifs at h <;> simp at h

/-- C24, as stated, fails: on the tick that brings the invocation counter to
36000, a multiple of 60, with a free heap of 30000 bytes, the collection is
forced and the device then restarts for maintenance; the callback is not
evaluated on that tick. -/
theorem periodic_collection_skips_callback_at_threshold :
    (35999 + 1) % UINT32_MOD % GC_INTERVAL = 0 ∧
    20000 ≤ (simulated_tick 30000 5000).freeHeap ∧
    (elk_timer_cb { g_timer_exec_count := 35999, lastWarning := 0 }
        (simulated_tick 30000 5000)).2
      = [TimerEvent.js_gc, TimerEvent.log_scheduled_reboot, TimerEvent.delay 1000,
         TimerEvent.restart] ∧
    ∀ sn, TimerEvent.js_eval sn ∉
      (elk_timer_cb { g_timer_exec_count := 35999, lastWarning := 0 }
        (simulated_tick 30000 5000)).2 := by
  have hev : (elk_timer_cb { g_timer_exec_count := 35999, lastWarning := 0 }
        (simulated_tick 30000 5000)).2
      = [TimerEvent.js_gc, TimerEvent.log_scheduled_reboot, TimerEvent.delay 1000,
         TimerEvent.restart] := by decide
  refine ⟨by decide, by decide, hev, ?_⟩
  intro sn
  rw [hev]
  simp

/-- C24, amended.  On every tick with a registered callback name and a live
engine whose incremented invocation counter is a multiple of 60 and on which
the free heap is at least 20000 bytes, `elk_timer_cb` forces a collection; if
the counter is below 36000 the next action on that tick is the evaluation of
the callback, and from 36000 on the collection is followed by the maintenance
restart and the callback is not evaluated. -/
theorem periodic_collection_then_callback (s : TimerState) (t : Tick) (name : List Char)
    (e : Nat) (hname : t.func_name = some name) (hjs : t.js = some e)
    (hheap : 20000 ≤ t.freeHeap)
    (hmult : (s.g_timer_exec_count + 1) % UINT32_MOD % GC_INTERVAL = 0) :
    ((s.g_timer_exec_count + 1) % UINT32_MOD < REBOOT_THRESHOLD →
      ∃ rest, (elk_timer_cb s t).2
        = TimerEvent.js_gc :: TimerEvent.js_eval (timer_snippet name) :: rest) ∧
    (REBOOT_THRESHOLD ≤ (s.g_timer_exec_count + 1) % UINT32_MOD →
      (elk_timer_cb s t).2 = [TimerEvent.js_gc, TimerEvent.log_scheduled_reboot,
        TimerEvent.delay 1000, TimerEvent.restart]) := by
  constructor
  · intro hcount
    have h := (elk_timer_cb_eval_shape s t name e hname hjs hheap hcount).2
    rw [if_pos hmult] at h
    exact ⟨_, h⟩
  · intro hcount
    unfold elk_timer_cb
    have h1 : ¬ t.freeHeap < 20000 := by omega
    simp only [hname, hjs, if_neg h1, if_pos hcount, hmult]
    rfl

/-- The amended C24 at the tick that brings the counter to 60. -/
theorem periodic_collection_then_callback_witness :
    ∃ rest, (elk_timer_cb { g_timer_exec_count := 59, lastWarning := 0 }
        (simulated_tick 30000 5000)).2
      = TimerEvent.js_gc :: TimerEvent.js_eval (timer_snippet "tick".toList) :: rest :=
  (periodic_collection_then_callback { g_timer_exec_count := 59, lastWarning := 0 }
    (simulated_tick 30000 5000) "tick".toList 1 rfl rfl (by decide) (by decide)).1 (by decide)

/-- C25: on a tick where the callback is evaluated, the device restarts if
and only if the evaluation result is an error whose text contains `expected`.
Without a restart the evaluation is followed by nothing, or by the error log
line alone when the result is an error.  In either case the invocation counter
is the old one plus one (modulo 2^32) and the time of the last warning is
unchanged. -/
theorem parse_failure_escalation (s : TimerState) (t : Tick) (sn : List Char)
    (heval : TimerEvent.js_eval sn ∈ (elk_timer_cb s t).2) :
    (TimerEvent.restart ∈ (elk_timer_cb s t).2 ↔
      ∃ text, t.evalResult = EvalResult.error (some text) ∧ "expected".toList <:+: text) ∧
    (TimerEvent.restart ∉ (elk_timer_cb s t).2 →
      ∃ pre, (pre = [] ∨ pre = [TimerEvent.js_gc]) ∧
        ((t.evalResult = EvalResult.ok ∧ (elk_timer_cb s t).2 = pre ++ [TimerEvent.js_eval sn]) ∨
         ((∃ text, t.evalResult = EvalResult.error text) ∧
          (elk_timer_cb s t).2 = pre ++ [TimerEvent.js_eval sn, TimerEvent.log_eval_error]))) ∧
    (elk_timer_cb s t).1.g_timer_exec_count = (s.g_timer_exec_count + 1) % UINT32_MOD ∧
    (elk_timer_cb s t).1.lastWarning = s.lastWarning := by
  obtain ⟨name, e, hname, hjs, hheap, hcount⟩ := elk_timer_cb_eval_inv s t sn heval
  obtain ⟨hst, hev⟩ := elk_timer_cb_eval_shape s t name e hname hjs hheap hcount
  have hpre : ∀ x ∈ (if (s.g_timer_exec_count + 1) % UINT32_MOD % GC_INTERVAL = 0
      then [TimerEvent.js_gc] else []), x = TimerEvent.js_gc := by
    intro x hx
    split_ifs at hx <;> simp at hx
    exact hx
  have hpre2 : (if (s.g_timer_exec_count + 1) % UINT32_MOD % GC_INTERVAL = 0
      then [TimerEvent.js_gc] else []) = [] ∨
      (if (s.g_timer_exec_count + 1) % UINT32_MOD % GC_INTERVAL = 0
      then [TimerEvent.js_gc] else []) = [TimerEvent.js_gc] := by
    split_ifs
    · exact Or.inr rfl
    · exact Or.inl rfl
  generalize (if (s.g_timer_exec_count + 1) % UINT32_MOD % GC_INTERVAL = 0
      then [TimerEvent.js_gc] else []) = pre at hev hpre hpre2
  have hsn : sn = timer_snippet name := by
    rw [hev] at heval
    simp only [List.mem_append, List.mem_singleton, TimerEvent.js_eval.injEq] at heval
    rcases heval with (h | h) | h
    · have := hpre _ h
      cases this
    · exact h
    · exfalso
      cases hres : t.evalResult with
      | ok => simp [hres] at h
      | error text =>
        simp only [hres] at h
        split_ifs at h <;> simp at h
  subst hsn
  refine ⟨?_, ?_, by rw [hst], by rw [hst]⟩
  · rw [hev]
    cases hres : t.evalResult with
    | ok =>
      simp only [List.mem_append, List.mem_singleton, reduceCtorEq, or_false, List.not_mem_nil,
        false_and, exists_false, iff_false]
      intro h
      have := hpre _ h
      cases this
    | error text =>
      cases text with
      | none =>
        have hf : is_parse_error none = false := rfl
        simp only [hf, Bool.false_eq_true, if_false, List.mem_append,
          List.mem_singleton, reduceCtorEq, or_false, EvalResult.error.injEq, false_and,
          exists_false, iff_false]
        intro h
        have := hpre _ h
        cases this
      | some text =>
        by_cases hp : "expected".toList <:+: text
        · have hd : is_parse_error (some text) = true := by
            simp only [is_parse_error, decide_eq_true hp]
          have hex : ∃ text2, EvalResult.error (some text) = EvalResult.error (some text2) ∧
              "expected".toList <:+: text2 := ⟨text, rfl, hp⟩
          simp only [hd, if_true, hex, iff_true]
          simp
        · have hd : is_parse_error (some text) = false := by
            simp only [is_parse_error, decide_eq_false hp]
          have hex : ¬ ∃ text2, EvalResult.error (some text) = EvalResult.error (some text2) ∧
              "expected".toList <:+: text2 := by
            rintro ⟨text2, h1, h2⟩
            cases h1
            exact hp h2
          simp only [hd, Bool.false_eq_true, if_false, hex, iff_false,
            List.mem_append, List.mem_singleton, reduceCtorEq, or_false]
          intro h
          have := hpre _ h
          cases this
  · intro hnr
    refine ⟨pre, hpre2, ?_⟩
    rw [hev] at hnr ⊢
    cases hres : t.evalResult with
    | ok =>
      left
      simp
    | error text =>
      right
      refine ⟨⟨text, rfl⟩, ?_⟩
      simp only [hres] at hnr
      simp only
      split_ifs with hp
      · exfalso
        apply hnr
        simp [hp]
      · simp

/-- C25 at a tick whose evaluation fails with a text that contains
`expected`: the device restarts. -/
theorem parse_failure_escalation_witness :
    TimerEvent.restart ∈
      (elk_timer_cb { g_timer_exec_count := 5, lastWarning := 0 }
        { func_name := some "tick".toList, js := some 1, freeHeap := 30000,
          freeHeapAfterGc := 30000, now := 1000,
          evalResult := EvalResult.error (some "ERROR: ; expected".toList) }).2 :=
  (parse_failure_escalation { g_timer_exec_count := 5, lastWarning := 0 }
    { func_name := some "tick".toList, js := some 1, freeHeap := 30000,
      freeHeapAfterGc := 30000, now := 1000,
      evalResult := EvalResult.error (some "ERROR: ; expected".toList) }
    "tick();".toList (by decide)).1.mpr ⟨"ERROR: ; expected".toList, rfl, by decide⟩

/-! ### The call expression of a timer -/

theorem c_str_of_no_nul (name : List Char) (h : Char.ofNat 0 ∉ name) : c_str name = name := by
  unfold c_str
  rw [List.takeWhile_eq_self_iff]
  intro x hx
  simp only [ne_eq, decide_eq_true_eq]
  intro hc
  exact h (hc ▸ hx)

theorem timer_snippet_short (name : List Char) (h : name.length ≤ 60) :
    timer_snippet name = name ++ "();".toList := by
  unfold timer_snippet
  apply List.take_of_length_le
  simp only [List.length_append]
  have : "();".toList.length = 3 := rfl
  omega

theorem timer_snippet_length_le (name : List Char) : (timer_snippet name).length ≤ 63 := by
  unfold timer_snippet
  simp only [List.length_take]
  omega

/-- C26, as stated, fails for a long name: after `create_timer` has stored a
name of 61 characters, the text evaluated on a normal tick has 63 characters,
the name followed by `()` without the semicolon, and is not the name followed
by `();`. -/
theorem long_callback_name_is_truncated :
    js_create_timer true [] [jsval.str (List.replicate 61 'f'), jsval.num 1000]
      = (jsval.null, [{ period := 1000, user_data := List.replicate 61 'f' }]) ∧
    (elk_timer_cb { g_timer_exec_count := 0, lastWarning := 0 }
        (LvTimer.tick { period := 1000, user_data := List.replicate 61 'f' }
          (simulated_tick 30000 5000))).2
      = [TimerEvent.js_eval (List.replicate 61 'f' ++ "()".toList)] ∧
    List.replicate 61 'f' ++ "()".toList ≠ List.replicate 61 'f' ++ "();".toList := by
  refine ⟨by decide, by decide, by decide⟩

/-- C26, amended.  A call of `create_timer` with a non-empty string as its
first argument (and a buffer from `malloc`) adds one timer whose stored name is
exactly that string.  If the name has at most 60 characters and no NUL
character, the text that `elk_timer_cb` evaluates on a normal tick of that
timer is exactly the name followed by `();`, and no other text is evaluated on
that tick.  A longer name gives a text of at most 63 characters. -/
theorem call_expression_of_registered_name (timers : List LvTimer) (args : List jsval)
    (name : List Char) (hargs : 2 ≤ args.length)
    (harg : args.getD 0 jsval.undef = jsval.str name) (hne : name ≠ []) :
    (∃ period, js_create_timer true timers args
      = (jsval.null, timers ++ [{ period := period, user_data := name }])) ∧
    (name.length ≤ 60 → Char.ofNat 0 ∉ name →
      ∀ (period : Nat) (s : TimerState) (t : Tick) (e : Nat), t.js = some e →
        20000 ≤ t.freeHeap → (s.g_timer_exec_count + 1) % UINT32_MOD < REBOOT_THRESHOLD →
        TimerEvent.js_eval (name ++ "();".toList) ∈
          (elk_timer_cb s (LvTimer.tick { period := period, user_data := name } t)).2 ∧
        ∀ sn, TimerEvent.js_eval sn ∈
          (elk_timer_cb s (LvTimer.tick { period := period, user_data := name } t)).2 →
          sn = name ++ "();".toList) ∧
    (timer_snippet (c_str name)).length ≤ 63 := by
  refine ⟨?_, ?_, timer_snippet_length_le _⟩
  · refine ⟨(js_getint (args.getD 1 jsval.undef) % 4294967296).toNat, ?_⟩
    unfold js_create_timer
    have h1 : ¬ args.length < 2 := by omega
    have h2 : ¬ name.length = 0 := by
      intro h
      exact hne (List.length_eq_zero.mp h)
    simp only [if_neg h1, harg, js_getstr, if_neg h2, Bool.not_true, Bool.false_eq_true,
      if_false]
  · intro hlen hnul period s t e hjs hheap hcount
    have hname : (LvTimer.tick { period := period, user_data := name } t).func_name
        = some name := by
      simp only [LvTimer.tick, c_str_of_no_nul name hnul]
    have hjs2 : (LvTimer.tick { period := period, user_data := name } t).js = some e := hjs
    have hheap2 : 20000 ≤ (LvTimer.tick { period := period, user_data := name } t).freeHeap :=
      hheap
    have hsn := timer_snippet_short name hlen
    constructor
    · rw [← hsn]
      exact elk_timer_cb_normal s _ name e hname hjs2 hheap2 hcount
    · intro sn hmem
      have hev := (elk_timer_cb_eval_shape s _ name e hname hjs2 hheap2 hcount).2
      rw [hev] at hmem
      rw [← hsn]
      simp only [List.mem_append, List.mem_singleton, TimerEvent.js_eval.injEq] at hmem
      rcases hmem with (h | h) | h
      · split_ifs at h <;> simp at h
      · exact h
      · exfalso
        revert h
        cases (LvTimer.tick { period := period, user_data := name } t).evalResult with
        | ok => simp
        | error text =>
          simp only
          split_ifs <;> simp

/-- The amended C26 for the name `tick` registered with a period of 1000 ms. -/
theorem call_expression_of_registered_name_witness :
    ∃ period, js_create_timer true [] [jsval.str "tick".toList, jsval.num 1000]
      = (jsval.null, [] ++ [{ period := period, user_data := "tick".toList }]) :=
  (call_expression_of_registered_name [] [jsval.str "tick".toList, jsval.num 1000]
    "tick".toList (by decide) rfl (by decide)).1

/-! ### Rate limit of the low-memory warning -/

/-- One tick and the warning: it is emitted only on a low-memory tick whose
clock is more than 5000 past `lastWarning` in 32-bit arithmetic, and then
`lastWarning` takes the clock; otherwise `lastWarning` keeps its value. -/
theorem elk_timer_cb_warning (s : TimerState) (t : Tick) :
    ((elk_timer_cb s t).2.any TimerEvent.is_low_memory_warning = true →
      t.freeHeap < 20000 ∧ (t.now + UINT32_MOD - s.lastWarning) % UINT32_MOD > 5000 ∧
      (elk_timer_cb s t).1.lastWarning = t.now) ∧
    ((elk_timer_cb s t).2.any TimerEvent.is_low_memory_warning = false →
      (elk_timer_cb s t).1.lastWarning = s.lastWarning) := by
  unfold elk_timer_cb
  cases t.func_name with
  | none => simp
  | some name =>
    cases t.js with
    | none => simp
    | some e =>
      simp only
      by_cases hlow : t.freeHeap < 20000
      · by_cases hw : (t.now + UINT32_MOD - s.lastWarning) % UINT32_MOD > 5000
        · by_cases hc : t.freeHeapAfterGc < 15000
          · simp [hlow, hw, hc, TimerEvent.is_low_memory_warning]
          · simp [hlow, hw, hc, TimerEvent.is_low_memory_warning]
        · by_cases hc : t.freeHeapAfterGc < 15000
          · simp [hlow, hw, hc, TimerEvent.is_low_memory_warning]
          · simp [hlow, hw, hc, TimerEvent.is_low_memory_warning]
      · simp only [if_neg hlow]
        by_cases hg : (s.g_timer_exec_count + 1) % UINT32_MOD % GC_INTERVAL = 0
        · by_cases hr : (s.g_timer_exec_count + 1) % UINT32_MOD ≥ REBOOT_THRESHOLD
          · simp [hg, hr, TimerEvent.is_low_memory_warning]
          · simp only [hg, hr, if_true, if_false]
            cases t.evalResult with
            | ok => simp [TimerEvent.is_low_memory_warning]
            | error text =>
              simp only
              split_ifs <;> simp [TimerEvent.is_low_memory_warning]
        · by_cases hr : (s.g_timer_exec_count + 1) % UINT32_MOD ≥ REBOOT_THRESHOLD
          · simp [hg, hr, TimerEvent.is_low_memory_warning]
          · simp only [hg, hr, if_true, if_false]
            cases t.evalResult with
            | ok => simp [TimerEvent.is_low_memory_warning]
            | error text =>
              simp only
              split_ifs <;> simp [TimerEvent.is_low_memory_warning]

theorem warning_times_chain (ticks : List Tick) :
    ∀ s : TimerState, s.lastWarning < UINT32_MOD → (∀ t ∈ ticks, t.now < UINT32_MOD) →
      List.Chain (fun a b : Nat => ((b : Int) - (a : Int)) % 4294967296 > 5000)
        s.lastWarning (warning_times s ticks) := by
  induction ticks with
  | nil =>
    intro s _ _
    exact List.Chain.nil
  | cons t rest ih =>
    intro s hs hclock
    have hnow : t.now < UINT32_MOD := hclock t (List.mem_cons_self _ _)
    have hrest : ∀ u ∈ rest, u.now < UINT32_MOD :=
      fun u hu => hclock u (List.mem_cons_of_mem _ hu)
    obtain ⟨hwarn, hquiet⟩ := elk_timer_cb_warning s t
    unfold warning_times
    cases hany : (elk_timer_cb s t).2.any TimerEvent.is_low_memory_warning with
    | true =>
      obtain ⟨-, hgap, hlast⟩ := hwarn hany
      simp only [if_true, List.singleton_append]
      refine List.Chain.cons ?_ ?_
      · unfold UINT32_MOD at hgap hs hnow
        omega
      · split_ifs
        · exact List.Chain.nil
        · have := ih (elk_timer_cb s t).1 (by rw [hlast]; exact hnow) hrest
          rw [hlast] at this
          exact this
    | false =>
      have hlast := hquiet hany
      simp only [Bool.false_eq_true, if_false, List.nil_append]
      split_ifs
      · exact List.Chain.nil
      · have := ih (elk_timer_cb s t).1 (by rw [hlast]; exact hs) hrest
        rw [hlast] at this
        exact this

/-- C27: over every run of ticks from the initial statics (with clock
readings below 2^32), the clock readings of the ticks that emit the low-memory
warning form a chain starting from 0 in which each reading is more than 5000
past the previous one in 32-bit arithmetic.  On every low-memory tick the
warning is emitted exactly when the clock is more than 5000 past the time of
the last warning modulo 2^32, and the collection is forced in either case. -/
theorem low_memory_warning_rate_limit (ticks : List Tick)
    (hclock : ∀ t ∈ ticks, t.now < UINT32_MOD) :
    List.Chain (fun a b : Nat => ((b : Int) - (a : Int)) % 4294967296 > 5000) 0
      (warning_times { g_timer_exec_count := 0, lastWarning := 0 } ticks) ∧
    (∀ (s : TimerState) (t : Tick) (name : List Char) (e : Nat),
      t.func_name = some name → t.js = some e → t.freeHeap < 20000 →
      s.lastWarning < UINT32_MOD → t.now < UINT32_MOD →
        ((elk_timer_cb s t).2.any TimerEvent.is_low_memory_warning = true ↔
          ((t.now : Int) - (s.lastWarning : Int)) % 4294967296 > 5000) ∧
        TimerEvent.js_gc ∈ (elk_timer_cb s t).2) := by
  refine ⟨warning_times_chain ticks { g_timer_exec_count := 0, lastWarning := 0 }
    (by decide) hclock, ?_⟩
  intro s t name e hname hjs hlow hs hnow
  refine ⟨?_, (elk_timer_cb_low s t name e hname hjs hlow).1⟩
  constructor
  · intro hany
    have hgap := ((elk_timer_cb_warning s t).1 hany).2.1
    unfold UINT32_MOD at hgap hs hnow
    omega
  · intro hgap
    have hw : (t.now + UINT32_MOD - s.lastWarning) % UINT32_MOD > 5000 := by
      unfold UINT32_MOD at hs hnow ⊢
      omega
    unfold elk_timer_cb
    simp only [hname, hjs, if_pos hlow, decide_eq_true hw, if_true]
    split_ifs <;> simp [TimerEvent.is_low_memory_warning]

/-- C27 on four low-memory ticks at 6000, 8000, 12000 and 13000 ms: the
warning is emitted at 6000 and at 12000 only. -/
theorem low_memory_warning_rate_limit_witness :
    warning_times { g_timer_exec_count := 0, lastWarning := 0 }
        [simulated_tick 18000 6000, simulated_tick 18000 8000, simulated_tick 18000 12000,
         simulated_tick 18000 13000] = [6000, 12000] ∧
    List.Chain (fun a b : Nat => ((b : Int) - (a : Int)) % 4294967296 > 5000) 0
      (warning_times { g_timer_exec_count := 0, lastWarning := 0 }
        [simulated_tick 18000 6000, simulated_tick 18000 8000, simulated_tick 18000 12000,
         simulated_tick 18000 13000]) :=
  ⟨by decide,
   (low_memory_warning_rate_limit
      [simulated_tick 18000 6000, simulated_tick 18000 8000, simulated_tick 18000 12000,
       simulated_tick 18000 13000] (by decide)).1⟩

/-! ### Indices of `js_lv_line_set_points` -/

theorem line_points_loop_eq (n : Nat) : ∀ i idx,
    line_points_loop n i idx
      = (List.range n).map (fun k => (i + k, idx + 2 * k, idx + 2 * k + 1)) := by
  induction n with
  | zero =>
    intro i idx
    rfl
  | succ n ih =>
    intro i idx
    rw [line_points_loop, ih, List.range_succ_eq_map, List.map_cons, List.map_map]
    refine congrArg₂ List.cons rfl ?_
    apply List.map_congr_left
    intro k _
    simp only [Function.comp, Prod.mk.injEq]
    refine ⟨by omega, by omega, by omega⟩

theorem line_points_eq_loop (args : List jsval) (n : Nat) :
    line_points args n
      = (line_points_loop n 0 1).flatMap
          (fun p => [js_getint (args.getD p.2.1 jsval.undef),
                     js_getint (args.getD p.2.2 jsval.undef)]) := by
  rw [line_points_loop_eq]
  unfold line_points
  rw [List.flatMap_map]

theorem line_points_append (args : List jsval) (v : jsval) (n : Nat)
    (h : 2 * n < args.length) : line_points (args ++ [v]) n = line_points args n := by
  unfold line_points
  apply List.flatMap_congr
  intro i hi
  have hi2 : i < n := List.mem_range.mp hi
  have h1 : 1 + 2 * i < args.length := by omega
  have h2 : 1 + 2 * i + 1 < args.length := by omega
  simp only [List.getD_eq_getElem?_getD, List.getElem?_append_left h1,
    List.getElem?_append_left h2]

theorem line_points_loop_bounds (n : Nat) (p : Nat × Nat × Nat)
    (hp : p ∈ line_points_loop n 0 1) :
    p.1 < n ∧ 1 ≤ p.2.1 ∧ p.2.2 = p.2.1 + 1 ∧ p.2.2 ≤ 2 * n := by
  rw [line_points_loop_eq] at hp
  obtain ⟨k, hk, rfl⟩ := List.mem_map.mp hp
  have hk2 : k < n := List.mem_range.mp hk
  show 0 + k < n ∧ 1 ≤ 1 + 2 * k ∧ 1 + 2 * k + 1 = 1 + 2 * k + 1 ∧ 1 + 2 * k + 1 ≤ 2 * n
  omega

theorem js_lv_line_set_points_valid (env : CallEnv) (b : Bridge) (args : List jsval)
    (line : Nat) (hargs : 3 ≤ args.length)
    (hline : get_lv_obj b.g_objects (js_getint (args.getD 0 jsval.undef)) = some line) :
    js_lv_line_set_points env b args
      = (jsval.null,
          { b with lv_calls := b.lv_calls ++
              [LvCall.mk "lv_line_set_points" line
                (line_points args (min ((args.length - 1) / 2) 16)
                  ++ [((min ((args.length - 1) / 2) 16 : Nat) : Int)]) []] }) := by
  unfold js_lv_line_set_points
  have h1 : ¬ args.length < 3 := by omega
  have h2 : ¬ (args.length - 1) / 2 < 1 := by omega
  have hmin : (if (args.length - 1) / 2 > 16 then 16 else (args.length - 1) / 2)
      = min ((args.length - 1) / 2) 16 := by
    split_ifs <;> omega
  simp only [if_neg h1, if_neg h2, hline, hmin]

theorem js_lv_line_set_points_reads_valid (b : Bridge) (args : List jsval) (line : Nat)
    (hargs : 3 ≤ args.length)
    (hline : get_lv_obj b.g_objects (js_getint (args.getD 0 jsval.undef)) = some line) :
    js_lv_line_set_points_reads b args
      = 0 :: (line_points_loop (min ((args.length - 1) / 2) 16) 0 1).flatMap
          (fun p => [p.2.1, p.2.2]) := by
  unfold js_lv_line_set_points_reads
  have h1 : ¬ args.length < 3 := by omega
  have h2 : ¬ (args.length - 1) / 2 < 1 := by omega
  have hmin : (if (args.length - 1) / 2 > 16 then 16 else (args.length - 1) / 2)
      = min ((args.length - 1) / 2) 16 := by
    split_ifs <;> omega
  simp only [if_neg h1, if_neg h2, hline, hmin]

/-- C28, as stated, fails: a call with a valid line handle and one point reads
the arguments at the indices 0, 1 and 2; index 0, read for the handle, lies
outside the range from 1 to `nargs - 1`. -/
theorem lv_line_set_points_reads_the_handle_at_index_zero :
    js_lv_line_set_points_reads line_bridge [jsval.num 0, jsval.num 1, jsval.num 2]
      = [0, 1, 2] ∧
    ¬ (∀ k ∈ js_lv_line_set_points_reads line_bridge [jsval.num 0, jsval.num 1, jsval.num 2],
        1 ≤ k ∧ k ≤ [jsval.num 0, jsval.num 1, jsval.num 2].length - 1) := by
  decide

/-- C28, amended.  With fewer than 3 arguments `lv_line_set_points` returns
null, leaves the state alone and reads no argument.  With at least 3 arguments
and a valid line handle the number of points handed to the toolkit is
`min((nargs - 1) / 2, 16)`, which is at least 1; the handle is read at argument
index 0 and every other read is a coordinate read by the loop, at an index
between 1 and `nargs - 1`, in pairs of neighbours, into point indices below 16;
so every index read is at most `nargs - 1`; and an unpaired last argument
changes nothing. -/
theorem lv_line_set_points_indices (env : CallEnv) (b : Bridge) (args : List jsval) :
    (args.length < 3 → js_lv_line_set_points env b args = (jsval.null, b) ∧
      js_lv_line_set_points_reads b args = []) ∧
    (3 ≤ args.length → ∀ line,
      get_lv_obj b.g_objects (js_getint (args.getD 0 jsval.undef)) = some line →
      1 ≤ min ((args.length - 1) / 2) 16 ∧
      js_lv_line_set_points env b args
        = (jsval.null,
            { b with lv_calls := b.lv_calls ++
                [LvCall.mk "lv_line_set_points" line
                  (line_points args (min ((args.length - 1) / 2) 16)
                    ++ [((min ((args.length - 1) / 2) 16 : Nat) : Int)]) []] }) ∧
      js_lv_line_set_points_reads b args
        = 0 :: (line_points_loop (min ((args.length - 1) / 2) 16) 0 1).flatMap
            (fun p => [p.2.1, p.2.2]) ∧
      line_points args (min ((args.length - 1) / 2) 16)
        = (line_points_loop (min ((args.length - 1) / 2) 16) 0 1).flatMap
            (fun p => [js_getint (args.getD p.2.1 jsval.undef),
                       js_getint (args.getD p.2.2 jsval.undef)]) ∧
      (∀ p ∈ line_points_loop (min ((args.length - 1) / 2) 16) 0 1,
        p.1 < 16 ∧ 1 ≤ p.2.1 ∧ p.2.2 = p.2.1 + 1 ∧ p.2.2 ≤ args.length - 1) ∧
      (∀ k ∈ js_lv_line_set_points_reads b args, k ≤ args.length - 1)) ∧
    (3 ≤ args.length → args.length % 2 = 1 → ∀ v,
      js_lv_line_set_points env b (args ++ [v]) = js_lv_line_set_points env b args ∧
      args.length ∉ js_lv_line_set_points_reads b (args ++ [v])) := by
  have hloop : ∀ n, 2 * n ≤ args.length - 1 →
      ∀ k ∈ (line_points_loop n 0 1).flatMap (fun p => [p.2.1, p.2.2]),
        1 ≤ k ∧ k ≤ args.length - 1 := by
    intro n hn k hk
    obtain ⟨p, hp, hkp⟩ := List.mem_flatMap.mp hk
    have hb := line_points_loop_bounds n p hp
    simp only [List.mem_cons, List.mem_singleton, List.mem_nil_iff, or_false] at hkp
    rcases hkp with rfl | rfl <;> omega
  refine ⟨?_, ?_, ?_⟩
  · intro h
    exact ⟨by simp only [js_lv_line_set_points, if_pos h],
      by simp only [js_lv_line_set_points_reads, if_pos h]⟩
  · intro hargs line hline
    refine ⟨by omega, js_lv_line_set_points_valid env b args line hargs hline,
      js_lv_line_set_points_reads_valid b args line hargs hline,
      line_points_eq_loop args _, ?_, ?_⟩
    · intro p hp
      have := line_points_loop_bounds _ p hp
      omega
    · intro k hk
      rw [js_lv_line_set_points_reads_valid b args line hargs hline] at hk
      rcases List.mem_cons.mp hk with rfl | hk2
      · omega
      · exact (hloop _ (by omega) k hk2).2
  · intro hargs hodd v
    have hlen : (args ++ [v]).length = args.length + 1 := by simp
    have h0 : (args ++ [v]).getD 0 jsval.undef = args.getD 0 jsval.undef := by
      have : 0 < args.length := by omega
      simp only [List.getD_eq_getElem?_getD, List.getElem?_append_left this]
    have hpairs : ((args ++ [v]).length - 1) / 2 = (args.length - 1) / 2 := by
      rw [hlen]
      omega
    cases hline : get_lv_obj b.g_objects (js_getint (args.getD 0 jsval.undef)) with
    | none =>
      constructor
      · unfold js_lv_line_set_points
        have h1 : ¬ args.length < 3 := by omega
        have h1b : ¬ args.length + 1 < 3 := by omega
        have h2 : ¬ (args.length - 1) / 2 < 1 := by omega
        have h2b : ¬ (args.length + 1 - 1) / 2 < 1 := by omega
        simp only [hlen, h0, if_neg h1, if_neg h1b, if_neg h2, if_neg h2b, hline]
      · unfold js_lv_line_set_points_reads
        have h1b : ¬ args.length + 1 < 3 := by omega
        have h2b : ¬ (args.length + 1 - 1) / 2 < 1 := by omega
        simp only [hlen, h0, if_neg h1b, if_neg h2b, hline, List.mem_singleton]
        omega
    | some line =>
      constructor
      · rw [js_lv_line_set_points_valid env b args line hargs hline,
          js_lv_line_set_points_valid env b (args ++ [v]) line (by omega)
            (by rw [h0]; exact hline)]
        rw [hpairs, line_points_append args v _ (by omega)]
      · rw [js_lv_line_set_points_reads_valid b (args ++ [v]) line (by omega)
          (by rw [h0]; exact hline), hpairs]
        intro hmem
        rcases List.mem_cons.mp hmem with h | h
        · omega
        · have := (hloop _ (by omega) _ h).2
          omega

/-- The amended C28 at a call with the handle, two points and an unpaired
coordinate: two points are handed over, and the last argument is neither used
nor read. -/
theorem lv_line_set_points_indices_witness :
    js_lv_line_set_points sample_env line_bridge
        [jsval.num 0, jsval.num 1, jsval.num 2, jsval.num 3, jsval.num 4, jsval.num 99]
      = (jsval.null,
          { line_bridge with lv_calls :=
              [LvCall.mk "lv_line_set_points" 900 [1, 2, 3, 4, 2] []] }) ∧
    js_lv_line_set_points sample_env line_bridge
        ([jsval.num 0, jsval.num 1, jsval.num 2, jsval.num 3, jsval.num 4] ++ [jsval.num 99])
      = js_lv_line_set_points sample_env line_bridge
          [jsval.num 0, jsval.num 1, jsval.num 2, jsval.num 3, jsval.num 4] ∧
    [jsval.num 0, jsval.num 1, jsval.num 2, jsval.num 3, jsval.num 4].length ∉
      js_lv_line_set_points_reads line_bridge
        ([jsval.num 0, jsval.num 1, jsval.num 2, jsval.num 3, jsval.num 4] ++ [jsval.num 99]) :=
  ⟨by decide,
   (lv_line_set_points_indices sample_env line_bridge
      [jsval.num 0, jsval.num 1, jsval.num 2, jsval.num 3, jsval.num 4]).2.2
      (by decide) (by decide) (jsval.num 99)⟩

/-! ### Script-level brightness -/

theorem js_set_brightness_keeps_stored (d : Display) (args : List jsval) :
    (js_set_brightness d args).2.g_brightness = d.g_brightness ∧
    (js_set_brightness d args).2.g_display_on = d.g_display_on := by
  unfold js_set_brightness
  split_ifs <;> exact ⟨rfl, rfl⟩

theorem js_set_brightness_calls_keep_stored (calls : List (List jsval)) :
    ∀ d : Display, (js_set_brightness_calls d calls).g_brightness = d.g_brightness := by
  induction calls with
  | nil =>
    intro d
    rfl
  | cons args rest ih =>
    intro d
    rw [js_set_brightness_calls, ih, (js_set_brightness_keeps_stored d args).1]

/-- C30: `set_brightness(v)` returns `v` clamped to the range 0..255 and sends
that value to the panel; without an argument it returns -1 and sends nothing.
It never touches the stored brightness, so `get_brightness` after any number
of `set_brightness` calls still returns the value last stored by
`webscreen_display_set_brightness`, which is 200 after boot. -/
theorem set_brightness_clamped_not_recorded (d : Display) :
    (∀ (v : Int) (rest : List jsval),
      js_set_brightness d (jsval.num v :: rest)
        = (jsval.num (max 0 (min v 255)),
            { d with lcd_brightness := d.lcd_brightness ++ [(max 0 (min v 255)).toNat] })) ∧
    js_set_brightness d [] = (jsval.num (-1), d) ∧
    (∀ (calls : List (List jsval)) (args : List jsval),
      (js_get_brightness (js_set_brightness_calls d calls) args).1
        = jsval.num (d.g_brightness : Nat)) ∧
    (∀ (brightness : Nat) (calls : List (List jsval)) (args : List jsval),
      (js_get_brightness
          (js_set_brightness_calls (webscreen_display_set_brightness d brightness).2 calls)
          args).1
        = jsval.num ((brightness % 256 : Nat) : Int)) ∧
    (js_get_brightness (js_set_brightness display_boot [jsval.num 50]).2 []).1
      = jsval.num 200 := by
  refine ⟨?_, rfl, ?_, ?_, by decide⟩
  · intro v rest
    have hval : (if (if v < 0 then 0 else v) > 255 then 255 else (if v < 0 then 0 else v))
        = max 0 (min v 255) := by
      split_ifs <;> omega
    have hmod : (max 0 (min v 255)).toNat % 256 = (max 0 (min v 255)).toNat := by
      apply Nat.mod_eq_of_lt
      omega
    simp only [js_set_brightness, List.length_cons, List.getD_cons_zero, js_getint]
    have h1 : ¬ rest.length + 1 < 1 := by omega
    simp only [if_neg h1, hval, hmod]
  · intro calls args
    simp only [js_get_brightness, webscreen_display_get_brightness,
      js_set_brightness_calls_keep_stored]
  · intro brightness calls args
    simp only [js_get_brightness, webscreen_display_get_brightness,
      js_set_brightness_calls_keep_stored, webscreen_display_set_brightness]

/-- C30 at `set_brightness(300)` after boot: 255 is returned and sent to the
panel, and the stored brightness is still 200. -/
theorem set_brightness_clamped_not_recorded_witness :
    js_set_brightness display_boot [jsval.num 300]
      = (jsval.num 255, { display_boot with lcd_brightness := [255] }) ∧
    (js_get_brightness (js_set_brightness display_boot [jsval.num 300]).2 []).1
      = jsval.num 200 :=
  ⟨by decide, (set_brightness_clamped_not_recorded display_boot).2.2.1
    [[jsval.num 300]] []⟩

/-! ### Base64 decoding -/

theorem base64_accumulate (buf v : Nat) (hv : v < 64) :
    ((buf <<< 6) % UINT32_MOD) ||| v = (buf * 64 + v) % UINT32_MOD := by
  have h1 : (buf <<< 6) % UINT32_MOD = 2 ^ 6 * (buf % 67108864) := by
    rw [Nat.shiftLeft_eq]
    unfold UINT32_MOD
    omega
  have hv2 : v < 2 ^ 6 := by omega
  rw [h1, ← Nat.mul_add_lt_is_or hv2]
  unfold UINT32_MOD
  omega

theorem base64_extract (x k : Nat) : (x >>> k) &&& 0xFF = x / 2 ^ k % 256 := by
  rw [Nat.shiftRight_eq_div_pow]
  exact Nat.and_pow_two_sub_one_eq_mod _ 8

theorem base64_char_table : ∀ v, v < 64 →
    base64_char v ≠ 61 ∧ base64_char v ≠ 10 ∧ base64_char v ≠ 13 ∧ base64_char v ≠ 32 ∧
    base64_char v < 128 ∧ base64_decode_table.getD (base64_char v) 64 = v := by
  decide

theorem base64_decode_step_char (capacity : Nat) (st : Base64State) (v : Nat) (hv : v < 64) :
    base64_decode_step capacity st (base64_char v) =
      if st.bitsCollected + 6 ≥ 8 then
        if st.output.length < capacity then
          some
            { output := st.output ++
                [(st.buffer * 64 + v) % UINT32_MOD / 2 ^ (st.bitsCollected + 6 - 8) % 256],
              buffer := (st.buffer * 64 + v) % UINT32_MOD,
              bitsCollected := st.bitsCollected + 6 - 8 }
        else none
      else
        some { output := st.output, buffer := (st.buffer * 64 + v) % UINT32_MOD,
               bitsCollected := st.bitsCollected + 6 } := by
  obtain ⟨h1, h2, h3, h4, h5, h6⟩ := base64_char_table v hv
  unfold base64_decode_step
  have hc : ¬ (base64_char v = 61 ∨ base64_char v = 10 ∨ base64_char v = 13 ∨
      base64_char v = 32) := by
    rintro (h | h | h | h) <;> contradiction
  have h5b : ¬ base64_char v ≥ 128 := by omega
  have h6b : ¬ v ≥ 64 := by omega
  simp only [if_neg hc, if_neg h5b, h6, if_neg h6b, base64_accumulate _ _ hv, base64_extract]

theorem base64_decode_step_pad (capacity : Nat) (st : Base64State) :
    base64_decode_step capacity st 61 = some st := by
  simp [base64_decode_step]

theorem base64_decode_loop_append (capacity : Nat) (xs ys : List Nat) :
    ∀ st : Base64State, base64_decode_loop capacity st (xs ++ ys)
      = (base64_decode_loop capacity st xs).bind
          (fun st1 => base64_decode_loop capacity st1 ys) := by
  induction xs with
  | nil =>
    intro st
    rfl
  | cons c rest ih =>
    intro st
    simp only [List.cons_append, base64_decode_loop]
    cases base64_decode_step capacity st c with
    | none => rfl
    | some st1 => exact ih st1

theorem base64_decode_group (capacity : Nat) (st : Base64State) (a b c : Nat)
    (hst : st.bitsCollected = 0) (hroom : st.output.length + 3 ≤ capacity)
    (ha : a < 256) (hb : b < 256) (hc : c < 256) :
    ∃ buf, base64_decode_loop capacity st
        [base64_char (a / 4), base64_char (a % 4 * 16 + b / 16),
          base64_char (b % 16 * 4 + c / 64), base64_char (c % 64)]
      = some { output := st.output ++ [a, b, c], buffer := buf, bitsCollected := 0 } := by
  have r1 : st.output.length < capacity := by omega
  have r2 : st.output.length + 1 < capacity := by omega
  have r3 : st.output.length + 1 + 1 < capacity := by omega
  simp only [base64_decode_loop]
  rw [base64_decode_step_char capacity st (a / 4) (by omega)]
  simp only [hst, Nat.zero_add, ge_iff_le, Nat.reduceLeDiff, if_false]
  rw [base64_decode_step_char capacity _ (a % 4 * 16 + b / 16) (by omega)]
  simp only [ge_iff_le, Nat.reduceLeDiff, Nat.reduceAdd, Nat.reduceSub, if_true, Nat.reducePow,
    if_pos r1]
  rw [base64_decode_step_char capacity _ (b % 16 * 4 + c / 64) (by omega)]
  simp only [ge_iff_le, Nat.reduceLeDiff, Nat.reduceAdd, Nat.reduceSub, if_true, Nat.reducePow,
    List.length_append, List.length_singleton, if_pos r2]
  rw [base64_decode_step_char capacity _ (c % 64) (by omega)]
  simp only [ge_iff_le, Nat.reduceLeDiff, Nat.reduceAdd, Nat.reduceSub, if_true, Nat.reducePow,
    List.length_append, List.length_singleton, if_pos r3, Nat.div_one]
  simp only [List.append_assoc, List.singleton_append]
  unfold UINT32_MOD
  have e1 : ((st.buffer * 64 + a / 4) % 4294967296 * 64 + (a % 4 * 16 + b / 16)) % 4294967296
      / 16 % 256 = a := by omega
  have e2 : (((st.buffer * 64 + a / 4) % 4294967296 * 64 + (a % 4 * 16 + b / 16)) % 4294967296
      * 64 + (b % 16 * 4 + c / 64)) % 4294967296 / 4 % 256 = b := by omega
  have e3 : ((((st.buffer * 64 + a / 4) % 4294967296 * 64 + (a % 4 * 16 + b / 16)) % 4294967296
      * 64 + (b % 16 * 4 + c / 64)) % 4294967296 * 64 + c % 64) % 4294967296 % 256 = c := by
    omega
  rw [e1, e2, e3]
  exact ⟨_, rfl⟩

theorem base64_decode_tail_one (capacity : Nat) (st : Base64State) (a : Nat)
    (hst : st.bitsCollected = 0) (hroom : st.output.length + 1 ≤ capacity) (ha : a < 256) :
    ∃ st1, base64_decode_loop capacity st [base64_char (a / 4), base64_char (a % 4 * 16), 61, 61]
      = some st1 ∧ st1.output = st.output ++ [a] := by
  have r1 : st.output.length < capacity := by omega
  simp only [base64_decode_loop, base64_decode_step_pad]
  rw [base64_decode_step_char capacity st (a / 4) (by omega)]
  simp only [hst, Nat.zero_add, ge_iff_le, Nat.reduceLeDiff, if_false]
  rw [base64_decode_step_char capacity _ (a % 4 * 16) (by omega)]
  simp only [ge_iff_le, Nat.reduceLeDiff, Nat.reduceAdd, Nat.reduceSub, if_true, Nat.reducePow,
    if_pos r1, base64_decode_step_pad]
  unfold UINT32_MOD
  have e1 : ((st.buffer * 64 + a / 4) % 4294967296 * 64 + a % 4 * 16) % 4294967296
      / 16 % 256 = a := by omega
  rw [e1]
  exact ⟨_, rfl, rfl⟩

theorem base64_decode_tail_two (capacity : Nat) (st : Base64State) (a b : Nat)
    (hst : st.bitsCollected = 0) (hroom : st.output.length + 2 ≤ capacity)
    (ha : a < 256) (hb : b < 256) :
    ∃ st1, base64_decode_loop capacity st
        [base64_char (a / 4), base64_char (a % 4 * 16 + b / 16), base64_char (b % 16 * 4), 61]
      = some st1 ∧ st1.output = st.output ++ [a, b] := by
  have r1 : st.output.length < capacity := by omega
  have r2 : st.output.length + 1 < capacity := by omega
  simp only [base64_decode_loop]
  rw [base64_decode_step_char capacity st (a / 4) (by omega)]
  simp only [hst, Nat.zero_add, ge_iff_le, Nat.reduceLeDiff, if_false]
  rw [base64_decode_step_char capacity _ (a % 4 * 16 + b / 16) (by omega)]
  simp only [ge_iff_le, Nat.reduceLeDiff, Nat.reduceAdd, Nat.reduceSub, if_true, Nat.reducePow,
    if_pos r1]
  rw [base64_decode_step_char capacity _ (b % 16 * 4) (by omega)]
  simp only [ge_iff_le, Nat.reduceLeDiff, Nat.reduceAdd, Nat.reduceSub, if_true, Nat.reducePow,
    List.length_append, List.length_singleton, if_pos r2, base64_decode_step_pad]
  simp only [List.append_assoc, List.singleton_append]
  unfold UINT32_MOD
  have e1 : ((st.buffer * 64 + a / 4) % 4294967296 * 64 + (a % 4 * 16 + b / 16)) % 4294967296
      / 16 % 256 = a := by omega
  have e2 : (((st.buffer * 64 + a / 4) % 4294967296 * 64 + (a % 4 * 16 + b / 16)) % 4294967296
      * 64 + b % 16 * 4) % 4294967296 / 4 % 256 = b := by omega
  rw [e1, e2]
  exact ⟨_, rfl, rfl⟩

theorem base64_decode_encode_from (capacity : Nat) (bytes : List Nat) :
    ∀ st : Base64State, st.bitsCollected = 0 → (∀ x ∈ bytes, x < 256) →
      st.output.length + bytes.length ≤ capacity →
      ∃ st1, base64_decode_loop capacity st (standard_base64_encode bytes) = some st1 ∧
        st1.output = st.output ++ bytes := by
  induction bytes using standard_base64_encode.induct with
  | case1 a b c rest ih =>
    intro st hst hbytes hroom
    have ha : a < 256 := hbytes a (by simp)
    have hb : b < 256 := hbytes b (by simp)
    have hc : c < 256 := hbytes c (by simp)
    have hrest : ∀ x ∈ rest, x < 256 := fun x hx => hbytes x (by simp [hx])
    simp only [List.length_cons] at hroom
    obtain ⟨buf, hgroup⟩ := base64_decode_group capacity st a b c hst (by omega) ha hb hc
    have hsplit : standard_base64_encode (a :: b :: c :: rest)
        = [base64_char (a / 4), base64_char (a % 4 * 16 + b / 16),
            base64_char (b % 16 * 4 + c / 64), base64_char (c % 64)]
          ++ standard_base64_encode rest := by
      simp [standard_base64_encode]
    obtain ⟨st1, hloop, hout⟩ := ih
      { output := st.output ++ [a, b, c], buffer := buf, bitsCollected := 0 } rfl hrest
      (by simp only [List.length_append, List.length_cons, List.length_nil]; omega)
    refine ⟨st1, ?_, ?_⟩
    · rw [hsplit, base64_decode_loop_append, hgroup]
      exact hloop
    · rw [hout]
      simp
  | case2 a b =>
    intro st hst hbytes hroom
    exact base64_decode_tail_two capacity st a b hst (by simpa using hroom)
      (hbytes a (by simp)) (hbytes b (by simp))
  | case3 a =>
    intro st hst hbytes hroom
    exact base64_decode_tail_one capacity st a hst (by simpa using hroom) (hbytes a (by simp))
  | case4 =>
    intro st _ _ _
    exact ⟨st, by simp [standard_base64_encode, base64_decode_loop], by simp⟩

theorem base64_decode_skips_whitespace (capacity : Nat) (input : List Nat) :
    ∀ st : Base64State,
      base64_decode_loop capacity st input
        = base64_decode_loop capacity st (input.filter (fun c => !is_base64_whitespace c)) := by
  induction input with
  | nil =>
    intro st
    rfl
  | cons c rest ih =>
    intro st
    by_cases hws : is_base64_whitespace c = true
    · have hstep : base64_decode_step capacity st c = some st := by
        unfold is_base64_whitespace at hws
        simp only [Bool.or_eq_true, beq_iff_eq] at hws
        unfold base64_decode_step
        have : c = 61 ∨ c = 10 ∨ c = 13 ∨ c = 32 := by
          rcases hws with (h | h) | h
          · exact Or.inr (Or.inr (Or.inr h))
          · exact Or.inr (Or.inr (Or.inl h))
          · exact Or.inr (Or.inl h)
        simp only [if_pos this]
      simp only [base64_decode_loop, hstep, List.filter_cons, hws, Bool.not_true,
        Bool.false_eq_true, if_false]
      exact ih st
    · simp only [Bool.not_eq_true] at hws
      simp only [base64_decode_loop, List.filter_cons, hws, Bool.not_false, if_true]
      cases base64_decode_step capacity st c with
      | none => rfl
      | some st1 => exact ih st1

theorem base64_alphabet_table : ∀ c, c < 128 →
    ((¬ (c = 61 ∨ c = 10 ∨ c = 13 ∨ c = 32) ∧ base64_decode_table.getD c 64 < 64) ↔
      c ∈ base64_alphabet) := by
  decide

theorem base64_alphabet_lt : ∀ c ∈ base64_alphabet, c < 128 := by
  decide

/-- One pass and the count of output bytes: a character outside the alphabet
leaves the state alone; a character of the alphabet adds 6 bits, writing a byte
when 8 are there, and the pass is undefined exactly when that byte falls
outside the array. -/
theorem base64_decode_step_count (capacity : Nat) (st : Base64State) (c : Nat)
    (hbits : st.bitsCollected < 8) :
    (is_base64_alphabet c = false → base64_decode_step capacity st c = some st) ∧
    (is_base64_alphabet c = true →
      (st.bitsCollected + 6 ≥ 8 ∧ capacity ≤ st.output.length ∧
        base64_decode_step capacity st c = none) ∨
      ∃ st1, base64_decode_step capacity st c = some st1 ∧ st1.bitsCollected < 8 ∧
        8 * st1.output.length + st1.bitsCollected
          = 8 * st.output.length + st.bitsCollected + 6 ∧
        (st.output.length ≤ capacity → st1.output.length ≤ capacity)) := by
  by_cases hlt : c < 128
  · have htab := base64_alphabet_table c hlt
    constructor
    · intro hal
      have hal2 : c ∉ base64_alphabet := by simpa [is_base64_alphabet] using hal
      unfold base64_decode_step
      by_cases h1 : c = 61 ∨ c = 10 ∨ c = 13 ∨ c = 32
      · simp only [if_pos h1]
      · have h3 : ¬ c ≥ 128 := by omega
        have h4 : base64_decode_table.getD c 64 ≥ 64 := by
          by_contra hc
          exact hal2 (htab.mp ⟨h1, by omega⟩)
        simp only [if_neg h1, if_neg h3, if_pos h4]
    · intro hal
      have hal2 : c ∈ base64_alphabet := by simpa [is_base64_alphabet] using hal
      obtain ⟨h1, h2⟩ := htab.mpr hal2
      have h3 : ¬ c ≥ 128 := by omega
      have h4 : ¬ base64_decode_table.getD c 64 ≥ 64 := by omega
      unfold base64_decode_step
      simp only [if_neg h1, if_neg h3, if_neg h4]
      by_cases h8 : st.bitsCollected + 6 ≥ 8
      · by_cases hroom : st.output.length < capacity
        · right
          rw [if_pos h8, if_pos hroom]
          refine ⟨_, rfl, ?_, ?_, ?_⟩
          · simp only
            omega
          · simp only [List.length_append, List.length_singleton]
            omega
          · intro _
            simp only [List.length_append, List.length_singleton]
            omega
        · left
          exact ⟨h8, by omega, by rw [if_pos h8, if_neg hroom]⟩
      · right
        rw [if_neg h8]
        refine ⟨_, rfl, ?_, ?_, ?_⟩
        · simp only
          omega
        · simp only
          omega
        · intro h
          exact h
  · have hal : c ∉ base64_alphabet := fun h => hlt (base64_alphabet_lt c h)
    have h5 : is_base64_alphabet c = false := by simp [is_base64_alphabet, hal]
    constructor
    · intro _
      unfold base64_decode_step
      have h3 : c ≥ 128 := by omega
      split_ifs <;> rfl
    · intro h
      rw [h5] at h
      cases h

theorem base64_decode_count (capacity : Nat) (input : List Nat) :
    ∀ st : Base64State, st.bitsCollected < 8 → st.output.length ≤ capacity →
      (capacity < (8 * st.output.length + st.bitsCollected
          + 6 * (input.filter is_base64_alphabet).length) / 8 →
        base64_decode_loop capacity st input = none) ∧
      ((8 * st.output.length + st.bitsCollected
          + 6 * (input.filter is_base64_alphabet).length) / 8 ≤ capacity →
        ∃ st1, base64_decode_loop capacity st input = some st1 ∧
          8 * st1.output.length + st1.bitsCollected
            = 8 * st.output.length + st.bitsCollected
              + 6 * (input.filter is_base64_alphabet).length ∧
          st1.bitsCollected < 8) := by
  induction input with
  | nil =>
    intro st hbits hroom
    simp only [List.filter_nil, List.length_nil, Nat.mul_zero, Nat.add_zero, base64_decode_loop]
    constructor
    · intro h
      omega
    · intro _
      exact ⟨st, rfl, rfl, hbits⟩
  | cons c rest ih =>
    intro st hbits hroom
    obtain ⟨hskip, halpha⟩ := base64_decode_step_count capacity st c hbits
    cases hal : is_base64_alphabet c with
    | false =>
      have hstep := hskip hal
      have hk : ((c :: rest).filter is_base64_alphabet).length
          = (rest.filter is_base64_alphabet).length := by
        simp only [List.filter_cons, hal, Bool.false_eq_true, if_false]
      simp only [base64_decode_loop, hstep, hk]
      exact ih st hbits hroom
    | true =>
      have hk : ((c :: rest).filter is_base64_alphabet).length
          = (rest.filter is_base64_alphabet).length + 1 := by
        simp only [List.filter_cons, hal, if_true, List.length_cons]
      rcases halpha hal with ⟨h8, hfull, hnone⟩ | ⟨st1, hstep, hb1, hsum, hroom1⟩
      · simp only [base64_decode_loop, hnone, hk]
        constructor
        · intro _
          trivial
        · intro h
          omega
      · simp only [base64_decode_loop, hstep, hk]
        obtain ⟨ih1, ih2⟩ := ih st1 hb1 (hroom1 hroom)
        constructor
        · intro h
          apply ih1
          omega
        · intro h
          obtain ⟨st2, hloop, hsum2, hb2⟩ := ih2 (by omega)
          exact ⟨st2, hloop, by omega, hb2⟩

theorem standard_base64_encode_zeros (n : Nat) :
    standard_base64_encode (List.replicate (3 * n) 0) = List.replicate (4 * n) 65 := by
  induction n with
  | zero => rfl
  | succ n ih =>
    have h3 : 3 * (n + 1) = 3 * n + 1 + 1 + 1 := by omega
    have h4 : 4 * (n + 1) = 4 * n + 1 + 1 + 1 + 1 := by omega
    rw [h3, h4]
    simp only [List.replicate_succ, standard_base64_encode, ih]
    have h65 : base64_char 0 = 65 := by decide
    simp only [Nat.zero_div, Nat.zero_mod, Nat.zero_mul, Nat.add_zero, h65]

theorem base64_decode_none_iff (capacity : Nat) (input : List Nat) :
    base64_decode capacity input = none ↔
      capacity < 6 * (input.filter is_base64_alphabet).length / 8 := by
  obtain ⟨h1, h2⟩ := base64_decode_count capacity input
    { output := [], buffer := 0, bitsCollected := 0 } (by decide) (Nat.zero_le _)
  simp only [List.length_nil, Nat.mul_zero, Nat.zero_add] at h1 h2
  unfold base64_decode
  constructor
  · intro hnone
    by_contra hc
    obtain ⟨st1, hloop, -⟩ := h2 (by omega)
    rw [hloop] at hnone
    cases hnone
  · intro hlt
    rw [h1 hlt]
    rfl

theorem base64_decode_some_length (capacity : Nat) (input : List Nat) (r : List Nat × Nat)
    (h : base64_decode capacity input = some r) :
    r.2 = 6 * (input.filter is_base64_alphabet).length / 8 ∧ r.1.length = r.2 := by
  obtain ⟨h1, h2⟩ := base64_decode_count capacity input
    { output := [], buffer := 0, bitsCollected := 0 } (by decide) (Nat.zero_le _)
  simp only [List.length_nil, Nat.mul_zero, Nat.zero_add] at h1 h2
  by_cases hc : 6 * (input.filter is_base64_alphabet).length / 8 ≤ capacity
  · obtain ⟨st1, hloop, hsum, hbits⟩ := h2 hc
    unfold base64_decode at h
    rw [hloop] at h
    simp only [Option.map_some', Option.some.injEq] at h
    rw [← h]
    exact ⟨by simp only; omega, rfl⟩
  · have hnone := (base64_decode_none_iff capacity input).mpr (by omega)
    rw [hnone] at h
    cases h

theorem base64_decode_encode (capacity : Nat) (bytes input : List Nat)
    (hbytes : ∀ x ∈ bytes, x < 256)
    (hinput : input.filter (fun c => !is_base64_whitespace c) = standard_base64_encode bytes)
    (hroom : bytes.length ≤ capacity) :
    base64_decode capacity input = some (bytes, bytes.length) := by
  obtain ⟨st1, hloop, hout⟩ := base64_decode_encode_from capacity bytes
    { output := [], buffer := 0, bitsCollected := 0 } rfl hbytes (by simpa using hroom)
  unfold base64_decode
  rw [base64_decode_skips_whitespace, hinput, hloop]
  simp only [Option.map_some', hout, List.nil_append]

/-- C29 fails on the code for a long line.  The standard encoding of 513 zero
bytes is a line of 684 characters `A`; decoding it into the 512-byte
`decodeBuffer` of `uploadFile` writes `output[512]`, outside the array, where
the behaviour is undefined.  In general `base64_decode` writes outside an
array of `capacity` bytes exactly when `6 * k / 8` rounded down exceeds
`capacity`, with `k` the number of alphabet characters of the input; when it
does not, the returned length is `6 * k / 8` rounded down and, for the standard
encoding of a byte sequence of at most `capacity` bytes with spaces, carriage
returns and line feeds put anywhere in it, the bytes written are exactly that
sequence.  The accumulator is kept modulo 2^32 throughout. -/
theorem base64_decode_overruns_decode_buffer :
    standard_base64_encode (List.replicate 513 0) = List.replicate 684 65 ∧
    base64_decode DECODE_BUFFER_SIZE (List.replicate 684 65) = none ∧
    (∀ (capacity : Nat) (input : List Nat),
      base64_decode capacity input = none ↔
        capacity < 6 * (input.filter is_base64_alphabet).length / 8) ∧
    (∀ (capacity : Nat) (input : List Nat) (r : List Nat × Nat),
      base64_decode capacity input = some r →
        r.2 = 6 * (input.filter is_base64_alphabet).length / 8 ∧ r.1.length = r.2) ∧
    (∀ (capacity : Nat) (bytes input : List Nat), (∀ x ∈ bytes, x < 256) →
      input.filter (fun c => !is_base64_whitespace c) = standard_base64_encode bytes →
      bytes.length ≤ capacity →
      base64_decode capacity input = some (bytes, bytes.length)) ∧
    base64_decode DECODE_BUFFER_SIZE ("aGVs\r bG8=".toList.map Char.toNat)
      = some ([104, 101, 108, 108, 111], 5) := by
  refine ⟨standard_base64_encode_zeros 171, ?_, base64_decode_none_iff,
    base64_decode_some_length, base64_decode_encode, by decide⟩
  rw [base64_decode_none_iff]
  have hal : is_base64_alphabet 65 = true := by decide
  rw [List.filter_replicate_of_pos hal, List.length_replicate]
  decide

end WebScreen
